import Mathlib

/-!
CameraNativeWindow: the buffer-slot pool

A shallow embedding of `src/CameraNativeWindow.cpp`.  Every member function
that touches the pool is a pure function from the pool state (and whatever the
outside world supplies during the call) to a status code and a new state.

* `int` values are `Int`; the frame counter is a `Nat`.
* `mSlots` is a list.  `slotAt` reads an index; a read outside the array
  (undefined in C++) yields the value `oob` supplied by the environment, and
  theorems hold for every such value.
* The mutex is not modelled: each function is one critical section.  A
  `dequeueBuffer` that reaches `mDequeueCondition.wait` is reported as
  `DequeueResult.waits` with the state untouched; after a wake-up the same
  scan is run again on the then-current state.
-/

namespace CNW

/-! ## Platform constants (`utils/Errors.h`, `errno.h`, `system/window.h`) -/

/-- Status `OK` of `utils/Errors.h`. -/
def OK : Int := 0
/-- Status `NO_ERROR` of `utils/Errors.h`. -/
def NO_ERROR : Int := 0
/-- Errno `EINVAL`. -/
def EINVAL : Int := 22
/-- Errno `EBUSY`. -/
def EBUSY : Int := 16
/-- Status `BAD_VALUE` of `utils/Errors.h`, defined there as `-EINVAL`. -/
def BAD_VALUE : Int := -EINVAL
/-- Status `NO_MEMORY` of `utils/Errors.h`, defined there as `-ENOMEM`. -/
def NO_MEMORY : Int := -12
/-- Sentinel `NATIVE_WINDOW_TIMESTAMP_AUTO` of `system/window.h` (`INT64_MIN`). -/
def NATIVE_WINDOW_TIMESTAMP_AUTO : Int := -9223372036854775808
/-- Query key `NATIVE_WINDOW_WIDTH`. -/
def NATIVE_WINDOW_WIDTH : Int := 0
/-- Query key `NATIVE_WINDOW_HEIGHT`. -/
def NATIVE_WINDOW_HEIGHT : Int := 1
/-- Query key `NATIVE_WINDOW_FORMAT`. -/
def NATIVE_WINDOW_FORMAT : Int := 2
/-- Query key `NATIVE_WINDOW_MIN_UNDEQUEUED_BUFFERS`. -/
def NATIVE_WINDOW_MIN_UNDEQUEUED_BUFFERS : Int := 3

/-! ## Constants of `CameraNativeWindow.h` -/

/-- The enum constants that `CameraNativeWindow.cpp` uses and that are declared
in `CameraNativeWindow.h`; the header is not among the sources, so they are
parameters of the model. -/
structure Consts where
  NUM_BUFFER_SLOTS : Nat
  MIN_BUFFER_SLOTS : Nat
  MIN_UNDEQUEUED_BUFFERS : Nat
  INVALID_BUFFER_SLOT : Int
deriving DecidableEq

/-- What the code relies on: the "no slot" marker is negative (it is tested by
`found < 0`) and the default buffer count fits in the slot array. -/
def Consts.Sane (c : Consts) : Prop :=
  c.INVALID_BUFFER_SLOT < 0 ∧ c.MIN_BUFFER_SLOTS ≤ c.NUM_BUFFER_SLOTS

instance (c : Consts) : Decidable c.Sane := by
  unfold Consts.Sane; exact inferInstance

/-! ## Data model -/

/-- Modelled from the spec: `BufferSlot::BufferState` is declared in the missing
header; the spec's slot state is the two-valued enum FREE / ACQUIRED, the
latter being `BufferSlot::DEQUEUED` in the code. -/
inductive BufferState where
  | FREE
  | DEQUEUED
deriving DecidableEq

/-- An `ANativeWindowBuffer` as seen by `getSlotFromBufferLocked`: only its
`handle` (the identity of the underlying resource) is read. -/
structure ANativeWindowBuffer where
  handle : Nat
deriving DecidableEq

/-- A `GraphicBuffer`: an `ANativeWindowBuffer` together with the four
arguments its constructor was given. -/
structure GraphicBuffer extends ANativeWindowBuffer where
  width : Int
  height : Int
  format : Int
  usage : Nat
deriving DecidableEq

/-- Modelled from the spec: `BufferSlot` is declared in the missing header.  The
spec's slot has a state, an optional buffer (`sp<GraphicBuffer>`, `none` is
NULL), a frame number (a counter with no stated width, hence `Nat`) and a
signed timestamp. -/
structure BufferSlot where
  mGraphicBuffer : Option GraphicBuffer
  mBufferState : BufferState
  mFrameNumber : Nat
  mTimestamp : Int
deriving DecidableEq

/-- Modelled from the spec: the `BufferSlot` constructor is in the missing
header.  Slots are created empty: FREE, no buffer, frame number 0 (the
timestamp of a never-released slot is taken as 0). -/
def BufferSlot.ctor : BufferSlot :=
  { mGraphicBuffer := none, mBufferState := BufferState.FREE, mFrameNumber := 0, mTimestamp := 0 }

/-- The data members of `CameraNativeWindow` that the `.cpp` file reads or
writes (the mutex and the condition variable have no state of their own
here). -/
structure CameraNativeWindow where
  mSlots : List BufferSlot
  mDefaultWidth : Int
  mDefaultHeight : Int
  mPixelFormat : Int
  mUsage : Nat
  mTimestamp : Int
  mBufferCount : Int
  mFrameCounter : Nat
deriving DecidableEq

/-- What the outside world supplies during one call: the content of memory
outside the slot array (`oob`), the reading of `systemTime(SYSTEM_TIME_MONOTONIC)`,
and the outcome of `new GraphicBuffer(...)`: the handle of the new buffer and
the result of its `initCheck()`. -/
structure Env where
  oob : BufferSlot
  systemTime : Int
  allocHandle : Nat
  initCheck : Int
deriving DecidableEq

/-- The read `mSlots[i]`. -/
def slotAt (slots : List BufferSlot) (oob : BufferSlot) (i : Int) : BufferSlot :=
  if 0 ≤ i then slots.getD i.toNat oob else oob

/-- The write `mSlots[i] = v`; a write outside the array is dropped. -/
def setSlot (slots : List BufferSlot) (i : Int) (v : BufferSlot) : List BufferSlot :=
  if 0 ≤ i then slots.set i.toNat v else slots

/-! ## Construction -/

/-- `CameraNativeWindow::init` (run by the constructor on the default-constructed
slot array). -/
def init (c : Consts) : CameraNativeWindow :=
  { mSlots := List.replicate c.NUM_BUFFER_SLOTS BufferSlot.ctor
    mDefaultWidth := 0
    mDefaultHeight := 0
    mPixelFormat := 0
    mUsage := 0
    mTimestamp := NATIVE_WINDOW_TIMESTAMP_AUTO
    mBufferCount := c.MIN_BUFFER_SLOTS
    mFrameCounter := 0 }

/-! ## Freeing buffers and `setBufferCount` -/

/-- `CameraNativeWindow::freeBufferLocked`. -/
def freeBufferLocked (e : Env) (s : CameraNativeWindow) (i : Int) : CameraNativeWindow :=
  let s1 :=
    if (slotAt s.mSlots e.oob i).mGraphicBuffer ≠ none then
      { s with mSlots := setSlot s.mSlots i { slotAt s.mSlots e.oob i with mGraphicBuffer := none } }
    else s
  { s1 with mSlots := setSlot s1.mSlots i { slotAt s1.mSlots e.oob i with mBufferState := BufferState.FREE } }

/-- `CameraNativeWindow::freeAllBuffersLocked`. -/
def freeAllBuffersLocked (c : Consts) (e : Env) (s : CameraNativeWindow) : CameraNativeWindow :=
  (List.range c.NUM_BUFFER_SLOTS).foldl (fun st (i : Nat) => freeBufferLocked e st (i : Int)) s

/-- The loop of `setBufferCount` that looks for a DEQUEUED slot among the first
`mBufferCount` ones. -/
def anyDequeued (e : Env) (s : CameraNativeWindow) : Bool :=
  (List.range s.mBufferCount.toNat).any
    (fun (i : Nat) => decide ((slotAt s.mSlots e.oob (i : Int)).mBufferState = BufferState.DEQUEUED))

/-- `CameraNativeWindow::setBufferCount`. -/
def setBufferCount (c : Consts) (e : Env) (s : CameraNativeWindow) (bufferCount : Int) :
    Int × CameraNativeWindow :=
  if bufferCount > c.NUM_BUFFER_SLOTS then (BAD_VALUE, s)
  else if bufferCount = s.mBufferCount then (OK, s)
  else if bufferCount < c.MIN_BUFFER_SLOTS then (BAD_VALUE, s)
  else if anyDequeued e s then (-EINVAL, s)
  else if bufferCount > s.mBufferCount then (OK, { s with mBufferCount := bufferCount })
  else (OK, { freeAllBuffersLocked c e s with mBufferCount := bufferCount })

/-! ## `dequeueBuffer` -/

/-- One iteration of the `for` loop of `dequeueBuffer`; the loop state is
`(found, dequeuedCount)`. -/
def scanStep (slots : List BufferSlot) (oob : BufferSlot) (st : Int × Int) (i : Nat) : Int × Int :=
  let state := (slotAt slots oob i).mBufferState
  if state = BufferState.DEQUEUED then (st.1, st.2 + 1)
  else if state = BufferState.FREE then
    let isOlder : Bool :=
      decide ((slotAt slots oob i).mFrameNumber < (slotAt slots oob st.1).mFrameNumber)
    if st.1 < 0 ∨ isOlder = true then ((i : Int), st.2) else st
  else st

/-- The scan of `dequeueBuffer`: `found = INVALID_BUFFER_SLOT; dequeuedCount = 0;`
followed by the `for` loop over `[0, mBufferCount)`. -/
def dequeueScan (c : Consts) (e : Env) (s : CameraNativeWindow) : Int × Int :=
  (List.range s.mBufferCount.toNat).foldl (scanStep s.mSlots e.oob) (c.INVALID_BUFFER_SLOT, 0)

/-- Outcome of a call of `dequeueBuffer`: either the call is suspended in
`mDequeueCondition.wait`, or it returns a status, the value written to
`*buffer` (if any) and the new state. -/
inductive DequeueResult where
  | waits
  | done (status : Int) (buffer : Option GraphicBuffer) (s : CameraNativeWindow)
deriving DecidableEq

/-- `CameraNativeWindow::dequeueBuffer`.  The `-EBUSY` return after the loop is
unreachable, since the loop is left only with `found != INVALID_BUFFER_SLOT`. -/
def dequeueBuffer (c : Consts) (e : Env) (s : CameraNativeWindow) : DequeueResult :=
  let found := (dequeueScan c e s).1
  if found = c.INVALID_BUFFER_SLOT then DequeueResult.waits
  else
    let buf := found
    let s1 : CameraNativeWindow :=
      { s with mSlots := setSlot s.mSlots buf
                 { slotAt s.mSlots e.oob buf with mBufferState := BufferState.DEQUEUED } }
    match (slotAt s1.mSlots e.oob buf).mGraphicBuffer with
    | none =>
      let graphicBuffer : GraphicBuffer :=
        { handle := e.allocHandle, width := s1.mDefaultWidth, height := s1.mDefaultHeight,
          format := s1.mPixelFormat, usage := s1.mUsage }
      let error := e.initCheck
      if error ≠ NO_ERROR then DequeueResult.done error none s1
      else
        let s2 : CameraNativeWindow :=
          { s1 with mSlots := setSlot s1.mSlots buf
                      { slotAt s1.mSlots e.oob buf with mGraphicBuffer := some graphicBuffer } }
        DequeueResult.done NO_ERROR (slotAt s2.mSlots e.oob buf).mGraphicBuffer s2
    | some _ =>
      DequeueResult.done NO_ERROR (slotAt s1.mSlots e.oob buf).mGraphicBuffer s1

/-! ## `queueBuffer`, `cancelBuffer`, `lockBuffer` -/

/-- The test of the loop of `getSlotFromBufferLocked`:
`mSlots[i].mGraphicBuffer != NULL && mSlots[i].mGraphicBuffer->handle == buffer->handle`. -/
def handleMatches (slots : List BufferSlot) (oob : BufferSlot) (b : ANativeWindowBuffer)
    (i : Nat) : Bool :=
  match (slotAt slots oob (i : Int)).mGraphicBuffer with
  | some g => decide (g.handle = b.handle)
  | none => false

/-- `CameraNativeWindow::getSlotFromBufferLocked`; `none` is the NULL pointer. -/
def getSlotFromBufferLocked (c : Consts) (e : Env) (s : CameraNativeWindow)
    (buffer : Option ANativeWindowBuffer) : Int :=
  match buffer with
  | none => BAD_VALUE
  | some b =>
    match (List.range c.NUM_BUFFER_SLOTS).find? (handleMatches s.mSlots e.oob b) with
    | some i => (i : Int)
    | none => BAD_VALUE

/-- `CameraNativeWindow::queueBuffer`. -/
def queueBuffer (c : Consts) (e : Env) (s : CameraNativeWindow)
    (buffer : Option ANativeWindowBuffer) : Int × CameraNativeWindow :=
  let buf := getSlotFromBufferLocked c e s buffer
  if buf < 0 ∨ buf ≥ s.mBufferCount then (-EINVAL, s)
  else if (slotAt s.mSlots e.oob buf).mBufferState ≠ BufferState.DEQUEUED then (-EINVAL, s)
  else
    let timestamp : Int :=
      if s.mTimestamp = NATIVE_WINDOW_TIMESTAMP_AUTO then e.systemTime else s.mTimestamp
    let s1 : CameraNativeWindow :=
      { s with mSlots := setSlot s.mSlots buf
                 { slotAt s.mSlots e.oob buf with mBufferState := BufferState.FREE } }
    let s2 : CameraNativeWindow :=
      { s1 with mSlots := setSlot s1.mSlots buf
                  { slotAt s1.mSlots e.oob buf with mTimestamp := timestamp } }
    let s3 : CameraNativeWindow := { s2 with mFrameCounter := s2.mFrameCounter + 1 }
    let s4 : CameraNativeWindow :=
      { s3 with mSlots := setSlot s3.mSlots buf
                  { slotAt s3.mSlots e.oob buf with mFrameNumber := s3.mFrameCounter } }
    (OK, s4)

/-- `CameraNativeWindow::lockBuffer`. -/
def lockBuffer (s : CameraNativeWindow) (_buffer : Option ANativeWindowBuffer) :
    Int × CameraNativeWindow :=
  (OK, s)

/-- `CameraNativeWindow::cancelBuffer`. -/
def cancelBuffer (c : Consts) (e : Env) (s : CameraNativeWindow)
    (buffer : Option ANativeWindowBuffer) : Int × CameraNativeWindow :=
  let buf := getSlotFromBufferLocked c e s buffer
  if buf < 0 ∨ buf ≥ s.mBufferCount then (-EINVAL, s)
  else if (slotAt s.mSlots e.oob buf).mBufferState ≠ BufferState.DEQUEUED then (-EINVAL, s)
  else
    let s1 : CameraNativeWindow :=
      { s with mSlots := setSlot s.mSlots buf
                 { slotAt s.mSlots e.oob buf with mBufferState := BufferState.FREE } }
    let s2 : CameraNativeWindow :=
      { s1 with mSlots := setSlot s1.mSlots buf
                  { slotAt s1.mSlots e.oob buf with mFrameNumber := 0 } }
    (OK, s2)

/-! ## Query and configuration -/

/-- `CameraNativeWindow::query`: the status and the value written to
`outValue[0]` (if any).  The function is `const`. -/
def query (c : Consts) (s : CameraNativeWindow) (what : Int) : Int × Option Int :=
  if what = NATIVE_WINDOW_WIDTH then (NO_ERROR, some s.mDefaultWidth)
  else if what = NATIVE_WINDOW_HEIGHT then (NO_ERROR, some s.mDefaultHeight)
  else if what = NATIVE_WINDOW_FORMAT then (NO_ERROR, some s.mPixelFormat)
  else if what = NATIVE_WINDOW_MIN_UNDEQUEUED_BUFFERS then
    (NO_ERROR, some (c.MIN_UNDEQUEUED_BUFFERS : Int))
  else (BAD_VALUE, none)

/-- `CameraNativeWindow::setSwapInterval`. -/
def setSwapInterval (s : CameraNativeWindow) (_interval : Int) : Int × CameraNativeWindow :=
  (NO_ERROR, s)

/-- `CameraNativeWindow::setUsage`. -/
def setUsage (s : CameraNativeWindow) (reqUsage : Nat) : Int × CameraNativeWindow :=
  (OK, { s with mUsage := reqUsage })

/-- `CameraNativeWindow::setBuffersDimensions`. -/
def setBuffersDimensions (s : CameraNativeWindow) (w h : Int) : Int × CameraNativeWindow :=
  if w < 0 ∨ h < 0 then (BAD_VALUE, s)
  else if (w ≠ 0 ∧ ¬ h ≠ 0) ∨ (¬ w ≠ 0 ∧ h ≠ 0) then (BAD_VALUE, s)
  else (OK, { s with mDefaultWidth := w, mDefaultHeight := h })

/-- `CameraNativeWindow::setBuffersFormat`. -/
def setBuffersFormat (s : CameraNativeWindow) (format : Int) : Int × CameraNativeWindow :=
  if format < 0 then (BAD_VALUE, s)
  else (NO_ERROR, { s with mPixelFormat := format })

/-- `CameraNativeWindow::setBuffersTimestamp`. -/
def setBuffersTimestamp (s : CameraNativeWindow) (timestamp : Int) : Int × CameraNativeWindow :=
  (OK, { s with mTimestamp := timestamp })

/-! ## Traces of calls -/

/-- The calls a client can make on the window. -/
inductive Op where
  | dequeueBuffer
  | queueBuffer (buffer : Option ANativeWindowBuffer)
  | cancelBuffer (buffer : Option ANativeWindowBuffer)
  | lockBuffer (buffer : Option ANativeWindowBuffer)
  | setBufferCount (bufferCount : Int)
  | query (what : Int)
  | setSwapInterval (interval : Int)
  | setUsage (reqUsage : Nat)
  | setBuffersDimensions (w h : Int)
  | setBuffersFormat (format : Int)
  | setBuffersTimestamp (timestamp : Int)
deriving DecidableEq

/-- The state after one call made in environment `e`.  A `dequeueBuffer` that
waits has not changed the state. -/
def step (c : Consts) (e : Env) (s : CameraNativeWindow) : Op → CameraNativeWindow
  | Op.dequeueBuffer =>
    match dequeueBuffer c e s with
    | DequeueResult.waits => s
    | DequeueResult.done _ _ s1 => s1
  | Op.queueBuffer buffer => (queueBuffer c e s buffer).2
  | Op.cancelBuffer buffer => (cancelBuffer c e s buffer).2
  | Op.lockBuffer buffer => (lockBuffer s buffer).2
  | Op.setBufferCount n => (setBufferCount c e s n).2
  | Op.query _ => s
  | Op.setSwapInterval interval => (setSwapInterval s interval).2
  | Op.setUsage u => (setUsage s u).2
  | Op.setBuffersDimensions w h => (setBuffersDimensions s w h).2
  | Op.setBuffersFormat f => (setBuffersFormat s f).2
  | Op.setBuffersTimestamp t => (setBuffersTimestamp s t).2

/-- The allocator hands out a handle that no buffer currently held by a slot
has. -/
def AllocFresh (e : Env) (s : CameraNativeWindow) : Prop :=
  ∀ sl ∈ s.mSlots, ∀ g, sl.mGraphicBuffer = some g → g.handle ≠ e.allocHandle

/-- The states reachable from construction by calls of the member functions,
with an allocator whose successful allocations return fresh handles. -/
inductive Reachable (c : Consts) : CameraNativeWindow → Prop where
  | init : Reachable c (init c)
  | step {s : CameraNativeWindow} (e : Env) (op : Op) :
      Reachable c s →
      (op = Op.dequeueBuffer → e.initCheck = NO_ERROR → AllocFresh e s) →
      Reachable c (step c e s op)

/-- The state after a sequence of calls, each with its environment. -/
def run (c : Consts) (s : CameraNativeWindow) (calls : List (Env × Op)) : CameraNativeWindow :=
  calls.foldl (fun st eo => step c eo.1 st eo.2) s

/-- Number of slots of the array in state DEQUEUED. -/
def dequeuedSlots (s : CameraNativeWindow) : Nat :=
  s.mSlots.countP (fun sl => decide (sl.mBufferState = BufferState.DEQUEUED))

/-- The array has its declared size and the first `mBufferCount` slots lie
inside it. -/
def WellFormed (c : Consts) (s : CameraNativeWindow) : Prop :=
  s.mSlots.length = c.NUM_BUFFER_SLOTS ∧ s.mBufferCount ≤ c.NUM_BUFFER_SLOTS

/-- What the scan of `dequeueBuffer` has established after looking at the slots
`[0, n)`, the "no slot" marker being `inv`: either `found` is still the marker
and none of them is FREE, or `found` is the first FREE slot among them that
has the least frame number. -/
def ScanInv (slots : List BufferSlot) (oob : BufferSlot) (inv : Int) (n : Nat) (found : Int) : Prop :=
  (found = inv ∧ ∀ j : Nat, j < n → (slotAt slots oob (j : Int)).mBufferState ≠ BufferState.FREE) ∨
  (0 ≤ found ∧ found < (n : Int) ∧ (slotAt slots oob found).mBufferState = BufferState.FREE ∧
    ∀ j : Nat, j < n → (slotAt slots oob (j : Int)).mBufferState = BufferState.FREE →
      (slotAt slots oob found).mFrameNumber ≤ (slotAt slots oob (j : Int)).mFrameNumber ∧
      ((j : Int) < found →
        (slotAt slots oob found).mFrameNumber < (slotAt slots oob (j : Int)).mFrameNumber))

/-- The buffer that `dequeueBuffer` constructs for a slot that has none. -/
def newGraphicBuffer (e : Env) (s : CameraNativeWindow) : GraphicBuffer :=
  { handle := e.allocHandle, width := s.mDefaultWidth, height := s.mDefaultHeight,
    format := s.mPixelFormat, usage := s.mUsage }

/-- The effect of `freeBufferLocked` on one slot. -/
def freeSlot (sl : BufferSlot) : BufferSlot :=
  { sl with mGraphicBuffer := none, mBufferState := BufferState.FREE }

/-- The invariant of every state reached from construction: the array has its
declared size, `mBufferCount` lies between `MIN_BUFFER_SLOTS` and
`NUM_BUFFER_SLOTS`, and the slots from `mBufferCount` on are FREE and own no
buffer. -/
structure Inv (c : Consts) (s : CameraNativeWindow) : Prop where
  length_eq : s.mSlots.length = c.NUM_BUFFER_SLOTS
  min_le : (c.MIN_BUFFER_SLOTS : Int) ≤ s.mBufferCount
  le_num : s.mBufferCount ≤ (c.NUM_BUFFER_SLOTS : Int)
  inert : ∀ (i : Nat) (sl : BufferSlot), s.mSlots[i]? = some sl → s.mBufferCount ≤ (i : Int) →
    sl.mBufferState = BufferState.FREE ∧ sl.mGraphicBuffer = none

/-- No two slots own buffers with the same handle. -/
def DistinctHandles (s : CameraNativeWindow) : Prop :=
  ∀ (i j : Nat) (si sj : BufferSlot) (gi gj : GraphicBuffer),
    s.mSlots[i]? = some si → s.mSlots[j]? = some sj →
    si.mGraphicBuffer = some gi → sj.mGraphicBuffer = some gj →
    gi.handle = gj.handle → i = j

/-! ## Concrete pools used to exercise the theorems -/

/-- A small instance of the header constants: four slots, three of them in use
by default. -/
def sampleConsts : Consts :=
  { NUM_BUFFER_SLOTS := 4, MIN_BUFFER_SLOTS := 3, MIN_UNDEQUEUED_BUFFERS := 2,
    INVALID_BUFFER_SLOT := -1 }

/-- An environment whose allocator succeeds with handle 7. -/
def sampleEnv : Env :=
  { oob := { mGraphicBuffer := none, mBufferState := BufferState.DEQUEUED,
             mFrameNumber := 0, mTimestamp := 0 }
    systemTime := 1000, allocHandle := 7, initCheck := NO_ERROR }

/-- An environment whose allocator fails with `NO_MEMORY`. -/
def failingEnv : Env := { sampleEnv with initCheck := NO_MEMORY }

/-- A buffer with the given handle. -/
def sampleBuffer (h : Nat) : GraphicBuffer :=
  { handle := h, width := 0, height := 0, format := 0, usage := 0 }

/-- A pool in mid-use: slot 0 is held by the client, slots 1 and 2 were
released as frames 5 and 2, slot 3 is outside the three slots in use. -/
def samplePool : CameraNativeWindow :=
  { init sampleConsts with
    mSlots :=
      [ { mGraphicBuffer := some (sampleBuffer 1), mBufferState := BufferState.DEQUEUED,
          mFrameNumber := 4, mTimestamp := 40 },
        { mGraphicBuffer := some (sampleBuffer 2), mBufferState := BufferState.FREE,
          mFrameNumber := 5, mTimestamp := 50 },
        { mGraphicBuffer := some (sampleBuffer 3), mBufferState := BufferState.FREE,
          mFrameNumber := 2, mTimestamp := 20 },
        BufferSlot.ctor ]
    mFrameCounter := 5 }

/-- Four `dequeueBuffer` calls whose allocations succeed with handles 7, 8, 9
(the fourth call finds no FREE slot), followed by a `queueBuffer` of handle 8. -/
def sampleCalls : List (Env × Op) :=
  [ (sampleEnv, Op.dequeueBuffer),
    ({ sampleEnv with allocHandle := 8 }, Op.dequeueBuffer),
    ({ sampleEnv with allocHandle := 9 }, Op.dequeueBuffer),
    ({ sampleEnv with allocHandle := 10 }, Op.dequeueBuffer),
    (sampleEnv, Op.queueBuffer (some ⟨8⟩)) ]

/-- One acquire (allocating handle 7) followed by a cancel of it. -/
def idleCalls : List (Env × Op) :=
  [ (sampleEnv, Op.dequeueBuffer), (sampleEnv, Op.cancelBuffer (some ⟨7⟩)) ]

/-- A pool reached from construction in which slot 0 owns a buffer and is FREE. -/
def idlePool : CameraNativeWindow :=
  run sampleConsts (init sampleConsts) idleCalls

/-- The pool `idlePool` grown to four slots in use. -/
def grownPool : CameraNativeWindow :=
  (setBufferCount sampleConsts sampleEnv idlePool 4).2

/-- The calls `dequeueBuffer` made one after the other, one per environment. -/
def acquireCalls (envs : List Env) : List (Env × Op) :=
  envs.map (fun e => (e, Op.dequeueBuffer))

/-- A slot of the freshly constructed pool after it was acquired in environment
`e` with a successful allocation. -/
def heldSlot (c : Consts) (e : Env) : BufferSlot :=
  { mGraphicBuffer := some (newGraphicBuffer e (init c)), mBufferState := BufferState.DEQUEUED,
    mFrameNumber := 0, mTimestamp := 0 }

/-- Slot `i` after slots `0, 1, ...` were acquired in the environments `envs`. -/
def acquiredSlot (c : Consts) (envs : List Env) (i : Nat) : BufferSlot :=
  match envs[i]? with
  | some e => heldSlot c e
  | none => BufferSlot.ctor

/-- The freshly constructed pool with its first slots acquired in the
environments `envs`. -/
def acquiredPool (c : Consts) (envs : List Env) : CameraNativeWindow :=
  { init c with mSlots := (List.range c.NUM_BUFFER_SLOTS).map (acquiredSlot c envs) }

/-- Three environments whose allocations succeed with handles 7, 8 and 9. -/
def sampleEnvs : List Env :=
  [ sampleEnv, { sampleEnv with allocHandle := 8 }, { sampleEnv with allocHandle := 9 } ]

/-- The resolution of a handle as `queueBuffer` and `cancelBuffer` perform it:
`getSlotFromBufferLocked` over the whole array, then the range check
`buf < 0 || buf >= mBufferCount`; `none` when the call is rejected there. -/
def resolveChecked (c : Consts) (e : Env) (s : CameraNativeWindow)
    (buffer : Option ANativeWindowBuffer) : Option Nat :=
  if getSlotFromBufferLocked c e s buffer < 0 ∨
      getSlotFromBufferLocked c e s buffer ≥ s.mBufferCount then none
  else some (getSlotFromBufferLocked c e s buffer).toNat

/-- Resolution against the eligible slots only, in the words of the spec: the
first slot with index in `[0, mBufferCount)` whose buffer has the identity of
the handle; `none` when there is no such slot or the handle is NULL. -/
def resolveEligible (e : Env) (s : CameraNativeWindow)
    (buffer : Option ANativeWindowBuffer) : Option Nat :=
  match buffer with
  | none => none
  | some b => (List.range s.mBufferCount.toNat).find? (handleMatches s.mSlots e.oob b)

/-- The read `mSlots[i]` with the bounds of the array checked: `none` when `i`
lies outside the array. -/
def slotAtChecked (slots : List BufferSlot) (i : Int) : Option BufferSlot :=
  if 0 ≤ i then slots[i.toNat]? else none

/-- One iteration of the `for` loop of `dequeueBuffer` with every read of
`mSlots` bounds-checked, in the order the code performs them: `mSlots[i]` for
the state, then, for a FREE slot, `mSlots[i]` and `mSlots[found]` for
`isOlder`, and only then the test `found < 0 || isOlder`.  The result is
`none` as soon as a read lies outside the array. -/
def scanStepChecked (slots : List BufferSlot) (st : Int × Int) (i : Nat) : Option (Int × Int) :=
  match slotAtChecked slots (i : Int) with
  | none => none
  | some si =>
    if si.mBufferState = BufferState.DEQUEUED then some (st.1, st.2 + 1)
    else if si.mBufferState = BufferState.FREE then
      match slotAtChecked slots st.1 with
      | none => none
      | some sf =>
        let isOlder : Bool := decide (si.mFrameNumber < sf.mFrameNumber)
        if st.1 < 0 ∨ isOlder = true then some ((i : Int), st.2) else some st
    else some st

/-- The scan of `dequeueBuffer` with bounds-checked reads. -/
def dequeueScanChecked (c : Consts) (s : CameraNativeWindow) : Option (Int × Int) :=
  (List.range s.mBufferCount.toNat).foldl
    (fun (acc : Option (Int × Int)) (i : Nat) => acc.bind (fun st => scanStepChecked s.mSlots st i))
    (some (c.INVALID_BUFFER_SLOT, 0))

/-- The pool left by a first `dequeueBuffer` whose allocation failed: slot 0 is
DEQUEUED and owns no buffer. -/
def stuckPool : CameraNativeWindow :=
  step sampleConsts failingEnv (init sampleConsts) Op.dequeueBuffer

/-- The frame numbers of the slots, in the order of the array. -/
def frames (s : CameraNativeWindow) : List Nat :=
  s.mSlots.map (fun sl => sl.mFrameNumber)

/-- The invariant of the frame numbers: each is at most the frame counter, and
two different slots never carry the same non-zero frame number. -/
def FramesOk (fr : List Nat) (fc : Nat) : Prop :=
  (∀ (i x : Nat), fr[i]? = some x → x ≤ fc) ∧
  (∀ (i j x : Nat), fr[i]? = some x → fr[j]? = some x → x ≠ 0 → i = j)

/-- How one call updates the history flag of slot `i`, "released since the
last reset": a `queueBuffer` that returns `OK` for slot `i` sets it, a
`cancelBuffer` that returns `OK` for slot `i` clears it and, when `freed` is
set, a `setBufferCount` that shrinks successfully (and so runs
`freeBufferLocked` on every slot) clears it as well. -/
def releasedMarkStep (freed : Bool) (c : Consts) (e : Env) (s : CameraNativeWindow)
    (m : Nat → Bool) (op : Op) (i : Nat) : Bool :=
  match op with
  | Op.queueBuffer buffer =>
    if (queueBuffer c e s buffer).1 = OK ∧ getSlotFromBufferLocked c e s buffer = (i : Int)
    then true else m i
  | Op.cancelBuffer buffer =>
    if (cancelBuffer c e s buffer).1 = OK ∧ getSlotFromBufferLocked c e s buffer = (i : Int)
    then false else m i
  | Op.setBufferCount n =>
    if freed = true ∧ (setBufferCount c e s n).1 = OK ∧ n < s.mBufferCount
    then false else m i
  | _ => m i

/-- The history flags after a sequence of calls started in state `s` with
flags `m`. -/
def releasedMarks (freed : Bool) (c : Consts) :
    CameraNativeWindow → (Nat → Bool) → List (Env × Op) → Nat → Bool
  | _, m, [] => m
  | s, m, eo :: rest =>
    releasedMarks freed c (step c eo.1 s eo.2) (releasedMarkStep freed c eo.1 s m eo.2) rest

/-- In the words of the spec: after `calls` on a freshly constructed pool, slot
`i` has been successfully released since it was created, last cancelled, or
last freed by a shrinking `setBufferCount`. -/
def releasedSinceCancelOrFree (c : Consts) (calls : List (Env × Op)) (i : Nat) : Bool :=
  releasedMarks true c (init c) (fun _ => false) calls i

/-- After `calls` on a freshly constructed pool, slot `i` has been successfully
released since it was created or last cancelled. -/
def releasedSinceCancel (c : Consts) (calls : List (Env × Op)) (i : Nat) : Bool :=
  releasedMarks false c (init c) (fun _ => false) calls i

/-- The history flags agree with the frame numbers: a frame number is 0
exactly when the flag of its slot is not set. -/
def MarksAgree (s : CameraNativeWindow) (m : Nat → Bool) : Prop :=
  ∀ (i x : Nat), (frames s)[i]? = some x → (x = 0 ↔ m i = false)

/-- An acquire (allocating handle 7), its release, a growth to four slots and a
shrink back to three, which frees every slot. -/
def shrinkCalls : List (Env × Op) :=
  [ (sampleEnv, Op.dequeueBuffer), (sampleEnv, Op.queueBuffer (some ⟨7⟩)),
    (sampleEnv, Op.setBufferCount 4), (sampleEnv, Op.setBufferCount 3) ]

/-! ## Reading and writing slots -/

theorem slotAt_natCast (slots : List BufferSlot) (oob : BufferSlot) (i : Nat) :
    slotAt slots oob (i : Int) = slots.getD i oob := by
  simp [slotAt]

theorem slotAt_of_lt (slots : List BufferSlot) (oob : BufferSlot) (i : Nat) (h : i < slots.length) :
    slotAt slots oob (i : Int) = slots.get ⟨i, h⟩ := by
  simp [slotAt, List.getD, List.getElem?_eq_getElem h]

theorem slotAt_of_neg (slots : List BufferSlot) (oob : BufferSlot) (i : Int) (h : i < 0) :
    slotAt slots oob i = oob := by
  simp [slotAt, not_le.mpr h]

theorem length_setSlot (slots : List BufferSlot) (i : Int) (v : BufferSlot) :
    (setSlot slots i v).length = slots.length := by
  unfold setSlot; split <;> simp

theorem slotAt_setSlot_same (slots : List BufferSlot) (oob v : BufferSlot) (i : Int)
    (h0 : 0 ≤ i) (h : i < slots.length) : slotAt (setSlot slots i v) oob i = v := by
  have hlt : i.toNat < slots.length := by omega
  simp [slotAt, setSlot, h0, List.getD, List.getElem?_set_self hlt]

theorem slotAt_setSlot_ne (slots : List BufferSlot) (oob v : BufferSlot) (i j : Int)
    (hij : i ≠ j) : slotAt (setSlot slots i v) oob j = slotAt slots oob j := by
  unfold slotAt setSlot
  by_cases hj : 0 ≤ j
  · by_cases hi : 0 ≤ i
    · have hne : i.toNat ≠ j.toNat := by omega
      simp [hi, hj, List.getD, List.getElem?_set_ne hne]
    · simp [hi, hj]
  · simp [hj]

theorem setSlot_setSlot (slots : List BufferSlot) (i : Int) (v w : BufferSlot) :
    setSlot (setSlot slots i v) i w = setSlot slots i w := by
  unfold setSlot
  by_cases hi : 0 ≤ i
  · simp [hi, List.set_set]
  · simp [hi]

/-! ## The selection scan -/

theorem scanInv_step (slots : List BufferSlot) (oob : BufferSlot) (inv : Int) (hinv : inv < 0)
    (n : Nat) (st : Int × Int) (h : ScanInv slots oob inv n st.1) :
    ScanInv slots oob inv (n + 1) (scanStep slots oob st n).1 := by
  unfold scanStep
  cases hs : (slotAt slots oob (n : Int)).mBufferState with
  | DEQUEUED =>
    simp only [if_true]
    rcases h with ⟨hf, hnone⟩ | ⟨h0, hlt, hfree, hmin⟩
    · left
      refine ⟨hf, ?_⟩
      intro j hj
      rcases Nat.lt_succ_iff_lt_or_eq.mp hj with hj | hj
      · exact hnone j hj
      · subst hj; rw [hs]; decide
    · right
      refine ⟨h0, by push_cast; omega, hfree, ?_⟩
      intro j hj hjf
      rcases Nat.lt_succ_iff_lt_or_eq.mp hj with hj | hj
      · exact hmin j hj hjf
      · subst hj; rw [hs] at hjf; cases hjf
  | FREE =>
    have hne : ¬ (BufferState.FREE = BufferState.DEQUEUED) := by decide
    simp only [hne, if_false, if_true]
    rcases h with ⟨hf, hnone⟩ | ⟨h0, hlt, hfree, hmin⟩
    · have hneg : st.1 < 0 := by rw [hf]; exact hinv
      simp only [hneg, true_or, if_true]
      right
      refine ⟨by omega, by push_cast; omega, hs, ?_⟩
      intro j hj hjf
      rcases Nat.lt_succ_iff_lt_or_eq.mp hj with hj | hj
      · exact absurd hjf (hnone j hj)
      · subst hj; exact ⟨le_refl _, fun hlt => absurd hlt (lt_irrefl _)⟩
    · have hnn : ¬ st.1 < 0 := by omega
      by_cases hold : (slotAt slots oob (n : Int)).mFrameNumber < (slotAt slots oob st.1).mFrameNumber
      · simp only [hold, decide_True, or_true, if_true]
        right
        refine ⟨by omega, by push_cast; omega, hs, ?_⟩
        intro j hj hjf
        rcases Nat.lt_succ_iff_lt_or_eq.mp hj with hj | hj
        · have := (hmin j hj hjf).1
          exact ⟨by omega, fun _ => by omega⟩
        · subst hj; exact ⟨le_refl _, fun hlt => absurd hlt (lt_irrefl _)⟩
      · simp only [hold, decide_False, hnn, false_or, Bool.false_eq_true, if_false]
        right
        refine ⟨h0, by push_cast; omega, hfree, ?_⟩
        intro j hj hjf
        rcases Nat.lt_succ_iff_lt_or_eq.mp hj with hj | hj
        · exact hmin j hj hjf
        · subst hj
          exact ⟨by omega, fun hlt2 => by omega⟩

theorem scanInv_fold (slots : List BufferSlot) (oob : BufferSlot) (inv : Int) (hinv : inv < 0)
    (n : Nat) :
    ScanInv slots oob inv n ((List.range n).foldl (scanStep slots oob) (inv, 0)).1 := by
  induction n with
  | zero => left; simp
  | succ n ih =>
    rw [List.range_succ, List.foldl_append]
    exact scanInv_step slots oob inv hinv n _ ih

theorem scanInv_dequeueScan (c : Consts) (e : Env) (s : CameraNativeWindow)
    (hinv : c.INVALID_BUFFER_SLOT < 0) :
    ScanInv s.mSlots e.oob c.INVALID_BUFFER_SLOT s.mBufferCount.toNat (dequeueScan c e s).1 :=
  scanInv_fold s.mSlots e.oob c.INVALID_BUFFER_SLOT hinv s.mBufferCount.toNat

/-! ## Closed forms of `dequeueBuffer` -/

theorem dequeueBuffer_waits (c : Consts) (e : Env) (s : CameraNativeWindow)
    (h : (dequeueScan c e s).1 = c.INVALID_BUFFER_SLOT) :
    dequeueBuffer c e s = DequeueResult.waits := by
  simp [dequeueBuffer, h]

theorem dequeueBuffer_reuse (c : Consts) (e : Env) (s : CameraNativeWindow) (g : GraphicBuffer)
    (hne : (dequeueScan c e s).1 ≠ c.INVALID_BUFFER_SLOT)
    (h0 : 0 ≤ (dequeueScan c e s).1) (hlt : (dequeueScan c e s).1 < s.mSlots.length)
    (hg : (slotAt s.mSlots e.oob (dequeueScan c e s).1).mGraphicBuffer = some g) :
    dequeueBuffer c e s = DequeueResult.done NO_ERROR (some g)
      { s with mSlots := setSlot s.mSlots (dequeueScan c e s).1
                 { slotAt s.mSlots e.oob (dequeueScan c e s).1 with
                   mBufferState := BufferState.DEQUEUED } } := by
  simp only [dequeueBuffer, hne, if_false]
  simp only [slotAt_setSlot_same _ _ _ _ h0 hlt, hg]

theorem dequeueBuffer_allocFails (c : Consts) (e : Env) (s : CameraNativeWindow)
    (hne : (dequeueScan c e s).1 ≠ c.INVALID_BUFFER_SLOT)
    (h0 : 0 ≤ (dequeueScan c e s).1) (hlt : (dequeueScan c e s).1 < s.mSlots.length)
    (hg : (slotAt s.mSlots e.oob (dequeueScan c e s).1).mGraphicBuffer = none)
    (herr : e.initCheck ≠ NO_ERROR) :
    dequeueBuffer c e s = DequeueResult.done e.initCheck none
      { s with mSlots := setSlot s.mSlots (dequeueScan c e s).1
                 { slotAt s.mSlots e.oob (dequeueScan c e s).1 with
                   mBufferState := BufferState.DEQUEUED } } := by
  simp only [dequeueBuffer, hne, if_false]
  simp only [slotAt_setSlot_same _ _ _ _ h0 hlt, hg]
  simp [herr]

theorem dequeueBuffer_alloc (c : Consts) (e : Env) (s : CameraNativeWindow)
    (hne : (dequeueScan c e s).1 ≠ c.INVALID_BUFFER_SLOT)
    (h0 : 0 ≤ (dequeueScan c e s).1) (hlt : (dequeueScan c e s).1 < s.mSlots.length)
    (hg : (slotAt s.mSlots e.oob (dequeueScan c e s).1).mGraphicBuffer = none)
    (herr : e.initCheck = NO_ERROR) :
    dequeueBuffer c e s = DequeueResult.done NO_ERROR (some (newGraphicBuffer e s))
      { s with mSlots := setSlot s.mSlots (dequeueScan c e s).1
                 { slotAt s.mSlots e.oob (dequeueScan c e s).1 with
                   mBufferState := BufferState.DEQUEUED
                   mGraphicBuffer := some (newGraphicBuffer e s) } } := by
  simp only [dequeueBuffer, hne, if_false]
  simp only [slotAt_setSlot_same _ _ _ _ h0 hlt, hg]
  simp only [herr, ne_eq, not_true_eq_false, if_false, setSlot_setSlot,
    slotAt_setSlot_same _ _ _ _ h0 hlt]
  rfl

/-! ## C1: the scan selects the oldest FREE slot -/

/-- C1: in a pool where some slot with index in `[0, mBufferCount)` is FREE,
the scan of `dequeueBuffer` ends on a FREE slot `k` in that range whose frame
number is at most that of every FREE slot in the range, and `dequeueBuffer`
does not wait but returns with slot `k` marked DEQUEUED. -/
theorem dequeueBuffer_selects_oldest_free (c : Consts) (e : Env) (s : CameraNativeWindow)
    (hinv : c.INVALID_BUFFER_SLOT < 0) (hwf : WellFormed c s)
    (hfree : ∃ i : Nat, (i : Int) < s.mBufferCount ∧
      (slotAt s.mSlots e.oob (i : Int)).mBufferState = BufferState.FREE) :
    ∃ k : Nat, (dequeueScan c e s).1 = (k : Int) ∧ (k : Int) < s.mBufferCount ∧
      (slotAt s.mSlots e.oob (k : Int)).mBufferState = BufferState.FREE ∧
      (∀ j : Nat, (j : Int) < s.mBufferCount →
        (slotAt s.mSlots e.oob (j : Int)).mBufferState = BufferState.FREE →
        (slotAt s.mSlots e.oob (k : Int)).mFrameNumber ≤
          (slotAt s.mSlots e.oob (j : Int)).mFrameNumber) ∧
      ∃ status buffer s1, dequeueBuffer c e s = DequeueResult.done status buffer s1 ∧
        (slotAt s1.mSlots e.oob (k : Int)).mBufferState = BufferState.DEQUEUED := by
  obtain ⟨i, hi, hif⟩ := hfree
  obtain ⟨hlen, hcnt⟩ := hwf
  rcases scanInv_dequeueScan c e s hinv with ⟨_, hnone⟩ | ⟨h0, hlt, hfr, hmin⟩
  · exact absurd hif (hnone i (by omega))
  · obtain ⟨k, hk⟩ := Int.eq_ofNat_of_zero_le h0
    have hkc : (k : Int) < s.mBufferCount := by omega
    have hklen : (dequeueScan c e s).1 < (s.mSlots.length : Int) := by omega
    have hne : (dequeueScan c e s).1 ≠ c.INVALID_BUFFER_SLOT := by omega
    refine ⟨k, hk, hkc, by rw [← hk]; exact hfr, ?_, ?_⟩
    · intro j hj hjf
      rw [← hk]
      exact (hmin j (by omega) hjf).1
    · cases hg : (slotAt s.mSlots e.oob (dequeueScan c e s).1).mGraphicBuffer with
      | some g =>
        refine ⟨_, _, _, dequeueBuffer_reuse c e s g hne h0 hklen hg, ?_⟩
        rw [← hk]
        simp only [slotAt_setSlot_same _ _ _ _ h0 hklen]
      | none =>
        by_cases herr : e.initCheck = NO_ERROR
        · refine ⟨_, _, _, dequeueBuffer_alloc c e s hne h0 hklen hg herr, ?_⟩
          rw [← hk]
          simp only [slotAt_setSlot_same _ _ _ _ h0 hklen]
        · refine ⟨_, _, _, dequeueBuffer_allocFails c e s hne h0 hklen hg herr, ?_⟩
          rw [← hk]
          simp only [slotAt_setSlot_same _ _ _ _ h0 hklen]

/-- C1 at `samplePool`: slot 2 (frame 2) is chosen over slot 1 (frame 5). -/
theorem dequeueBuffer_selects_oldest_free_witness :
    (dequeueScan sampleConsts sampleEnv samplePool).1 = 2 ∧
    ∃ k : Nat, (dequeueScan sampleConsts sampleEnv samplePool).1 = (k : Int) ∧
      (k : Int) < samplePool.mBufferCount ∧
      (slotAt samplePool.mSlots sampleEnv.oob (k : Int)).mBufferState = BufferState.FREE ∧
      (∀ j : Nat, (j : Int) < samplePool.mBufferCount →
        (slotAt samplePool.mSlots sampleEnv.oob (j : Int)).mBufferState = BufferState.FREE →
        (slotAt samplePool.mSlots sampleEnv.oob (k : Int)).mFrameNumber ≤
          (slotAt samplePool.mSlots sampleEnv.oob (j : Int)).mFrameNumber) ∧
      ∃ status buffer s1,
        dequeueBuffer sampleConsts sampleEnv samplePool = DequeueResult.done status buffer s1 ∧
        (slotAt s1.mSlots sampleEnv.oob (k : Int)).mBufferState = BufferState.DEQUEUED :=
  ⟨by decide,
   dequeueBuffer_selects_oldest_free sampleConsts sampleEnv samplePool (by decide)
    ⟨by decide, by decide⟩ ⟨1, by decide, by decide⟩⟩

/-! ## Resolving a handle, and closed forms of `queueBuffer` and `cancelBuffer` -/

theorem getSlotFromBufferLocked_cases (c : Consts) (e : Env) (s : CameraNativeWindow)
    (b : ANativeWindowBuffer) :
    (getSlotFromBufferLocked c e s (some b) = BAD_VALUE ∧
      ∀ i : Nat, i < c.NUM_BUFFER_SLOTS → handleMatches s.mSlots e.oob b i = false) ∨
    (∃ i : Nat, getSlotFromBufferLocked c e s (some b) = (i : Int) ∧ i < c.NUM_BUFFER_SLOTS ∧
      handleMatches s.mSlots e.oob b i = true ∧
      ∀ j : Nat, j < i → handleMatches s.mSlots e.oob b j = false) := by
  have hdef : getSlotFromBufferLocked c e s (some b) =
      match (List.range c.NUM_BUFFER_SLOTS).find? (handleMatches s.mSlots e.oob b) with
      | some i => (i : Int)
      | none => BAD_VALUE := rfl
  rw [hdef]
  cases hf : (List.range c.NUM_BUFFER_SLOTS).find? (handleMatches s.mSlots e.oob b) with
  | none =>
    left
    refine ⟨rfl, ?_⟩
    intro i hi
    have := (List.find?_range_eq_none.mp hf) i hi
    simpa using this
  | some i =>
    right
    obtain ⟨hp, hmem, hfirst⟩ := List.find?_range_eq_some.mp hf
    refine ⟨i, rfl, List.mem_range.mp hmem, hp, ?_⟩
    intro j hj
    simpa using hfirst j hj

theorem BAD_VALUE_neg : BAD_VALUE < 0 := by decide

theorem negEINVAL_ne_OK : -EINVAL ≠ OK := by decide

theorem queueBuffer_ok (c : Consts) (e : Env) (s : CameraNativeWindow)
    (buffer : Option ANativeWindowBuffer) (buf : Int)
    (hres : getSlotFromBufferLocked c e s buffer = buf)
    (h0 : 0 ≤ buf) (hcnt : buf < s.mBufferCount) (hlen : buf < s.mSlots.length)
    (hst : (slotAt s.mSlots e.oob buf).mBufferState = BufferState.DEQUEUED) :
    queueBuffer c e s buffer =
      (OK, { s with
              mSlots := setSlot s.mSlots buf
                { slotAt s.mSlots e.oob buf with
                  mBufferState := BufferState.FREE
                  mTimestamp :=
                    if s.mTimestamp = NATIVE_WINDOW_TIMESTAMP_AUTO then e.systemTime
                    else s.mTimestamp
                  mFrameNumber := s.mFrameCounter + 1 }
              mFrameCounter := s.mFrameCounter + 1 }) := by
  have hcond : ¬ (buf < 0 ∨ buf ≥ s.mBufferCount) := by omega
  simp only [queueBuffer, hres, hcond, if_false, hst, ne_eq, not_true_eq_false]
  simp only [setSlot_setSlot, slotAt_setSlot_same _ _ _ _ h0 hlen]

theorem cancelBuffer_ok (c : Consts) (e : Env) (s : CameraNativeWindow)
    (buffer : Option ANativeWindowBuffer) (buf : Int)
    (hres : getSlotFromBufferLocked c e s buffer = buf)
    (h0 : 0 ≤ buf) (hcnt : buf < s.mBufferCount) (hlen : buf < s.mSlots.length)
    (hst : (slotAt s.mSlots e.oob buf).mBufferState = BufferState.DEQUEUED) :
    cancelBuffer c e s buffer =
      (OK, { s with
              mSlots := setSlot s.mSlots buf
                { slotAt s.mSlots e.oob buf with
                  mBufferState := BufferState.FREE
                  mFrameNumber := 0 } }) := by
  have hcond : ¬ (buf < 0 ∨ buf ≥ s.mBufferCount) := by omega
  simp only [cancelBuffer, hres, hcond, if_false, hst, ne_eq, not_true_eq_false]
  simp only [setSlot_setSlot, slotAt_setSlot_same _ _ _ _ h0 hlen]

theorem queueBuffer_fails (c : Consts) (e : Env) (s : CameraNativeWindow)
    (buffer : Option ANativeWindowBuffer)
    (h : getSlotFromBufferLocked c e s buffer < 0 ∨
      getSlotFromBufferLocked c e s buffer ≥ s.mBufferCount ∨
      (slotAt s.mSlots e.oob (getSlotFromBufferLocked c e s buffer)).mBufferState
        ≠ BufferState.DEQUEUED) :
    queueBuffer c e s buffer = (-EINVAL, s) := by
  unfold queueBuffer
  by_cases h1 : getSlotFromBufferLocked c e s buffer < 0 ∨
      getSlotFromBufferLocked c e s buffer ≥ s.mBufferCount
  · simp only [h1, if_true]
  · have h2 : (slotAt s.mSlots e.oob (getSlotFromBufferLocked c e s buffer)).mBufferState
        ≠ BufferState.DEQUEUED := by
      rcases h with h | h | h
      · exact absurd (Or.inl h) h1
      · exact absurd (Or.inr h) h1
      · exact h
    rw [if_neg h1, if_pos h2]

theorem cancelBuffer_fails (c : Consts) (e : Env) (s : CameraNativeWindow)
    (buffer : Option ANativeWindowBuffer)
    (h : getSlotFromBufferLocked c e s buffer < 0 ∨
      getSlotFromBufferLocked c e s buffer ≥ s.mBufferCount ∨
      (slotAt s.mSlots e.oob (getSlotFromBufferLocked c e s buffer)).mBufferState
        ≠ BufferState.DEQUEUED) :
    cancelBuffer c e s buffer = (-EINVAL, s) := by
  unfold cancelBuffer
  by_cases h1 : getSlotFromBufferLocked c e s buffer < 0 ∨
      getSlotFromBufferLocked c e s buffer ≥ s.mBufferCount
  · simp only [h1, if_true]
  · have h2 : (slotAt s.mSlots e.oob (getSlotFromBufferLocked c e s buffer)).mBufferState
        ≠ BufferState.DEQUEUED := by
      rcases h with h | h | h
      · exact absurd (Or.inl h) h1
      · exact absurd (Or.inr h) h1
      · exact h
    rw [if_neg h1, if_pos h2]

/-! ## C2: allocation failure in `dequeueBuffer` -/

/-- C2 (the code at the failing input): on a freshly constructed pool whose
allocator fails with `NO_MEMORY`, `dequeueBuffer` returns `NO_MEMORY` without
writing `*buffer`, and leaves slot 0 DEQUEUED with no buffer, so the state
differs from the one before the call. -/
theorem dequeueBuffer_allocation_failure_keeps_slot_dequeued :
    ∃ s1, dequeueBuffer sampleConsts failingEnv (init sampleConsts)
        = DequeueResult.done NO_MEMORY none s1 ∧
      (slotAt s1.mSlots failingEnv.oob 0).mBufferState = BufferState.DEQUEUED ∧
      (slotAt s1.mSlots failingEnv.oob 0).mGraphicBuffer = none ∧
      (slotAt (init sampleConsts).mSlots failingEnv.oob 0).mBufferState = BufferState.FREE ∧
      s1 ≠ init sampleConsts :=
  ⟨_, rfl, by decide, by decide, by decide, by decide⟩

/-! ## C4: a successful `queueBuffer` -/

/-- C4: when the handle resolves to slot `i < mBufferCount` and that slot is
DEQUEUED, `queueBuffer` returns `OK`; afterwards the frame counter is one
more, slot `i` is FREE with the new counter as frame number and with the
override timestamp (the clock reading in AUTO mode) and its buffer untouched,
and every other slot, `mBufferCount` and the configuration are unchanged. -/
theorem queueBuffer_releases_slot (c : Consts) (e : Env) (s : CameraNativeWindow)
    (buffer : Option ANativeWindowBuffer) (i : Nat) (hwf : WellFormed c s)
    (hres : getSlotFromBufferLocked c e s buffer = (i : Int))
    (hcnt : (i : Int) < s.mBufferCount)
    (hst : (slotAt s.mSlots e.oob (i : Int)).mBufferState = BufferState.DEQUEUED) :
    (queueBuffer c e s buffer).1 = OK ∧
    (queueBuffer c e s buffer).2.mFrameCounter = s.mFrameCounter + 1 ∧
    slotAt (queueBuffer c e s buffer).2.mSlots e.oob (i : Int) =
      { slotAt s.mSlots e.oob (i : Int) with
        mBufferState := BufferState.FREE
        mFrameNumber := (queueBuffer c e s buffer).2.mFrameCounter
        mTimestamp :=
          if s.mTimestamp = NATIVE_WINDOW_TIMESTAMP_AUTO then e.systemTime else s.mTimestamp } ∧
    (∀ j : Int, j ≠ (i : Int) →
      slotAt (queueBuffer c e s buffer).2.mSlots e.oob j = slotAt s.mSlots e.oob j) ∧
    (queueBuffer c e s buffer).2.mSlots.length = s.mSlots.length ∧
    (queueBuffer c e s buffer).2.mBufferCount = s.mBufferCount ∧
    (queueBuffer c e s buffer).2.mDefaultWidth = s.mDefaultWidth ∧
    (queueBuffer c e s buffer).2.mDefaultHeight = s.mDefaultHeight ∧
    (queueBuffer c e s buffer).2.mPixelFormat = s.mPixelFormat ∧
    (queueBuffer c e s buffer).2.mUsage = s.mUsage ∧
    (queueBuffer c e s buffer).2.mTimestamp = s.mTimestamp := by
  obtain ⟨hlen, hnum⟩ := hwf
  have h0 : (0 : Int) ≤ (i : Int) := Int.natCast_nonneg i
  have hl : (i : Int) < (s.mSlots.length : Int) := by omega
  rw [queueBuffer_ok c e s buffer (i : Int) hres h0 hcnt hl hst]
  refine ⟨rfl, rfl, ?_, ?_, ?_, rfl, rfl, rfl, rfl, rfl, rfl⟩
  · exact slotAt_setSlot_same _ _ _ _ h0 hl
  · intro j hj
    exact slotAt_setSlot_ne _ _ _ _ _ (Ne.symm hj)
  · simp only [length_setSlot]

/-- C4 at `samplePool` (AUTO timestamps): handle 1 is slot 0, held by the
client; after `queueBuffer` it is FREE as frame 6 with the clock reading as
timestamp. -/
theorem queueBuffer_releases_slot_witness :
    slotAt (queueBuffer sampleConsts sampleEnv samplePool (some ⟨1⟩)).2.mSlots sampleEnv.oob 0 =
      { mGraphicBuffer := some (sampleBuffer 1), mBufferState := BufferState.FREE,
        mFrameNumber := 6, mTimestamp := 1000 } ∧
    (queueBuffer sampleConsts sampleEnv samplePool (some ⟨1⟩)).1 = OK :=
  have h := queueBuffer_releases_slot sampleConsts sampleEnv samplePool (some ⟨1⟩) 0
    ⟨by decide, by decide⟩ (by decide) (by decide) (by decide)
  ⟨by decide, h.1⟩

/-! ## C5: the frame counter -/

/-- C5: a `queueBuffer` that returns `OK` has increased `mFrameCounter` by
exactly one, a `queueBuffer` that returns anything else has left it unchanged,
and `cancelBuffer` never changes it. -/
theorem frameCounter_queue_cancel (c : Consts) (e : Env) (s : CameraNativeWindow)
    (buffer : Option ANativeWindowBuffer) :
    (queueBuffer c e s buffer).2.mFrameCounter =
      (if (queueBuffer c e s buffer).1 = OK then s.mFrameCounter + 1 else s.mFrameCounter) ∧
    (cancelBuffer c e s buffer).2.mFrameCounter = s.mFrameCounter := by
  constructor
  · unfold queueBuffer
    by_cases h1 : getSlotFromBufferLocked c e s buffer < 0 ∨
        getSlotFromBufferLocked c e s buffer ≥ s.mBufferCount
    · rw [if_pos h1]; simp [negEINVAL_ne_OK]
    · rw [if_neg h1]
      by_cases h2 : (slotAt s.mSlots e.oob (getSlotFromBufferLocked c e s buffer)).mBufferState
          ≠ BufferState.DEQUEUED
      · rw [if_pos h2]; simp [negEINVAL_ne_OK]
      · rw [if_neg h2]; simp
  · unfold cancelBuffer
    by_cases h1 : getSlotFromBufferLocked c e s buffer < 0 ∨
        getSlotFromBufferLocked c e s buffer ≥ s.mBufferCount
    · rw [if_pos h1]
    · rw [if_neg h1]
      by_cases h2 : (slotAt s.mSlots e.oob (getSlotFromBufferLocked c e s buffer)).mBufferState
          ≠ BufferState.DEQUEUED
      · rw [if_pos h2]
      · rw [if_neg h2]

/-! ## C6: a handle of a slot that is not DEQUEUED -/

/-- C6: when the handle resolves to a slot that is not DEQUEUED, `queueBuffer`
and `cancelBuffer` both return `-EINVAL` and leave the whole state as it
was. -/
theorem queue_cancel_not_dequeued (c : Consts) (e : Env) (s : CameraNativeWindow)
    (buffer : Option ANativeWindowBuffer) (i : Nat)
    (hres : getSlotFromBufferLocked c e s buffer = (i : Int))
    (hst : (slotAt s.mSlots e.oob (i : Int)).mBufferState ≠ BufferState.DEQUEUED) :
    queueBuffer c e s buffer = (-EINVAL, s) ∧ cancelBuffer c e s buffer = (-EINVAL, s) := by
  constructor
  · apply queueBuffer_fails
    right; right; rw [hres]; exact hst
  · apply cancelBuffer_fails
    right; right; rw [hres]; exact hst

/-- C6 at `samplePool`: handle 2 is slot 1, which is FREE. -/
theorem queue_cancel_not_dequeued_witness :
    queueBuffer sampleConsts sampleEnv samplePool (some ⟨2⟩) = (-EINVAL, samplePool) ∧
    cancelBuffer sampleConsts sampleEnv samplePool (some ⟨2⟩) = (-EINVAL, samplePool) :=
  queue_cancel_not_dequeued sampleConsts sampleEnv samplePool (some ⟨2⟩) 1
    (by decide) (by decide)

/-! ## C7: a handle that no slot owns -/

theorem slotAt_mem (slots : List BufferSlot) (oob : BufferSlot) (i : Nat) (h : i < slots.length) :
    slotAt slots oob (i : Int) ∈ slots := by
  rw [slotAt_of_lt slots oob i h]
  exact List.get_mem slots i h

theorem getSlotFromBufferLocked_unknown (c : Consts) (e : Env) (s : CameraNativeWindow)
    (buffer : Option ANativeWindowBuffer) (hlen : s.mSlots.length = c.NUM_BUFFER_SLOTS)
    (hno : ∀ b, buffer = some b →
      ∀ sl ∈ s.mSlots, ∀ g, sl.mGraphicBuffer = some g → g.handle ≠ b.handle) :
    getSlotFromBufferLocked c e s buffer = BAD_VALUE := by
  cases buffer with
  | none => rfl
  | some b =>
    rcases getSlotFromBufferLocked_cases c e s b with ⟨h, _⟩ | ⟨i, _, hi, hm, _⟩
    · exact h
    · exfalso
      unfold handleMatches at hm
      cases hg : (slotAt s.mSlots e.oob (i : Int)).mGraphicBuffer with
      | none => rw [hg] at hm; cases hm
      | some g =>
        rw [hg] at hm
        have heq : g.handle = b.handle := by simpa using hm
        exact hno b rfl _ (slotAt_mem s.mSlots e.oob i (by omega)) g hg heq

/-- C7 (as stated, refuted): in `samplePool` handle 99 belongs to no slot and
handle 2 belongs to slot 1, which is FREE; `queueBuffer` and `cancelBuffer`
return the very same status `-EINVAL` for both, and for the NULL handle, so
the "not found" result is not a different error from the "not DEQUEUED"
one. -/
theorem unknown_handle_same_status_as_not_dequeued :
    getSlotFromBufferLocked sampleConsts sampleEnv samplePool (some ⟨99⟩) = BAD_VALUE ∧
    getSlotFromBufferLocked sampleConsts sampleEnv samplePool (some ⟨2⟩) = 1 ∧
    (slotAt samplePool.mSlots sampleEnv.oob 1).mBufferState = BufferState.FREE ∧
    (queueBuffer sampleConsts sampleEnv samplePool (some ⟨99⟩)).1
      = (queueBuffer sampleConsts sampleEnv samplePool (some ⟨2⟩)).1 ∧
    (queueBuffer sampleConsts sampleEnv samplePool none).1
      = (queueBuffer sampleConsts sampleEnv samplePool (some ⟨2⟩)).1 ∧
    (cancelBuffer sampleConsts sampleEnv samplePool (some ⟨99⟩)).1
      = (cancelBuffer sampleConsts sampleEnv samplePool (some ⟨2⟩)).1 ∧
    (cancelBuffer sampleConsts sampleEnv samplePool none).1
      = (cancelBuffer sampleConsts sampleEnv samplePool (some ⟨2⟩)).1 := by
  decide

/-- C7 (amended): when the handle is NULL or its resource identity is that of
no slot's buffer, `queueBuffer` and `cancelBuffer` return `-EINVAL` and leave
the state unchanged; this is the same status they return for any handle that
resolves to a slot which is not DEQUEUED. -/
theorem queue_cancel_unknown_handle (c : Consts) (e : Env) (s : CameraNativeWindow)
    (buffer : Option ANativeWindowBuffer) (hlen : s.mSlots.length = c.NUM_BUFFER_SLOTS)
    (hno : ∀ b, buffer = some b →
      ∀ sl ∈ s.mSlots, ∀ g, sl.mGraphicBuffer = some g → g.handle ≠ b.handle) :
    queueBuffer c e s buffer = (-EINVAL, s) ∧ cancelBuffer c e s buffer = (-EINVAL, s) ∧
    ∀ (other : Option ANativeWindowBuffer) (i : Nat),
      getSlotFromBufferLocked c e s other = (i : Int) →
      (slotAt s.mSlots e.oob (i : Int)).mBufferState ≠ BufferState.DEQUEUED →
      (queueBuffer c e s buffer).1 = (queueBuffer c e s other).1 ∧
      (cancelBuffer c e s buffer).1 = (cancelBuffer c e s other).1 := by
  have hbad := getSlotFromBufferLocked_unknown c e s buffer hlen hno
  have hq : queueBuffer c e s buffer = (-EINVAL, s) := by
    apply queueBuffer_fails; left; rw [hbad]; exact BAD_VALUE_neg
  have hc : cancelBuffer c e s buffer = (-EINVAL, s) := by
    apply cancelBuffer_fails; left; rw [hbad]; exact BAD_VALUE_neg
  refine ⟨hq, hc, ?_⟩
  intro other i hres hst
  have hq2 : queueBuffer c e s other = (-EINVAL, s) := by
    apply queueBuffer_fails; right; right; rw [hres]; exact hst
  have hc2 : cancelBuffer c e s other = (-EINVAL, s) := by
    apply cancelBuffer_fails; right; right; rw [hres]; exact hst
  rw [hq, hc, hq2, hc2]
  exact ⟨rfl, rfl⟩

/-- C7 (amended) at `samplePool` with the unknown handle 99. -/
theorem queue_cancel_unknown_handle_witness :
    queueBuffer sampleConsts sampleEnv samplePool (some ⟨99⟩) = (-EINVAL, samplePool) ∧
    cancelBuffer sampleConsts sampleEnv samplePool (some ⟨99⟩) = (-EINVAL, samplePool) :=
  have h := queue_cancel_unknown_handle sampleConsts sampleEnv samplePool (some ⟨99⟩)
    (by decide) (by decide)
  ⟨h.1, h.2.1⟩

/-! ## C8: a successful `cancelBuffer` -/

/-- C8: when the handle resolves to slot `i < mBufferCount` and that slot is
DEQUEUED, `cancelBuffer` returns `OK`; afterwards slot `i` is FREE with frame
number 0 and its timestamp and buffer untouched, and the frame counter, every
other slot, `mBufferCount` and the configuration are unchanged. -/
theorem cancelBuffer_returns_slot (c : Consts) (e : Env) (s : CameraNativeWindow)
    (buffer : Option ANativeWindowBuffer) (i : Nat) (hwf : WellFormed c s)
    (hres : getSlotFromBufferLocked c e s buffer = (i : Int))
    (hcnt : (i : Int) < s.mBufferCount)
    (hst : (slotAt s.mSlots e.oob (i : Int)).mBufferState = BufferState.DEQUEUED) :
    (cancelBuffer c e s buffer).1 = OK ∧
    slotAt (cancelBuffer c e s buffer).2.mSlots e.oob (i : Int) =
      { slotAt s.mSlots e.oob (i : Int) with
        mBufferState := BufferState.FREE
        mFrameNumber := 0 } ∧
    (∀ j : Int, j ≠ (i : Int) →
      slotAt (cancelBuffer c e s buffer).2.mSlots e.oob j = slotAt s.mSlots e.oob j) ∧
    (cancelBuffer c e s buffer).2.mSlots.length = s.mSlots.length ∧
    (cancelBuffer c e s buffer).2.mFrameCounter = s.mFrameCounter ∧
    (cancelBuffer c e s buffer).2.mBufferCount = s.mBufferCount ∧
    (cancelBuffer c e s buffer).2.mDefaultWidth = s.mDefaultWidth ∧
    (cancelBuffer c e s buffer).2.mDefaultHeight = s.mDefaultHeight ∧
    (cancelBuffer c e s buffer).2.mPixelFormat = s.mPixelFormat ∧
    (cancelBuffer c e s buffer).2.mUsage = s.mUsage ∧
    (cancelBuffer c e s buffer).2.mTimestamp = s.mTimestamp := by
  obtain ⟨hlen, hnum⟩ := hwf
  have h0 : (0 : Int) ≤ (i : Int) := Int.natCast_nonneg i
  have hl : (i : Int) < (s.mSlots.length : Int) := by omega
  rw [cancelBuffer_ok c e s buffer (i : Int) hres h0 hcnt hl hst]
  refine ⟨rfl, ?_, ?_, ?_, rfl, rfl, rfl, rfl, rfl, rfl, rfl⟩
  · exact slotAt_setSlot_same _ _ _ _ h0 hl
  · intro j hj
    exact slotAt_setSlot_ne _ _ _ _ _ (Ne.symm hj)
  · simp only [length_setSlot]

/-- C8 at `samplePool`: cancelling handle 1 frees slot 0 with frame number 0 and
keeps its timestamp 40 and its buffer. -/
theorem cancelBuffer_returns_slot_witness :
    slotAt (cancelBuffer sampleConsts sampleEnv samplePool (some ⟨1⟩)).2.mSlots sampleEnv.oob 0 =
      { mGraphicBuffer := some (sampleBuffer 1), mBufferState := BufferState.FREE,
        mFrameNumber := 0, mTimestamp := 40 } ∧
    (cancelBuffer sampleConsts sampleEnv samplePool (some ⟨1⟩)).1 = OK :=
  have h := cancelBuffer_returns_slot sampleConsts sampleEnv samplePool (some ⟨1⟩) 0
    ⟨by decide, by decide⟩ (by decide) (by decide) (by decide)
  ⟨by decide, h.1⟩

/-! ## Slots as list entries -/

theorem getElem?_setSlot (slots : List BufferSlot) (k i : Nat) (v : BufferSlot) :
    (setSlot slots (k : Int) v)[i]? =
      if k = i then (if k < slots.length then some v else none) else slots[i]? := by
  simp [setSlot, List.getElem?_set]

theorem getElem?_slotAt (slots : List BufferSlot) (oob : BufferSlot) (i : Nat)
    (h : i < slots.length) : slots[i]? = some (slotAt slots oob (i : Int)) := by
  rw [slotAt_of_lt slots oob i h]
  simp [List.getElem?_eq_getElem h]

theorem slotAt_of_getElem? (slots : List BufferSlot) (oob sl : BufferSlot) (i : Nat)
    (h : slots[i]? = some sl) : slotAt slots oob (i : Int) = sl := by
  simp [slotAt, List.getD, h]

theorem lt_length_of_getElem? (slots : List BufferSlot) (sl : BufferSlot) (i : Nat)
    (h : slots[i]? = some sl) : i < slots.length := by
  by_contra hn
  rw [List.getElem?_eq_none (by omega)] at h
  cases h

theorem lt_length_of_some {α : Type} (l : List α) (a : α) (i : Nat)
    (h : l[i]? = some a) : i < l.length := by
  by_contra hn
  rw [List.getElem?_eq_none (by omega)] at h
  cases h

/-! ## Closed form of `freeAllBuffersLocked` -/

theorem freeBufferLocked_eq (e : Env) (s : CameraNativeWindow) (i : Nat) :
    freeBufferLocked e s (i : Int) =
      { s with mSlots := s.mSlots.set i (freeSlot (s.mSlots.getD i e.oob)) } := by
  have h0 : (0 : Int) ≤ (i : Int) := Int.natCast_nonneg i
  by_cases hi : i < s.mSlots.length
  · have hl : (i : Int) < (s.mSlots.length : Int) := by omega
    unfold freeBufferLocked
    by_cases hb : (slotAt s.mSlots e.oob (i : Int)).mGraphicBuffer ≠ none
    · simp only [hb, if_true, not_false_eq_true, ne_eq, setSlot_setSlot,
        slotAt_setSlot_same _ _ _ _ h0 hl]
      simp [setSlot, slotAt, freeSlot]
    · simp only [hb, if_false]
      have hb2 : (slotAt s.mSlots e.oob (i : Int)).mGraphicBuffer = none := by
        simpa using hb
      have hfs : freeSlot (s.mSlots.getD i e.oob) =
          { slotAt s.mSlots e.oob (i : Int) with mBufferState := BufferState.FREE } := by
        rw [slotAt_natCast] at hb2 ⊢
        simp only [freeSlot, hb2]
      rw [hfs]
      simp [setSlot]
  · have hset : ∀ v, setSlot s.mSlots (i : Int) v = s.mSlots := by
      intro v
      simp only [setSlot, h0, if_true, Int.toNat_ofNat]
      exact List.set_eq_of_length_le (by omega)
    unfold freeBufferLocked
    rw [List.set_eq_of_length_le (by omega)]
    by_cases hb : (slotAt s.mSlots e.oob (i : Int)).mGraphicBuffer ≠ none
    · simp only [hb, if_true, not_false_eq_true, ne_eq, hset]
    · simp only [hb, if_false, hset]

theorem freeAll_fold (e : Env) (s : CameraNativeWindow) (n : Nat) :
    ((List.range n).foldl (fun st (i : Nat) => freeBufferLocked e st (i : Int)) s) =
      { s with mSlots :=
          ((List.range n).foldl (fun st (i : Nat) => freeBufferLocked e st (i : Int)) s).mSlots } ∧
    ∀ i : Nat, ((List.range n).foldl (fun st (i : Nat) => freeBufferLocked e st (i : Int)) s).mSlots[i]? =
      if i < n then (s.mSlots[i]?).map freeSlot else s.mSlots[i]? := by
  induction n with
  | zero => simp
  | succ n ih =>
    obtain ⟨ih1, ih2⟩ := ih
    rw [List.range_succ, List.foldl_append]
    simp only [List.foldl_cons, List.foldl_nil]
    generalize ((List.range n).foldl (fun st (i : Nat) => freeBufferLocked e st (i : Int)) s) = r at ih1 ih2
    rw [freeBufferLocked_eq]
    refine ⟨?_, ?_⟩
    · rw [ih1]
    · intro i
      simp only [List.getElem?_set]
      by_cases hni : n = i
      · subst hni
        have hrn := ih2 n
        simp only [lt_irrefl, if_false] at hrn
        simp only [if_true, Nat.lt_succ_self]
        by_cases hlt : n < r.mSlots.length
        · simp only [hlt, if_true]
          have hsome : r.mSlots[n]? = some (r.mSlots.getD n e.oob) := by
            simp [List.getD, List.getElem?_eq_getElem hlt]
          rw [← hrn, hsome]
          rfl
        · simp only [hlt, if_false]
          rw [← hrn, List.getElem?_eq_none (by omega)]
          rfl
      · simp only [hni, if_false]
        rw [ih2 i]
        by_cases h1 : i < n
        · have h2 : i < n + 1 := by omega
          simp only [h1, h2, if_true]
        · have h2 : ¬ i < n + 1 := by omega
          simp only [h1, h2, if_false]

theorem freeAllBuffersLocked_eq (c : Consts) (e : Env) (s : CameraNativeWindow)
    (hlen : s.mSlots.length = c.NUM_BUFFER_SLOTS) :
    freeAllBuffersLocked c e s = { s with mSlots := s.mSlots.map freeSlot } := by
  obtain ⟨h1, h2⟩ := freeAll_fold e s c.NUM_BUFFER_SLOTS
  unfold freeAllBuffersLocked
  rw [h1]
  congr 1
  apply List.ext_getElem?
  intro i
  rw [h2 i, List.getElem?_map]
  by_cases hi : i < c.NUM_BUFFER_SLOTS
  · simp only [hi, if_true]
  · simp only [hi, if_false]
    rw [List.getElem?_eq_none (by omega)]
    rfl

/-! ## The outcomes of `dequeueBuffer` on a well-formed pool -/

theorem dequeueBuffer_cases (c : Consts) (e : Env) (s : CameraNativeWindow)
    (hinv : c.INVALID_BUFFER_SLOT < 0) (hwf : WellFormed c s) :
    (dequeueBuffer c e s = DequeueResult.waits ∧
      ∀ j : Nat, (j : Int) < s.mBufferCount →
        (slotAt s.mSlots e.oob (j : Int)).mBufferState ≠ BufferState.FREE) ∨
    (∃ k : Nat, (dequeueScan c e s).1 = (k : Int) ∧ (k : Int) < s.mBufferCount ∧
      k < s.mSlots.length ∧
      (slotAt s.mSlots e.oob (k : Int)).mBufferState = BufferState.FREE ∧
      ((∃ g, (slotAt s.mSlots e.oob (k : Int)).mGraphicBuffer = some g ∧
          dequeueBuffer c e s = DequeueResult.done NO_ERROR (some g)
            { s with mSlots := setSlot s.mSlots (k : Int)
                       { slotAt s.mSlots e.oob (k : Int) with
                         mBufferState := BufferState.DEQUEUED } }) ∨
       ((slotAt s.mSlots e.oob (k : Int)).mGraphicBuffer = none ∧ e.initCheck ≠ NO_ERROR ∧
          dequeueBuffer c e s = DequeueResult.done e.initCheck none
            { s with mSlots := setSlot s.mSlots (k : Int)
                       { slotAt s.mSlots e.oob (k : Int) with
                         mBufferState := BufferState.DEQUEUED } }) ∨
       ((slotAt s.mSlots e.oob (k : Int)).mGraphicBuffer = none ∧ e.initCheck = NO_ERROR ∧
          dequeueBuffer c e s = DequeueResult.done NO_ERROR (some (newGraphicBuffer e s))
            { s with mSlots := setSlot s.mSlots (k : Int)
                       { slotAt s.mSlots e.oob (k : Int) with
                         mBufferState := BufferState.DEQUEUED
                         mGraphicBuffer := some (newGraphicBuffer e s) } }))) := by
  obtain ⟨hlen, hcnt⟩ := hwf
  rcases scanInv_dequeueScan c e s hinv with ⟨hf, hnone⟩ | ⟨h0, hlt, hfr, _⟩
  · left
    refine ⟨dequeueBuffer_waits c e s hf, ?_⟩
    intro j hj
    exact hnone j (by omega)
  · right
    obtain ⟨k, hk⟩ := Int.eq_ofNat_of_zero_le h0
    have hkc : (k : Int) < s.mBufferCount := by omega
    have hklen : (dequeueScan c e s).1 < (s.mSlots.length : Int) := by omega
    have hne : (dequeueScan c e s).1 ≠ c.INVALID_BUFFER_SLOT := by omega
    refine ⟨k, hk, hkc, by omega, by rw [← hk]; exact hfr, ?_⟩
    rw [← hk]
    cases hg : (slotAt s.mSlots e.oob (dequeueScan c e s).1).mGraphicBuffer with
    | some g =>
      left
      exact ⟨g, rfl, dequeueBuffer_reuse c e s g hne h0 hklen hg⟩
    | none =>
      right
      by_cases herr : e.initCheck = NO_ERROR
      · right
        exact ⟨rfl, herr, dequeueBuffer_alloc c e s hne h0 hklen hg herr⟩
      · left
        exact ⟨rfl, herr, dequeueBuffer_allocFails c e s hne h0 hklen hg herr⟩

/-! ## Preservation of the invariant -/

theorem Inv.wellFormed {c : Consts} {s : CameraNativeWindow} (h : Inv c s) : WellFormed c s :=
  ⟨h.length_eq, h.le_num⟩

theorem Inv.lt_length {c : Consts} {s : CameraNativeWindow} (h : Inv c s) (k : Int)
    (hk : k < s.mBufferCount) : k < (s.mSlots.length : Int) := by
  have h1 := h.length_eq
  have h2 := h.le_num
  omega

theorem inv_init (c : Consts) (hs : c.Sane) : Inv c (init c) where
  length_eq := by simp [init]
  min_le := by simp [init]
  le_num := by
    have := hs.2
    simp only [init]
    exact_mod_cast this
  inert := by
    intro i sl hsl _
    have hmem : sl ∈ (init c).mSlots := List.getElem?_mem hsl
    simp only [init] at hmem
    rw [List.eq_of_mem_replicate hmem]
    exact ⟨rfl, rfl⟩

theorem distinct_init (c : Consts) : DistinctHandles (init c) := by
  intro i j si sj gi gj hsi _ hgi _ _
  have hmem : si ∈ (init c).mSlots := List.getElem?_mem hsi
  simp only [init] at hmem
  rw [List.eq_of_mem_replicate hmem] at hgi
  cases hgi

theorem inv_of_same_slots {c : Consts} {s t : CameraNativeWindow} (h : Inv c s)
    (hsl : t.mSlots = s.mSlots) (hcnt : t.mBufferCount = s.mBufferCount) : Inv c t where
  length_eq := by rw [hsl]; exact h.length_eq
  min_le := by rw [hcnt]; exact h.min_le
  le_num := by rw [hcnt]; exact h.le_num
  inert := by rw [hsl, hcnt]; exact h.inert

theorem distinct_of_same_slots {s t : CameraNativeWindow} (h : DistinctHandles s)
    (hsl : t.mSlots = s.mSlots) : DistinctHandles t := by
  unfold DistinctHandles
  rw [hsl]
  exact h

theorem inv_of_grow {c : Consts} {s t : CameraNativeWindow} (h : Inv c s)
    (hsl : t.mSlots = s.mSlots) (hge : s.mBufferCount ≤ t.mBufferCount)
    (hle : t.mBufferCount ≤ (c.NUM_BUFFER_SLOTS : Int)) : Inv c t where
  length_eq := by rw [hsl]; exact h.length_eq
  min_le := le_trans h.min_le hge
  le_num := hle
  inert := by
    rw [hsl]
    intro i sl hsl2 hi
    exact h.inert i sl hsl2 (le_trans hge hi)

theorem inv_of_free {c : Consts} {s t : CameraNativeWindow} (h : Inv c s)
    (hsl : t.mSlots = s.mSlots.map freeSlot)
    (hge : (c.MIN_BUFFER_SLOTS : Int) ≤ t.mBufferCount)
    (hle : t.mBufferCount ≤ (c.NUM_BUFFER_SLOTS : Int)) : Inv c t where
  length_eq := by rw [hsl, List.length_map]; exact h.length_eq
  min_le := hge
  le_num := hle
  inert := by
    rw [hsl]
    intro i sl hsl2 _
    obtain ⟨a, _, ha⟩ := List.mem_map.mp (List.getElem?_mem hsl2)
    rw [← ha]
    exact ⟨rfl, rfl⟩

theorem distinct_of_free {s t : CameraNativeWindow}
    (hsl : t.mSlots = s.mSlots.map freeSlot) : DistinctHandles t := by
  unfold DistinctHandles
  rw [hsl]
  intro i j si sj gi gj hsi _ hgi _ _
  obtain ⟨a, _, ha⟩ := List.mem_map.mp (List.getElem?_mem hsi)
  rw [← ha] at hgi
  cases hgi

theorem inv_of_setSlot {c : Consts} {s t : CameraNativeWindow} (h : Inv c s) (k : Nat)
    (v : BufferSlot) (hk : (k : Int) < s.mBufferCount)
    (hsl : t.mSlots = setSlot s.mSlots (k : Int) v) (hcnt : t.mBufferCount = s.mBufferCount) :
    Inv c t where
  length_eq := by rw [hsl, length_setSlot]; exact h.length_eq
  min_le := by rw [hcnt]; exact h.min_le
  le_num := by rw [hcnt]; exact h.le_num
  inert := by
    rw [hsl, hcnt]
    intro i sl hsl2 hi
    have hne : k ≠ i := by omega
    rw [getElem?_setSlot, if_neg hne] at hsl2
    exact h.inert i sl hsl2 hi

theorem distinct_of_setSlot {s t : CameraNativeWindow} (h : DistinctHandles s) (k : Nat)
    (v : BufferSlot) (hsl : t.mSlots = setSlot s.mSlots (k : Int) v)
    (hbuf : ∀ g, v.mGraphicBuffer = some g →
      ∀ (j : Nat) (sl : BufferSlot) (g2 : GraphicBuffer), s.mSlots[j]? = some sl →
        sl.mGraphicBuffer = some g2 → g2.handle = g.handle → j = k) : DistinctHandles t := by
  unfold DistinctHandles
  rw [hsl]
  intro i j si sj gi gj hsi hsj hgi hgj hh
  rw [getElem?_setSlot] at hsi hsj
  by_cases hki : k = i
  · by_cases hkj : k = j
    · omega
    · rw [if_pos hki] at hsi
      rw [if_neg hkj] at hsj
      split at hsi
      · cases hsi
        exact absurd (hbuf gi hgi j sj gj hsj hgj hh.symm) (Ne.symm hkj)
      · cases hsi
  · by_cases hkj : k = j
    · rw [if_neg hki] at hsi
      rw [if_pos hkj] at hsj
      split at hsj
      · cases hsj
        exact absurd (hbuf gj hgj i si gi hsi hgi hh) (Ne.symm hki)
      · cases hsj
    · rw [if_neg hki] at hsi
      rw [if_neg hkj] at hsj
      exact h i j si sj gi gj hsi hsj hgi hgj hh

theorem distinct_of_setSlot_keep {s t : CameraNativeWindow} (h : DistinctHandles s)
    (oob : BufferSlot) (k : Nat) (v : BufferSlot) (hlen : k < s.mSlots.length)
    (hsl : t.mSlots = setSlot s.mSlots (k : Int) v)
    (hkeep : v.mGraphicBuffer = (slotAt s.mSlots oob (k : Int)).mGraphicBuffer) :
    DistinctHandles t := by
  apply distinct_of_setSlot h k v hsl
  intro g hg j sl g2 hj hg2 hh
  rw [hkeep] at hg
  exact h j k sl _ g2 g hj (getElem?_slotAt s.mSlots oob k hlen) hg2 hg hh

/-- The two possible outcomes of `queueBuffer` and `cancelBuffer`: the call is
refused, or the handle resolves to a DEQUEUED slot in `[0, mBufferCount)`. -/
theorem resolve_cases (c : Consts) (e : Env) (s : CameraNativeWindow)
    (buffer : Option ANativeWindowBuffer) :
    (getSlotFromBufferLocked c e s buffer < 0 ∨
      getSlotFromBufferLocked c e s buffer ≥ s.mBufferCount ∨
      (slotAt s.mSlots e.oob (getSlotFromBufferLocked c e s buffer)).mBufferState
        ≠ BufferState.DEQUEUED) ∨
    (∃ k : Nat, getSlotFromBufferLocked c e s buffer = (k : Int) ∧ (k : Int) < s.mBufferCount ∧
      (slotAt s.mSlots e.oob (k : Int)).mBufferState = BufferState.DEQUEUED) := by
  by_cases hf : getSlotFromBufferLocked c e s buffer < 0 ∨
      getSlotFromBufferLocked c e s buffer ≥ s.mBufferCount ∨
      (slotAt s.mSlots e.oob (getSlotFromBufferLocked c e s buffer)).mBufferState
        ≠ BufferState.DEQUEUED
  · exact Or.inl hf
  · right
    have h0 : 0 ≤ getSlotFromBufferLocked c e s buffer := by
      by_contra hn; exact hf (Or.inl (by omega))
    have hc : getSlotFromBufferLocked c e s buffer < s.mBufferCount := by
      by_contra hn; exact hf (Or.inr (Or.inl (by omega)))
    have hst : (slotAt s.mSlots e.oob (getSlotFromBufferLocked c e s buffer)).mBufferState
        = BufferState.DEQUEUED := by
      by_contra hn; exact hf (Or.inr (Or.inr hn))
    obtain ⟨k, hk⟩ := Int.eq_ofNat_of_zero_le h0
    rw [hk] at hc hst
    exact ⟨k, hk, hc, hst⟩

theorem inv_queueBuffer {c : Consts} {s : CameraNativeWindow} (h : Inv c s) (e : Env)
    (buffer : Option ANativeWindowBuffer) :
    Inv c (queueBuffer c e s buffer).2 ∧
    (DistinctHandles s → DistinctHandles (queueBuffer c e s buffer).2) := by
  rcases resolve_cases c e s buffer with hf | ⟨k, hk, hc, hst⟩
  · rw [queueBuffer_fails c e s buffer hf]; exact ⟨h, id⟩
  · have hl := h.lt_length _ hc
    rw [queueBuffer_ok c e s buffer _ hk (Int.natCast_nonneg k) hc hl hst]
    exact ⟨inv_of_setSlot h k _ hc rfl rfl,
      fun hd => distinct_of_setSlot_keep hd e.oob k _ (by omega) rfl rfl⟩

theorem inv_cancelBuffer {c : Consts} {s : CameraNativeWindow} (h : Inv c s) (e : Env)
    (buffer : Option ANativeWindowBuffer) :
    Inv c (cancelBuffer c e s buffer).2 ∧
    (DistinctHandles s → DistinctHandles (cancelBuffer c e s buffer).2) := by
  rcases resolve_cases c e s buffer with hf | ⟨k, hk, hc, hst⟩
  · rw [cancelBuffer_fails c e s buffer hf]; exact ⟨h, id⟩
  · have hl := h.lt_length _ hc
    rw [cancelBuffer_ok c e s buffer _ hk (Int.natCast_nonneg k) hc hl hst]
    exact ⟨inv_of_setSlot h k _ hc rfl rfl,
      fun hd => distinct_of_setSlot_keep hd e.oob k _ (by omega) rfl rfl⟩

theorem step_dequeueBuffer (c : Consts) (e : Env) (s : CameraNativeWindow) :
    step c e s Op.dequeueBuffer =
      match dequeueBuffer c e s with
      | DequeueResult.waits => s
      | DequeueResult.done _ _ s1 => s1 := rfl

theorem inv_dequeueBuffer {c : Consts} {s : CameraNativeWindow} (hs : c.Sane) (h : Inv c s)
    (e : Env) :
    Inv c (step c e s Op.dequeueBuffer) ∧
    (DistinctHandles s → (e.initCheck = NO_ERROR → AllocFresh e s) →
      DistinctHandles (step c e s Op.dequeueBuffer)) := by
  rw [step_dequeueBuffer]
  rcases dequeueBuffer_cases c e s hs.1 h.wellFormed with
    ⟨hw, _⟩ | ⟨k, _, hkc, hkl, _, ⟨g, hg, hd⟩ | ⟨hg, _, hd⟩ | ⟨hg, herr, hd⟩⟩
  · rw [hw]; exact ⟨h, fun hd _ => hd⟩
  · rw [hd]
    exact ⟨inv_of_setSlot h k _ hkc rfl rfl,
      fun hdist _ => distinct_of_setSlot_keep hdist e.oob k _ hkl rfl rfl⟩
  · rw [hd]
    exact ⟨inv_of_setSlot h k _ hkc rfl rfl,
      fun hdist _ => distinct_of_setSlot_keep hdist e.oob k _ hkl rfl rfl⟩
  · rw [hd]
    dsimp only
    refine ⟨inv_of_setSlot h k _ hkc rfl rfl, fun hdist hfresh => ?_⟩
    refine distinct_of_setSlot hdist k _ rfl ?_
    intro g hgv j sl g2 hj hg2 hh
    exfalso
    have hgeq : g = newGraphicBuffer e s := by
      simp only [Option.some.injEq] at hgv
      exact hgv.symm
    rw [hgeq] at hh
    exact hfresh herr sl (List.getElem?_mem hj) g2 hg2 hh

theorem inv_setBufferCount {c : Consts} {s : CameraNativeWindow} (h : Inv c s) (e : Env)
    (n : Int) :
    Inv c (setBufferCount c e s n).2 ∧
    (DistinctHandles s → DistinctHandles (setBufferCount c e s n).2) := by
  unfold setBufferCount
  by_cases h1 : n > (c.NUM_BUFFER_SLOTS : Int)
  · rw [if_pos h1]; exact ⟨h, id⟩
  · rw [if_neg h1]
    by_cases h2 : n = s.mBufferCount
    · rw [if_pos h2]; exact ⟨h, id⟩
    · rw [if_neg h2]
      by_cases h3 : n < (c.MIN_BUFFER_SLOTS : Int)
      · rw [if_pos h3]; exact ⟨h, id⟩
      · rw [if_neg h3]
        by_cases h4 : anyDequeued e s = true
        · rw [if_pos h4]; exact ⟨h, id⟩
        · rw [if_neg h4]
          by_cases h5 : n > s.mBufferCount
          · rw [if_pos h5]
            exact ⟨inv_of_grow h rfl (by show s.mBufferCount ≤ n; omega) (by show n ≤ _; omega),
              fun hd => distinct_of_same_slots hd rfl⟩
          · rw [if_neg h5]
            rw [freeAllBuffersLocked_eq c e s h.length_eq]
            exact ⟨inv_of_free h rfl (by show _ ≤ n; omega) (by show n ≤ _; omega),
              fun _ => distinct_of_free rfl⟩

theorem inv_step {c : Consts} {s : CameraNativeWindow} (hs : c.Sane) (h : Inv c s) (e : Env)
    (op : Op) :
    Inv c (step c e s op) ∧
    (DistinctHandles s → (op = Op.dequeueBuffer → e.initCheck = NO_ERROR → AllocFresh e s) →
      DistinctHandles (step c e s op)) := by
  cases op with
  | dequeueBuffer =>
    have := inv_dequeueBuffer hs h e
    exact ⟨this.1, fun hd hf => this.2 hd (hf rfl)⟩
  | queueBuffer buffer =>
    have := inv_queueBuffer h e buffer
    exact ⟨this.1, fun hd _ => this.2 hd⟩
  | cancelBuffer buffer =>
    have := inv_cancelBuffer h e buffer
    exact ⟨this.1, fun hd _ => this.2 hd⟩
  | lockBuffer buffer => exact ⟨h, fun hd _ => hd⟩
  | setBufferCount n =>
    have := inv_setBufferCount h e n
    exact ⟨this.1, fun hd _ => this.2 hd⟩
  | query what => exact ⟨h, fun hd _ => hd⟩
  | setSwapInterval interval => exact ⟨h, fun hd _ => hd⟩
  | setUsage u => exact ⟨inv_of_same_slots h rfl rfl, fun hd _ => distinct_of_same_slots hd rfl⟩
  | setBuffersDimensions w ht =>
    show Inv c (setBuffersDimensions s w ht).2 ∧
      (_ → _ → DistinctHandles (setBuffersDimensions s w ht).2)
    unfold setBuffersDimensions
    split
    · exact ⟨h, fun hd _ => hd⟩
    · split
      · exact ⟨h, fun hd _ => hd⟩
      · exact ⟨inv_of_same_slots h rfl rfl, fun hd _ => distinct_of_same_slots hd rfl⟩
  | setBuffersFormat f =>
    show Inv c (setBuffersFormat s f).2 ∧ (_ → _ → DistinctHandles (setBuffersFormat s f).2)
    unfold setBuffersFormat
    split
    · exact ⟨h, fun hd _ => hd⟩
    · exact ⟨inv_of_same_slots h rfl rfl, fun hd _ => distinct_of_same_slots hd rfl⟩
  | setBuffersTimestamp ts =>
    exact ⟨inv_of_same_slots h rfl rfl, fun hd _ => distinct_of_same_slots hd rfl⟩

theorem inv_run {c : Consts} (hs : c.Sane) (calls : List (Env × Op)) (s : CameraNativeWindow)
    (h : Inv c s) : Inv c (run c s calls) := by
  induction calls generalizing s with
  | nil => exact h
  | cons eo rest ih =>
    show Inv c (run c (step c eo.1 s eo.2) rest)
    exact ih _ (inv_step hs h eo.1 eo.2).1

theorem inv_of_reachable {c : Consts} {s : CameraNativeWindow} (hs : c.Sane)
    (h : Reachable c s) : Inv c s ∧ DistinctHandles s := by
  induction h with
  | init => exact ⟨inv_init c hs, distinct_init c⟩
  | step e op _ hfresh ih =>
    have := inv_step hs ih.1 e op
    exact ⟨this.1, this.2 ih.2 hfresh⟩

/-! ## C3: at most `mBufferCount` slots are DEQUEUED, and only FREE slots are handed out -/

theorem dequeuedSlots_le {c : Consts} {s : CameraNativeWindow} (h : Inv c s) :
    (dequeuedSlots s : Int) ≤ s.mBufferCount := by
  have hmin := h.min_le
  have hsplit : s.mSlots = s.mSlots.take s.mBufferCount.toNat ++ s.mSlots.drop s.mBufferCount.toNat :=
    (List.take_append_drop _ _).symm
  unfold dequeuedSlots
  rw [hsplit, List.countP_append]
  have hdrop : List.countP (fun sl => decide (sl.mBufferState = BufferState.DEQUEUED))
      (s.mSlots.drop s.mBufferCount.toNat) = 0 := by
    rw [List.countP_eq_zero]
    intro a ha
    obtain ⟨i, hi⟩ := List.mem_iff_getElem?.mp ha
    rw [List.getElem?_drop] at hi
    have := (h.inert _ a hi (by omega)).1
    simp [this]
  have htake : List.countP (fun sl => decide (sl.mBufferState = BufferState.DEQUEUED))
      (s.mSlots.take s.mBufferCount.toNat) ≤ s.mBufferCount.toNat :=
    le_trans (List.countP_le_length _) (List.length_take_le _ _)
  push_cast
  omega

theorem anyDequeued_of_slot (e : Env) (s : CameraNativeWindow) (k : Nat)
    (hk : (k : Int) < s.mBufferCount)
    (hst : (slotAt s.mSlots e.oob (k : Int)).mBufferState = BufferState.DEQUEUED) :
    anyDequeued e s = true := by
  unfold anyDequeued
  rw [List.any_eq_true]
  exact ⟨k, List.mem_range.mpr (by omega), by simp [hst]⟩

theorem dequeued_stays (c : Consts) (hinv : c.INVALID_BUFFER_SLOT < 0) (e : Env)
    (s : CameraNativeWindow) (hwf : WellFormed c s) (op : Op) (k : Nat)
    (hk : (k : Int) < s.mBufferCount)
    (hst : (slotAt s.mSlots e.oob (k : Int)).mBufferState = BufferState.DEQUEUED) :
    (slotAt (step c e s op).mSlots e.oob (k : Int)).mBufferState = BufferState.DEQUEUED ∨
    (∃ buffer, op = Op.queueBuffer buffer ∧ getSlotFromBufferLocked c e s buffer = (k : Int) ∧
      (queueBuffer c e s buffer).1 = OK) ∨
    (∃ buffer, op = Op.cancelBuffer buffer ∧ getSlotFromBufferLocked c e s buffer = (k : Int) ∧
      (cancelBuffer c e s buffer).1 = OK) := by
  have hwf2 := hwf
  obtain ⟨hlen, hnum⟩ := hwf2
  cases op with
  | dequeueBuffer =>
    left
    rw [step_dequeueBuffer]
    rcases dequeueBuffer_cases c e s hinv hwf with
      ⟨hw, _⟩ | ⟨j, _, _, _, hfree, ⟨g, _, hd⟩ | ⟨_, _, hd⟩ | ⟨_, _, hd⟩⟩
    · rw [hw]; exact hst
    all_goals
      rw [hd]
      have hne : (j : Int) ≠ (k : Int) := by
        intro heq
        rw [heq, hst] at hfree
        cases hfree
      dsimp only
      rw [slotAt_setSlot_ne _ _ _ _ _ hne]
      exact hst
  | queueBuffer buffer =>
    show (slotAt (queueBuffer c e s buffer).2.mSlots e.oob (k : Int)).mBufferState = _ ∨ _
    rcases resolve_cases c e s buffer with hf | ⟨j, hj, hjc, hjst⟩
    · left; rw [queueBuffer_fails c e s buffer hf]; exact hst
    · have hok := queueBuffer_ok c e s buffer _ hj (Int.natCast_nonneg j) hjc (by omega) hjst
      by_cases hjk : j = k
      · right; left
        exact ⟨buffer, rfl, by rw [hj, hjk], by rw [hok]⟩
      · left
        rw [hok]
        dsimp only
        rw [slotAt_setSlot_ne _ _ _ _ _ (by omega)]
        exact hst
  | cancelBuffer buffer =>
    show (slotAt (cancelBuffer c e s buffer).2.mSlots e.oob (k : Int)).mBufferState = _ ∨ _
    rcases resolve_cases c e s buffer with hf | ⟨j, hj, hjc, hjst⟩
    · left; rw [cancelBuffer_fails c e s buffer hf]; exact hst
    · have hok := cancelBuffer_ok c e s buffer _ hj (Int.natCast_nonneg j) hjc (by omega) hjst
      by_cases hjk : j = k
      · right; right
        exact ⟨buffer, rfl, by rw [hj, hjk], by rw [hok]⟩
      · left
        rw [hok]
        dsimp only
        rw [slotAt_setSlot_ne _ _ _ _ _ (by omega)]
        exact hst
  | lockBuffer buffer => left; exact hst
  | setBufferCount n =>
    left
    show (slotAt (setBufferCount c e s n).2.mSlots e.oob (k : Int)).mBufferState = _
    have hany := anyDequeued_of_slot e s k hk hst
    unfold setBufferCount
    split
    · exact hst
    · split
      · exact hst
      · split
        · exact hst
        · exact hst
  | query what => left; exact hst
  | setSwapInterval interval => left; exact hst
  | setUsage u => left; exact hst
  | setBuffersDimensions w ht =>
    left
    show (slotAt (setBuffersDimensions s w ht).2.mSlots e.oob (k : Int)).mBufferState = _
    unfold setBuffersDimensions
    split
    · exact hst
    · split <;> exact hst
  | setBuffersFormat f =>
    left
    show (slotAt (setBuffersFormat s f).2.mSlots e.oob (k : Int)).mBufferState = _
    unfold setBuffersFormat
    split <;> exact hst
  | setBuffersTimestamp ts => left; exact hst

/-- C3: after any sequence of calls on a freshly constructed pool, the number of
DEQUEUED slots is at most `mBufferCount`; a `dequeueBuffer` that then returns
`NO_ERROR` hands out the buffer of a slot `k < mBufferCount` that was FREE
before the call and is DEQUEUED after it, touching no other slot; and a
DEQUEUED slot stays DEQUEUED under every call except a `queueBuffer` or
`cancelBuffer` that resolves to it and returns `OK`. -/
theorem dequeued_bounded_and_exclusive (c : Consts) (hs : c.Sane) (calls : List (Env × Op)) :
    (dequeuedSlots (run c (init c) calls) : Int) ≤ (run c (init c) calls).mBufferCount ∧
    (∀ (e : Env) (buffer : Option GraphicBuffer) (s1 : CameraNativeWindow),
      dequeueBuffer c e (run c (init c) calls) = DequeueResult.done NO_ERROR buffer s1 →
      ∃ k : Nat, (k : Int) < (run c (init c) calls).mBufferCount ∧
        (slotAt (run c (init c) calls).mSlots e.oob (k : Int)).mBufferState = BufferState.FREE ∧
        (slotAt s1.mSlots e.oob (k : Int)).mBufferState = BufferState.DEQUEUED ∧
        (slotAt s1.mSlots e.oob (k : Int)).mGraphicBuffer = buffer ∧ buffer ≠ none ∧
        ∀ j : Int, j ≠ (k : Int) →
          slotAt s1.mSlots e.oob j = slotAt (run c (init c) calls).mSlots e.oob j) ∧
    (∀ (e : Env) (op : Op) (k : Nat), (k : Int) < (run c (init c) calls).mBufferCount →
      (slotAt (run c (init c) calls).mSlots e.oob (k : Int)).mBufferState
        = BufferState.DEQUEUED →
      (slotAt (step c e (run c (init c) calls) op).mSlots e.oob (k : Int)).mBufferState
        = BufferState.DEQUEUED ∨
      (∃ buffer, op = Op.queueBuffer buffer ∧
        getSlotFromBufferLocked c e (run c (init c) calls) buffer = (k : Int) ∧
        (queueBuffer c e (run c (init c) calls) buffer).1 = OK) ∨
      (∃ buffer, op = Op.cancelBuffer buffer ∧
        getSlotFromBufferLocked c e (run c (init c) calls) buffer = (k : Int) ∧
        (cancelBuffer c e (run c (init c) calls) buffer).1 = OK)) := by
  have hI : Inv c (run c (init c) calls) := inv_run hs calls _ (inv_init c hs)
  generalize run c (init c) calls = s at hI
  refine ⟨dequeuedSlots_le hI, ?_, ?_⟩
  · intro e buffer s1 hdq
    rcases dequeueBuffer_cases c e s hs.1 hI.wellFormed with
      ⟨hw, _⟩ | ⟨k, _, hkc, hkl, hfree, ⟨g, hg, hd⟩ | ⟨_, herr, hd⟩ | ⟨_, _, hd⟩⟩
    · rw [hw] at hdq; cases hdq
    · rw [hd] at hdq
      injection hdq with _ hb hs1
      subst hb; subst hs1
      have hl : (k : Int) < (s.mSlots.length : Int) := by omega
      refine ⟨k, hkc, hfree, ?_, ?_, by simp, ?_⟩
      · dsimp only; rw [slotAt_setSlot_same _ _ _ _ (Int.natCast_nonneg k) hl]
      · dsimp only; rw [slotAt_setSlot_same _ _ _ _ (Int.natCast_nonneg k) hl]; exact hg
      · intro j hj
        exact slotAt_setSlot_ne _ _ _ _ _ (Ne.symm hj)
    · rw [hd] at hdq
      injection hdq with hst _ _
      exact absurd hst herr
    · rw [hd] at hdq
      injection hdq with _ hb hs1
      subst hb; subst hs1
      have hl : (k : Int) < (s.mSlots.length : Int) := by omega
      refine ⟨k, hkc, hfree, ?_, ?_, by simp, ?_⟩
      · dsimp only; rw [slotAt_setSlot_same _ _ _ _ (Int.natCast_nonneg k) hl]
      · dsimp only; rw [slotAt_setSlot_same _ _ _ _ (Int.natCast_nonneg k) hl]
      · intro j hj
        exact slotAt_setSlot_ne _ _ _ _ _ (Ne.symm hj)
  · intro e op k hk hst
    exact dequeued_stays c hs.1 e s hI.wellFormed op k hk hst

/-- C3 at `sampleCalls`: after three successful acquires, a waiting one and one
release, two of the three slots in use are DEQUEUED. -/
theorem dequeued_bounded_and_exclusive_witness :
    sampleConsts.Sane ∧
    dequeuedSlots (run sampleConsts (init sampleConsts) sampleCalls) = 2 ∧
    (dequeuedSlots (run sampleConsts (init sampleConsts) sampleCalls) : Int) ≤
      (run sampleConsts (init sampleConsts) sampleCalls).mBufferCount :=
  ⟨by decide, by decide,
    (dequeued_bounded_and_exclusive sampleConsts (by decide) sampleCalls).1⟩

/-! ## C9: acquire, then cancel -/

theorem getSlotFromBufferLocked_of_distinct (c : Consts) (e : Env) (s : CameraNativeWindow)
    (hd : DistinctHandles s) (hlen : s.mSlots.length = c.NUM_BUFFER_SLOTS) (k : Nat)
    (sl : BufferSlot) (g : GraphicBuffer) (hk : s.mSlots[k]? = some sl)
    (hg : sl.mGraphicBuffer = some g) :
    getSlotFromBufferLocked c e s (some g.toANativeWindowBuffer) = (k : Int) := by
  have hkl : k < s.mSlots.length := lt_length_of_getElem? _ _ _ hk
  have hmk : handleMatches s.mSlots e.oob g.toANativeWindowBuffer k = true := by
    unfold handleMatches
    rw [slotAt_of_getElem? _ _ _ _ hk, hg]
    simp
  rcases getSlotFromBufferLocked_cases c e s g.toANativeWindowBuffer with
    ⟨_, hnone⟩ | ⟨i, hi, hin, hm, _⟩
  · have := hnone k (by omega)
    rw [hmk] at this
    cases this
  · rw [hi]
    have hil : i < s.mSlots.length := by omega
    unfold handleMatches at hm
    cases hgi : (slotAt s.mSlots e.oob (i : Int)).mGraphicBuffer with
    | none => rw [hgi] at hm; cases hm
    | some gi =>
      rw [hgi] at hm
      have heq : gi.handle = g.handle := by simpa using hm
      have := hd i k _ sl gi g (getElem?_slotAt s.mSlots e.oob i hil) hk hgi hg heq
      rw [this]

theorem dequeueBuffer_ne_waits (c : Consts) (e : Env) (s : CameraNativeWindow)
    (hinv : c.INVALID_BUFFER_SLOT < 0) (hwf : WellFormed c s) (k : Nat)
    (hk : (k : Int) < s.mBufferCount)
    (hfree : (slotAt s.mSlots e.oob (k : Int)).mBufferState = BufferState.FREE) :
    dequeueBuffer c e s ≠ DequeueResult.waits := by
  intro hw
  rcases dequeueBuffer_cases c e s hinv hwf with
    ⟨_, hnone⟩ | ⟨j, _, _, _, _, ⟨g, _, hd⟩ | ⟨_, _, hd⟩ | ⟨_, _, hd⟩⟩
  · exact hnone k hk hfree
  all_goals
    rw [hd] at hw
    cases hw

theorem cancel_after_dequeue (c : Consts) (e2 : Env) (s : CameraNativeWindow)
    (hI : Inv c s) (k : Nat) (hkc : (k : Int) < s.mBufferCount) (v : BufferSlot)
    (g : GraphicBuffer) (hv : v.mGraphicBuffer = some g)
    (hvs : v.mBufferState = BufferState.DEQUEUED)
    (hd1 : DistinctHandles { s with mSlots := setSlot s.mSlots (k : Int) v }) :
    cancelBuffer c e2 { s with mSlots := setSlot s.mSlots (k : Int) v }
        (some g.toANativeWindowBuffer) =
      (OK, { s with mSlots := setSlot s.mSlots (k : Int)
                      { v with mBufferState := BufferState.FREE, mFrameNumber := 0 } }) := by
  have hkl : (k : Int) < (s.mSlots.length : Int) := hI.lt_length _ hkc
  have hkn : k < s.mSlots.length := by omega
  have hget : (setSlot s.mSlots (k : Int) v)[k]? = some v := by
    rw [getElem?_setSlot]; simp [hkn]
  have hres := getSlotFromBufferLocked_of_distinct c e2
    { s with mSlots := setSlot s.mSlots (k : Int) v } hd1
    (by dsimp only; rw [length_setSlot]; exact hI.length_eq) k v g hget hv
  have hsl : slotAt (setSlot s.mSlots (k : Int) v) e2.oob (k : Int) = v :=
    slotAt_setSlot_same _ _ _ _ (Int.natCast_nonneg k) hkl
  rw [cancelBuffer_ok c e2 _ (some g.toANativeWindowBuffer) (k : Int) hres
    (Int.natCast_nonneg k) hkc
    (by dsimp only; rw [length_setSlot]; exact hkl)
    (by dsimp only; rw [hsl]; exact hvs)]
  simp only [hsl, setSlot_setSlot]

/-- C9: in a reachable state, if `dequeueBuffer` (with an allocator that returns
a fresh handle) succeeds and returns the buffer `g` of slot `A`, then
`cancelBuffer` of `g` returns `OK` and the resulting state is the state before
the acquire except that slot `A` has frame number 0 and holds `g`; so the frame
counter is unchanged, slot `A` is FREE, and a following `dequeueBuffer` does
not wait. -/
theorem dequeue_then_cancel (c : Consts) (hs : c.Sane) (s : CameraNativeWindow)
    (hr : Reachable c s) (e e2 : Env) (hfresh : e.initCheck = NO_ERROR → AllocFresh e s)
    (g : GraphicBuffer) (s1 : CameraNativeWindow)
    (hdq : dequeueBuffer c e s = DequeueResult.done NO_ERROR (some g) s1) :
    ∃ A : Nat, (dequeueScan c e s).1 = (A : Int) ∧ (A : Int) < s.mBufferCount ∧
      (slotAt s1.mSlots e.oob (A : Int)).mGraphicBuffer = some g ∧
      cancelBuffer c e2 s1 (some g.toANativeWindowBuffer) =
        (OK, { s with mSlots := setSlot s.mSlots (A : Int)
                        { slotAt s.mSlots e.oob (A : Int) with
                          mFrameNumber := 0
                          mGraphicBuffer := some g } }) ∧
      (cancelBuffer c e2 s1 (some g.toANativeWindowBuffer)).2.mFrameCounter = s.mFrameCounter ∧
      (slotAt (cancelBuffer c e2 s1 (some g.toANativeWindowBuffer)).2.mSlots e.oob
        (A : Int)).mBufferState = BufferState.FREE ∧
      ∀ e3 : Env, dequeueBuffer c e3 (cancelBuffer c e2 s1 (some g.toANativeWindowBuffer)).2
        ≠ DequeueResult.waits := by
  obtain ⟨hI, hD⟩ := inv_of_reachable hs hr
  have hstepD := (inv_dequeueBuffer hs hI e).2 hD hfresh
  have hstepI := (inv_dequeueBuffer hs hI e).1
  rw [step_dequeueBuffer, hdq] at hstepD hstepI
  dsimp only at hstepD hstepI
  have key : ∃ A : Nat, (dequeueScan c e s).1 = (A : Int) ∧ (A : Int) < s.mBufferCount ∧
      (slotAt s.mSlots e.oob (A : Int)).mBufferState = BufferState.FREE ∧
      ∃ v : BufferSlot, s1 = { s with mSlots := setSlot s.mSlots (A : Int) v } ∧
        v.mGraphicBuffer = some g ∧ v.mBufferState = BufferState.DEQUEUED ∧
        { v with mBufferState := BufferState.FREE, mFrameNumber := 0 } =
          { slotAt s.mSlots e.oob (A : Int) with mFrameNumber := 0, mGraphicBuffer := some g } := by
    rcases dequeueBuffer_cases c e s hs.1 hI.wellFormed with
      ⟨hw, _⟩ | ⟨k, hk, hkc, hkl, hfree, ⟨g2, hg, hd⟩ | ⟨_, herr, hd⟩ | ⟨_, _, hd⟩⟩
    · rw [hw] at hdq; cases hdq
    · rw [hd] at hdq
      injection hdq with _ hb hs1
      injection hb with hb
      subst hb
      refine ⟨k, hk, hkc, hfree, _, hs1.symm, hg, rfl, ?_⟩
      rw [← hg, ← hfree]
    · rw [hd] at hdq
      injection hdq with hst _ _
      exact absurd hst herr
    · rw [hd] at hdq
      injection hdq with _ hb hs1
      injection hb with hb
      subst hb
      refine ⟨k, hk, hkc, hfree, _, hs1.symm, rfl, rfl, ?_⟩
      rw [← hfree]
  obtain ⟨A, hA, hAc, hAfree, v, hs1, hvg, hvs, hveq⟩ := key
  subst hs1
  have hAl : (A : Int) < (s.mSlots.length : Int) := hI.lt_length _ hAc
  have hcancel := cancel_after_dequeue c e2 s hI A hAc v g hvg hvs hstepD
  rw [hveq] at hcancel
  refine ⟨A, hA, hAc, ?_, hcancel, ?_, ?_, ?_⟩
  · dsimp only
    rw [slotAt_setSlot_same _ _ _ _ (Int.natCast_nonneg A) hAl]
    exact hvg
  · rw [hcancel]
  · rw [hcancel]
    dsimp only
    rw [slotAt_setSlot_same _ _ _ _ (Int.natCast_nonneg A) hAl]
    exact hAfree
  · intro e3
    rw [hcancel]
    refine dequeueBuffer_ne_waits c e3 _ hs.1
      (Inv.wellFormed (inv_of_setSlot hI A _ hAc rfl rfl)) A hAc ?_
    dsimp only
    rw [slotAt_setSlot_same _ _ _ _ (Int.natCast_nonneg A) hAl]
    exact hAfree

theorem allocFresh_init (c : Consts) (e : Env) : AllocFresh e (init c) := by
  intro sl hsl g hg
  simp only [init] at hsl
  rw [List.eq_of_mem_replicate hsl] at hg
  cases hg

/-- C9 on a freshly constructed pool: the first acquire allocates handle 7 for
slot 0; cancelling it returns `OK`, leaves the frame counter at 0 and the
slot FREE, and the next acquire does not wait. -/
theorem dequeue_then_cancel_witness :
    dequeueBuffer sampleConsts sampleEnv (init sampleConsts) =
      DequeueResult.done NO_ERROR (some (newGraphicBuffer sampleEnv (init sampleConsts)))
        (step sampleConsts sampleEnv (init sampleConsts) Op.dequeueBuffer) ∧
    (cancelBuffer sampleConsts sampleEnv
      (step sampleConsts sampleEnv (init sampleConsts) Op.dequeueBuffer)
      (some (newGraphicBuffer sampleEnv (init sampleConsts)).toANativeWindowBuffer)).1 = OK ∧
    (cancelBuffer sampleConsts sampleEnv
      (step sampleConsts sampleEnv (init sampleConsts) Op.dequeueBuffer)
      (some (newGraphicBuffer sampleEnv (init sampleConsts)).toANativeWindowBuffer)).2.mFrameCounter
      = (init sampleConsts).mFrameCounter ∧
    dequeueBuffer sampleConsts sampleEnv
      (cancelBuffer sampleConsts sampleEnv
        (step sampleConsts sampleEnv (init sampleConsts) Op.dequeueBuffer)
        (some (newGraphicBuffer sampleEnv (init sampleConsts)).toANativeWindowBuffer)).2
      ≠ DequeueResult.waits := by
  obtain ⟨A, _, _, _, hc, hfc, _, hnw⟩ :=
    dequeue_then_cancel sampleConsts (by decide) (init sampleConsts) (Reachable.init)
      sampleEnv sampleEnv (fun _ => allocFresh_init sampleConsts sampleEnv)
      (newGraphicBuffer sampleEnv (init sampleConsts))
      (step sampleConsts sampleEnv (init sampleConsts) Op.dequeueBuffer) (by decide)
  exact ⟨by decide, by rw [hc], hfc, hnw sampleEnv⟩

/-! ## C10: `setBufferCount` outside `[MIN_BUFFER_SLOTS, NUM_BUFFER_SLOTS]` -/

theorem dequeueBuffer_mBufferCount (c : Consts) (e : Env) (s : CameraNativeWindow) :
    (step c e s Op.dequeueBuffer).mBufferCount = s.mBufferCount := by
  rw [step_dequeueBuffer]
  cases hres : dequeueBuffer c e s with
  | waits => rfl
  | done st b s1 =>
    dsimp only
    unfold dequeueBuffer at hres
    dsimp only at hres
    split at hres
    · cases hres
    · split at hres
      · split at hres <;> (injection hres with _ _ h3; rw [← h3])
      · injection hres with _ _ h3; rw [← h3]

theorem min_le_step (c : Consts) (e : Env) (s : CameraNativeWindow) (op : Op)
    (h : (c.MIN_BUFFER_SLOTS : Int) ≤ s.mBufferCount) :
    (c.MIN_BUFFER_SLOTS : Int) ≤ (step c e s op).mBufferCount := by
  cases op with
  | dequeueBuffer => rw [dequeueBuffer_mBufferCount]; exact h
  | queueBuffer buffer =>
    show _ ≤ (queueBuffer c e s buffer).2.mBufferCount
    unfold queueBuffer
    dsimp only
    split
    · exact h
    · split <;> exact h
  | cancelBuffer buffer =>
    show _ ≤ (cancelBuffer c e s buffer).2.mBufferCount
    unfold cancelBuffer
    dsimp only
    split
    · exact h
    · split <;> exact h
  | lockBuffer buffer => exact h
  | setBufferCount n =>
    show _ ≤ (setBufferCount c e s n).2.mBufferCount
    unfold setBufferCount
    by_cases h1 : n > (c.NUM_BUFFER_SLOTS : Int)
    · rw [if_pos h1]; exact h
    · rw [if_neg h1]
      by_cases h2 : n = s.mBufferCount
      · rw [if_pos h2]; exact h
      · rw [if_neg h2]
        by_cases h3 : n < (c.MIN_BUFFER_SLOTS : Int)
        · rw [if_pos h3]; exact h
        · rw [if_neg h3]
          by_cases h4 : anyDequeued e s = true
          · rw [if_pos h4]; exact h
          · rw [if_neg h4]
            by_cases h5 : n > s.mBufferCount
            · rw [if_pos h5]; show _ ≤ n; omega
            · rw [if_neg h5]; show _ ≤ n; omega
  | query what => exact h
  | setSwapInterval interval => exact h
  | setUsage u => exact h
  | setBuffersDimensions w ht =>
    show _ ≤ (setBuffersDimensions s w ht).2.mBufferCount
    unfold setBuffersDimensions
    split
    · exact h
    · split <;> exact h
  | setBuffersFormat f =>
    show _ ≤ (setBuffersFormat s f).2.mBufferCount
    unfold setBuffersFormat
    split <;> exact h
  | setBuffersTimestamp ts => exact h

theorem min_le_run (c : Consts) (calls : List (Env × Op)) (s : CameraNativeWindow)
    (h : (c.MIN_BUFFER_SLOTS : Int) ≤ s.mBufferCount) :
    (c.MIN_BUFFER_SLOTS : Int) ≤ (run c s calls).mBufferCount := by
  induction calls generalizing s with
  | nil => exact h
  | cons eo rest ih =>
    show _ ≤ (run c (step c eo.1 s eo.2) rest).mBufferCount
    exact ih _ (min_le_step c eo.1 s eo.2 h)

/-- C10: in every state reached from construction by any sequence of calls,
`setBufferCount(n)` with `n > NUM_BUFFER_SLOTS` or `n < MIN_BUFFER_SLOTS`
returns `BAD_VALUE` and leaves the state unchanged; in particular so do
`setBufferCount(MIN_BUFFER_SLOTS - 1)` and `setBufferCount(NUM_BUFFER_SLOTS + 1)`. -/
theorem setBufferCount_out_of_range (c : Consts) (calls : List (Env × Op)) (e : Env) (n : Int)
    (hn : n > (c.NUM_BUFFER_SLOTS : Int) ∨ n < (c.MIN_BUFFER_SLOTS : Int)) :
    setBufferCount c e (run c (init c) calls) n = (BAD_VALUE, run c (init c) calls) ∧
    setBufferCount c e (run c (init c) calls) ((c.MIN_BUFFER_SLOTS : Int) - 1)
      = (BAD_VALUE, run c (init c) calls) ∧
    setBufferCount c e (run c (init c) calls) ((c.NUM_BUFFER_SLOTS : Int) + 1)
      = (BAD_VALUE, run c (init c) calls) := by
  have hmin : (c.MIN_BUFFER_SLOTS : Int) ≤ (run c (init c) calls).mBufferCount :=
    min_le_run c calls (init c) (le_refl _)
  generalize run c (init c) calls = s at hmin
  have key : ∀ m : Int, (m > (c.NUM_BUFFER_SLOTS : Int) ∨ m < (c.MIN_BUFFER_SLOTS : Int)) →
      setBufferCount c e s m = (BAD_VALUE, s) := by
    intro m hm
    unfold setBufferCount
    by_cases h1 : m > (c.NUM_BUFFER_SLOTS : Int)
    · rw [if_pos h1]
    · rw [if_neg h1]
      have h3 : m < (c.MIN_BUFFER_SLOTS : Int) := by
        rcases hm with hm | hm
        · exact absurd hm h1
        · exact hm
      have h2 : ¬ m = s.mBufferCount := by omega
      rw [if_neg h2, if_pos h3]
  exact ⟨key n hn, key _ (Or.inr (by omega)), key _ (Or.inl (by omega))⟩

/-- C10 at `sampleCalls` (three slots in use out of four): `setBufferCount(2)`
and `setBufferCount(5)` are refused. -/
theorem setBufferCount_out_of_range_witness :
    setBufferCount sampleConsts sampleEnv (run sampleConsts (init sampleConsts) sampleCalls) 2
      = (BAD_VALUE, run sampleConsts (init sampleConsts) sampleCalls) ∧
    setBufferCount sampleConsts sampleEnv (run sampleConsts (init sampleConsts) sampleCalls) 5
      = (BAD_VALUE, run sampleConsts (init sampleConsts) sampleCalls) :=
  ⟨(setBufferCount_out_of_range sampleConsts sampleCalls sampleEnv 2 (Or.inr (by decide))).1,
   (setBufferCount_out_of_range sampleConsts sampleCalls sampleEnv 5 (Or.inl (by decide))).1⟩

/-! ## Closed forms of `setBufferCount` -/

theorem anyDequeued_iff (e : Env) (s : CameraNativeWindow) :
    anyDequeued e s = true ↔
      ∃ i : Nat, (i : Int) < s.mBufferCount ∧
        (slotAt s.mSlots e.oob (i : Int)).mBufferState = BufferState.DEQUEUED := by
  constructor
  · intro h
    unfold anyDequeued at h
    rw [List.any_eq_true] at h
    obtain ⟨i, hi, hd⟩ := h
    have hlt := List.mem_range.mp hi
    exact ⟨i, by omega, by simpa using hd⟩
  · rintro ⟨i, hi, hd⟩
    exact anyDequeued_of_slot e s i hi hd

theorem setBufferCount_same (c : Consts) (e : Env) (s : CameraNativeWindow)
    (hle : s.mBufferCount ≤ (c.NUM_BUFFER_SLOTS : Int)) :
    setBufferCount c e s s.mBufferCount = (OK, s) := by
  unfold setBufferCount
  have h1 : ¬ s.mBufferCount > (c.NUM_BUFFER_SLOTS : Int) := by omega
  rw [if_neg h1, if_pos rfl]

theorem setBufferCount_busy (c : Consts) (e : Env) (s : CameraNativeWindow) (n : Int)
    (hmin : (c.MIN_BUFFER_SLOTS : Int) ≤ n) (hmax : n ≤ (c.NUM_BUFFER_SLOTS : Int))
    (hne : n ≠ s.mBufferCount) (hany : anyDequeued e s = true) :
    setBufferCount c e s n = (-EINVAL, s) := by
  unfold setBufferCount
  have h1 : ¬ n > (c.NUM_BUFFER_SLOTS : Int) := by omega
  have h3 : ¬ n < (c.MIN_BUFFER_SLOTS : Int) := by omega
  rw [if_neg h1, if_neg hne, if_neg h3, if_pos hany]

theorem setBufferCount_grow (c : Consts) (e : Env) (s : CameraNativeWindow) (n : Int)
    (hmin : (c.MIN_BUFFER_SLOTS : Int) ≤ n) (hmax : n ≤ (c.NUM_BUFFER_SLOTS : Int))
    (hgt : s.mBufferCount < n) (hany : ¬ anyDequeued e s = true) :
    setBufferCount c e s n = (OK, { s with mBufferCount := n }) := by
  unfold setBufferCount
  have h1 : ¬ n > (c.NUM_BUFFER_SLOTS : Int) := by omega
  have h2 : ¬ n = s.mBufferCount := by omega
  have h3 : ¬ n < (c.MIN_BUFFER_SLOTS : Int) := by omega
  have h5 : n > s.mBufferCount := hgt
  rw [if_neg h1, if_neg h2, if_neg h3, if_neg hany, if_pos h5]

theorem setBufferCount_shrink (c : Consts) (e : Env) (s : CameraNativeWindow) (n : Int)
    (hlen : s.mSlots.length = c.NUM_BUFFER_SLOTS)
    (hmin : (c.MIN_BUFFER_SLOTS : Int) ≤ n) (hmax : n ≤ (c.NUM_BUFFER_SLOTS : Int))
    (hlt : n < s.mBufferCount) (hany : ¬ anyDequeued e s = true) :
    setBufferCount c e s n =
      (OK, { s with mSlots := s.mSlots.map freeSlot, mBufferCount := n }) := by
  unfold setBufferCount
  have h1 : ¬ n > (c.NUM_BUFFER_SLOTS : Int) := by omega
  have h2 : ¬ n = s.mBufferCount := by omega
  have h3 : ¬ n < (c.MIN_BUFFER_SLOTS : Int) := by omega
  have h5 : ¬ n > s.mBufferCount := by omega
  rw [if_neg h1, if_neg h2, if_neg h3, if_neg hany, if_neg h5,
    freeAllBuffersLocked_eq c e s hlen]

theorem slotAt_map_freeSlot (slots : List BufferSlot) (oob : BufferSlot) (i : Nat)
    (h : i < slots.length) :
    slotAt (slots.map freeSlot) oob (i : Int) = freeSlot (slotAt slots oob (i : Int)) := by
  have h2 : i < (slots.map freeSlot).length := by rw [List.length_map]; exact h
  rw [slotAt_of_lt _ _ _ h2, slotAt_of_lt _ _ _ h]
  simp

/-! ## C11: `setBufferCount` while a buffer is held -/

/-- C11 (as stated, refuted): in `samplePool` slot 0 is DEQUEUED and lies below
`mBufferCount = 3`, yet `setBufferCount(3)` returns `OK`, not `-EINVAL`. -/
theorem setBufferCount_same_count_succeeds_while_held :
    (0 : Int) < samplePool.mBufferCount ∧
    (slotAt samplePool.mSlots sampleEnv.oob 0).mBufferState = BufferState.DEQUEUED ∧
    setBufferCount sampleConsts sampleEnv samplePool 3 = (OK, samplePool) ∧
    OK ≠ -EINVAL := by
  decide

/-- C11 (amended): when some slot with index below `mBufferCount` is DEQUEUED,
`setBufferCount(n)` returns `-EINVAL` and leaves the state unchanged for every
`n` in `[MIN_BUFFER_SLOTS, NUM_BUFFER_SLOTS]` other than `mBufferCount`;
`n = mBufferCount` (within the array) returns `OK`, and `n` outside the range
and different from `mBufferCount` returns `BAD_VALUE`, both without change. -/
theorem setBufferCount_while_held (c : Consts) (e : Env) (s : CameraNativeWindow) (n : Int)
    (hheld : ∃ i : Nat, (i : Int) < s.mBufferCount ∧
      (slotAt s.mSlots e.oob (i : Int)).mBufferState = BufferState.DEQUEUED) :
    ((c.MIN_BUFFER_SLOTS : Int) ≤ n → n ≤ (c.NUM_BUFFER_SLOTS : Int) → n ≠ s.mBufferCount →
      setBufferCount c e s n = (-EINVAL, s)) ∧
    (n = s.mBufferCount → n ≤ (c.NUM_BUFFER_SLOTS : Int) → setBufferCount c e s n = (OK, s)) ∧
    ((n > (c.NUM_BUFFER_SLOTS : Int) ∨ n < (c.MIN_BUFFER_SLOTS : Int)) → n ≠ s.mBufferCount →
      setBufferCount c e s n = (BAD_VALUE, s)) := by
  have hany := (anyDequeued_iff e s).mpr hheld
  refine ⟨fun hmin hmax hne => setBufferCount_busy c e s n hmin hmax hne hany, ?_, ?_⟩
  · intro heq hle
    rw [heq]
    exact setBufferCount_same c e s (by omega)
  · intro hout hne
    unfold setBufferCount
    by_cases h1 : n > (c.NUM_BUFFER_SLOTS : Int)
    · rw [if_pos h1]
    · have h3 : n < (c.MIN_BUFFER_SLOTS : Int) := by
        rcases hout with h | h
        · exact absurd h h1
        · exact h
      rw [if_neg h1, if_neg hne, if_pos h3]

/-- C11 (amended) at `samplePool`, where slot 0 is held: `setBufferCount(4)` is
refused with `-EINVAL`. -/
theorem setBufferCount_while_held_witness :
    setBufferCount sampleConsts sampleEnv samplePool 4 = (-EINVAL, samplePool) :=
  (setBufferCount_while_held sampleConsts sampleEnv samplePool 4
    ⟨0, by decide, by decide⟩).1 (by decide) (by decide) (by decide)

/-! ## C12: `setBufferCount` while no buffer is held -/

/-- C12 (as stated, refuted): `idlePool` is reached from construction, none of
its three slots in use is DEQUEUED and slot 0 owns a buffer; `setBufferCount(4)`
returns `OK`, and afterwards slot 0 still owns that buffer. -/
theorem setBufferCount_grow_keeps_buffers :
    idlePool.mBufferCount = 3 ∧
    (slotAt idlePool.mSlots sampleEnv.oob 0).mBufferState = BufferState.FREE ∧
    (slotAt idlePool.mSlots sampleEnv.oob 1).mBufferState = BufferState.FREE ∧
    (slotAt idlePool.mSlots sampleEnv.oob 2).mBufferState = BufferState.FREE ∧
    (setBufferCount sampleConsts sampleEnv idlePool 4).1 = OK ∧
    (slotAt (setBufferCount sampleConsts sampleEnv idlePool 4).2.mSlots sampleEnv.oob
      0).mGraphicBuffer = some (newGraphicBuffer sampleEnv (init sampleConsts)) := by
  decide

/-- C12 (amended): when no slot with index below `mBufferCount` is DEQUEUED and
`MIN_BUFFER_SLOTS ≤ n ≤ NUM_BUFFER_SLOTS`, `setBufferCount(n)` returns `OK`;
if `n < mBufferCount` every slot of the array is afterwards FREE and owns no
buffer, and if `n ≥ mBufferCount` the slot array is left as it was. -/
theorem setBufferCount_while_idle (c : Consts) (e : Env) (s : CameraNativeWindow) (n : Int)
    (hwf : WellFormed c s)
    (hidle : ∀ i : Nat, (i : Int) < s.mBufferCount →
      (slotAt s.mSlots e.oob (i : Int)).mBufferState ≠ BufferState.DEQUEUED)
    (hmin : (c.MIN_BUFFER_SLOTS : Int) ≤ n) (hmax : n ≤ (c.NUM_BUFFER_SLOTS : Int)) :
    (setBufferCount c e s n).1 = OK ∧
    (n < s.mBufferCount →
      (setBufferCount c e s n).2.mSlots.length = c.NUM_BUFFER_SLOTS ∧
      ∀ sl ∈ (setBufferCount c e s n).2.mSlots,
        sl.mBufferState = BufferState.FREE ∧ sl.mGraphicBuffer = none) ∧
    (s.mBufferCount ≤ n → (setBufferCount c e s n).2.mSlots = s.mSlots) := by
  obtain ⟨hlen, hcnt⟩ := hwf
  have hany : ¬ anyDequeued e s = true := by
    intro h
    obtain ⟨i, hi, hd⟩ := (anyDequeued_iff e s).mp h
    exact hidle i hi hd
  rcases lt_trichotomy n s.mBufferCount with hlt | heq | hgt
  · rw [setBufferCount_shrink c e s n hlen hmin hmax hlt hany]
    refine ⟨rfl, fun _ => ⟨?_, ?_⟩, fun h => absurd h (by omega)⟩
    · simp only [List.length_map]; exact hlen
    · intro sl hsl
      obtain ⟨a, _, ha⟩ := List.mem_map.mp hsl
      rw [← ha]
      exact ⟨rfl, rfl⟩
  · rw [heq, setBufferCount_same c e s hcnt]
    exact ⟨rfl, fun h => absurd h (lt_irrefl _), fun _ => rfl⟩
  · rw [setBufferCount_grow c e s n hmin hmax hgt hany]
    exact ⟨rfl, fun h => absurd h (by omega), fun _ => rfl⟩

/-- C12 (amended) at `idlePool`: growing to 4 succeeds and leaves the slots as
they were. -/
theorem setBufferCount_while_idle_witness :
    (setBufferCount sampleConsts sampleEnv idlePool 4).1 = OK ∧
    (setBufferCount sampleConsts sampleEnv idlePool 4).2.mSlots = idlePool.mSlots :=
  have h := setBufferCount_while_idle sampleConsts sampleEnv idlePool 4
    ⟨by decide, by decide⟩
    (fun i hi => by
      have h3 : idlePool.mBufferCount = 3 := by decide
      rw [h3] at hi
      have hi3 : i < 3 := by omega
      interval_cases i <;> decide)
    (by decide) (by decide)
  ⟨h.1, h.2.2 (by decide)⟩

/-! ## C13: when `setBufferCount` is refused for held buffers -/

/-- C13: for `n` in `[MIN_BUFFER_SLOTS, NUM_BUFFER_SLOTS]` other than
`mBufferCount`, `setBufferCount(n)` returns `-EINVAL` exactly when some slot
with index below `mBufferCount` is DEQUEUED, and whenever it does not return
`OK` the state is unchanged; for `n = mBufferCount` it returns `OK` with the
state unchanged, whatever the slot states. -/
theorem setBufferCount_refused_iff_held (c : Consts) (e : Env) (s : CameraNativeWindow)
    (n : Int) (hmin : (c.MIN_BUFFER_SLOTS : Int) ≤ n) (hmax : n ≤ (c.NUM_BUFFER_SLOTS : Int)) :
    (n ≠ s.mBufferCount →
      ((setBufferCount c e s n).1 = -EINVAL ↔
        ∃ i : Nat, (i : Int) < s.mBufferCount ∧
          (slotAt s.mSlots e.oob (i : Int)).mBufferState = BufferState.DEQUEUED) ∧
      ((setBufferCount c e s n).1 ≠ OK → (setBufferCount c e s n).2 = s)) ∧
    (n = s.mBufferCount → setBufferCount c e s n = (OK, s)) := by
  constructor
  · intro hne
    by_cases hany : anyDequeued e s = true
    · rw [setBufferCount_busy c e s n hmin hmax hne hany]
      exact ⟨⟨fun _ => (anyDequeued_iff e s).mp hany, fun _ => rfl⟩, fun _ => rfl⟩
    · have hok : (setBufferCount c e s n).1 = OK := by
        unfold setBufferCount
        have h1 : ¬ n > (c.NUM_BUFFER_SLOTS : Int) := by omega
        have h3 : ¬ n < (c.MIN_BUFFER_SLOTS : Int) := by omega
        rw [if_neg h1, if_neg hne, if_neg h3, if_neg hany]
        split <;> rfl
      refine ⟨⟨fun h => ?_, fun h => absurd ((anyDequeued_iff e s).mpr h) hany⟩,
        fun h => absurd hok h⟩
      rw [hok] at h
      exact absurd h.symm negEINVAL_ne_OK
  · intro heq
    rw [heq]
    exact setBufferCount_same c e s (by omega)

/-- C13 at `samplePool` (slot 0 held, three slots in use): `setBufferCount(4)` is
refused and `setBufferCount(3)` succeeds, both without change. -/
theorem setBufferCount_refused_iff_held_witness :
    (setBufferCount sampleConsts sampleEnv samplePool 4).1 = -EINVAL ∧
    setBufferCount sampleConsts sampleEnv samplePool 3 = (OK, samplePool) :=
  ⟨((setBufferCount_refused_iff_held sampleConsts sampleEnv samplePool 4
      (by decide) (by decide)).1 (by decide)).1.mpr ⟨0, by decide, by decide⟩,
   (setBufferCount_refused_iff_held sampleConsts sampleEnv samplePool 3
      (by decide) (by decide)).2 (by decide)⟩

/-! ## C14: shrinking -/

/-- C14: when no slot with index below `mBufferCount` is DEQUEUED and
`MIN_BUFFER_SLOTS ≤ n < mBufferCount`, `setBufferCount(n)` returns `OK`, every
slot of the whole array has been put through `freeBufferLocked` (its buffer
dropped, its state FREE), and `mBufferCount` is `n`. -/
theorem setBufferCount_shrink_frees_all (c : Consts) (e : Env) (s : CameraNativeWindow)
    (n : Int) (hwf : WellFormed c s)
    (hidle : ∀ i : Nat, (i : Int) < s.mBufferCount →
      (slotAt s.mSlots e.oob (i : Int)).mBufferState ≠ BufferState.DEQUEUED)
    (hmin : (c.MIN_BUFFER_SLOTS : Int) ≤ n) (hlt : n < s.mBufferCount) :
    setBufferCount c e s n =
      (OK, { s with mSlots := s.mSlots.map freeSlot, mBufferCount := n }) ∧
    (setBufferCount c e s n).2.mBufferCount = n ∧
    (setBufferCount c e s n).2.mSlots.length = c.NUM_BUFFER_SLOTS ∧
    (∀ i : Nat, i < c.NUM_BUFFER_SLOTS →
      slotAt (setBufferCount c e s n).2.mSlots e.oob (i : Int)
        = freeSlot (slotAt s.mSlots e.oob (i : Int))) ∧
    (∀ sl ∈ (setBufferCount c e s n).2.mSlots,
      sl.mBufferState = BufferState.FREE ∧ sl.mGraphicBuffer = none) := by
  obtain ⟨hlen, hcnt⟩ := hwf
  have hany : ¬ anyDequeued e s = true := by
    intro h
    obtain ⟨i, hi, hd⟩ := (anyDequeued_iff e s).mp h
    exact hidle i hi hd
  have hmax : n ≤ (c.NUM_BUFFER_SLOTS : Int) := by omega
  have heq := setBufferCount_shrink c e s n hlen hmin hmax hlt hany
  rw [heq]
  refine ⟨rfl, rfl, ?_, ?_, ?_⟩
  · simp only [List.length_map]; exact hlen
  · intro i hi
    exact slotAt_map_freeSlot s.mSlots e.oob i (by omega)
  · intro sl hsl
    obtain ⟨a, _, ha⟩ := List.mem_map.mp hsl
    rw [← ha]
    exact ⟨rfl, rfl⟩

/-- C14 at `grownPool` (four slots in use, slot 0 owns a buffer): shrinking to 3
drops that buffer. -/
theorem setBufferCount_shrink_frees_all_witness :
    (slotAt grownPool.mSlots sampleEnv.oob 0).mGraphicBuffer ≠ none ∧
    (setBufferCount sampleConsts sampleEnv grownPool 3).1 = OK ∧
    (setBufferCount sampleConsts sampleEnv grownPool 3).2.mBufferCount = 3 ∧
    (slotAt (setBufferCount sampleConsts sampleEnv grownPool 3).2.mSlots sampleEnv.oob
      0).mGraphicBuffer = none :=
  have h := setBufferCount_shrink_frees_all sampleConsts sampleEnv grownPool 3
    ⟨by decide, by decide⟩
    (fun i hi => by
      have h4 : grownPool.mBufferCount = 4 := by decide
      rw [h4] at hi
      have hi4 : i < 4 := by omega
      interval_cases i <;> decide)
    (by decide) (by decide)
  ⟨by decide, by rw [h.1], h.2.1,
    congrArg BufferSlot.mGraphicBuffer (h.2.2.2.1 0 (by decide))⟩

/-! ## C15: growing -/

/-- C15: in a state reached from construction where no slot with index below
`mBufferCount` is DEQUEUED, `setBufferCount(n)` with
`mBufferCount < n ≤ NUM_BUFFER_SLOTS` returns `OK` and changes nothing but
`mBufferCount`, which becomes `n`; the slots with index in
`[old mBufferCount, n)` are FREE and own no buffer. -/
theorem setBufferCount_grow_only_count (c : Consts) (hs : c.Sane) (calls : List (Env × Op))
    (e : Env) (n : Int)
    (hidle : ∀ i : Nat, (i : Int) < (run c (init c) calls).mBufferCount →
      (slotAt (run c (init c) calls).mSlots e.oob (i : Int)).mBufferState
        ≠ BufferState.DEQUEUED)
    (hgt : (run c (init c) calls).mBufferCount < n) (hmax : n ≤ (c.NUM_BUFFER_SLOTS : Int)) :
    setBufferCount c e (run c (init c) calls) n =
      (OK, { run c (init c) calls with mBufferCount := n }) ∧
    ∀ i : Nat, (run c (init c) calls).mBufferCount ≤ (i : Int) → (i : Int) < n →
      (slotAt (setBufferCount c e (run c (init c) calls) n).2.mSlots e.oob
        (i : Int)).mBufferState = BufferState.FREE ∧
      (slotAt (setBufferCount c e (run c (init c) calls) n).2.mSlots e.oob
        (i : Int)).mGraphicBuffer = none := by
  have hI : Inv c (run c (init c) calls) := inv_run hs calls _ (inv_init c hs)
  generalize run c (init c) calls = s at hI hidle hgt
  have hany : ¬ anyDequeued e s = true := by
    intro h
    obtain ⟨i, hi, hd⟩ := (anyDequeued_iff e s).mp h
    exact hidle i hi hd
  have hmin : (c.MIN_BUFFER_SLOTS : Int) ≤ n := le_trans hI.min_le (le_of_lt hgt)
  have heq := setBufferCount_grow c e s n hmin hmax hgt hany
  rw [heq]
  refine ⟨rfl, ?_⟩
  intro i hi hin
  have hil : i < s.mSlots.length := by
    have := hI.length_eq
    omega
  have := hI.inert i _ (getElem?_slotAt s.mSlots e.oob i hil) hi
  exact this

/-- C15 at `idlePool`: growing from 3 to 4 slots changes only `mBufferCount`,
and the new slot 3 is FREE with no buffer. -/
theorem setBufferCount_grow_only_count_witness :
    setBufferCount sampleConsts sampleEnv idlePool 4 =
      (OK, { idlePool with mBufferCount := 4 }) ∧
    (slotAt grownPool.mSlots sampleEnv.oob 3).mBufferState = BufferState.FREE ∧
    (slotAt grownPool.mSlots sampleEnv.oob 3).mGraphicBuffer = none :=
  have h := setBufferCount_grow_only_count sampleConsts (by decide) idleCalls sampleEnv 4
    (fun i hi => by
      have h3 : (run sampleConsts (init sampleConsts) idleCalls).mBufferCount = 3 := by decide
      rw [h3] at hi
      have hi3 : i < 3 := by omega
      interval_cases i <;> decide)
    (by decide) (by decide)
  ⟨h.1, h.2 3 (by decide) (by decide)⟩

/-! ## C16: the range of `mBufferCount` -/

/-- C16: in every state reached from construction by any sequence of calls,
`MIN_BUFFER_SLOTS ≤ mBufferCount ≤ NUM_BUFFER_SLOTS` (hence `1 ≤ mBufferCount`
when `MIN_BUFFER_SLOTS` is at least 1), and the freshly constructed pool has
`mBufferCount = MIN_BUFFER_SLOTS`. -/
theorem mBufferCount_in_range (c : Consts) (hs : c.Sane) (calls : List (Env × Op)) :
    (c.MIN_BUFFER_SLOTS : Int) ≤ (run c (init c) calls).mBufferCount ∧
    (run c (init c) calls).mBufferCount ≤ (c.NUM_BUFFER_SLOTS : Int) ∧
    (1 ≤ c.MIN_BUFFER_SLOTS → 1 ≤ (run c (init c) calls).mBufferCount) ∧
    (init c).mBufferCount = (c.MIN_BUFFER_SLOTS : Int) := by
  have hI : Inv c (run c (init c) calls) := inv_run hs calls _ (inv_init c hs)
  refine ⟨hI.min_le, hI.le_num, ?_, rfl⟩
  intro h1
  have := hI.min_le
  omega

/-- C16 at `sampleCalls`: the count is still 3, between 3 and 4. -/
theorem mBufferCount_in_range_witness :
    (run sampleConsts (init sampleConsts) sampleCalls).mBufferCount = 3 ∧
    (sampleConsts.MIN_BUFFER_SLOTS : Int)
      ≤ (run sampleConsts (init sampleConsts) sampleCalls).mBufferCount ∧
    (run sampleConsts (init sampleConsts) sampleCalls).mBufferCount
      ≤ (sampleConsts.NUM_BUFFER_SLOTS : Int) ∧
    1 ≤ (run sampleConsts (init sampleConsts) sampleCalls).mBufferCount :=
  have h := mBufferCount_in_range sampleConsts (by decide) sampleCalls
  ⟨by decide, h.1, h.2.1, h.2.2.1 (by decide)⟩

/-! ## The configuration setters -/

theorem setBuffersDimensions_of_ok (s : CameraNativeWindow) (w h : Int)
    (hk : (setBuffersDimensions s w h).1 = OK) :
    (setBuffersDimensions s w h).2 = { s with mDefaultWidth := w, mDefaultHeight := h } := by
  have hbad : BAD_VALUE ≠ OK := by decide
  unfold setBuffersDimensions at hk ⊢
  by_cases h1 : w < 0 ∨ h < 0
  · rw [if_pos h1] at hk
    exact absurd hk hbad
  · rw [if_neg h1] at hk ⊢
    by_cases h2 : (w ≠ 0 ∧ ¬ h ≠ 0) ∨ (¬ w ≠ 0 ∧ h ≠ 0)
    · rw [if_pos h2] at hk
      exact absurd hk hbad
    · rw [if_neg h2]

/-! ## C17: `setBuffersDimensions` -/

/-- C17: `setBuffersDimensions(w, h)` returns `OK` exactly when `w = 0 ∧ h = 0`
or `w > 0 ∧ h > 0`; then `mDefaultWidth = w`, `mDefaultHeight = h` and nothing
else has changed; otherwise it returns `BAD_VALUE` and the state is
unchanged. -/
theorem setBuffersDimensions_spec (s : CameraNativeWindow) (w h : Int) :
    ((setBuffersDimensions s w h).1 = OK ↔ (w = 0 ∧ h = 0) ∨ (0 < w ∧ 0 < h)) ∧
    ((setBuffersDimensions s w h).1 = OK →
      (setBuffersDimensions s w h).2 = { s with mDefaultWidth := w, mDefaultHeight := h }) ∧
    ((setBuffersDimensions s w h).1 ≠ OK → setBuffersDimensions s w h = (BAD_VALUE, s)) := by
  have hbad : BAD_VALUE ≠ OK := by decide
  unfold setBuffersDimensions
  by_cases h1 : w < 0 ∨ h < 0
  · rw [if_pos h1]
    refine ⟨⟨fun hk => absurd hk hbad, fun hk => ?_⟩, fun hk => absurd hk hbad, fun _ => rfl⟩
    exfalso; omega
  · rw [if_neg h1]
    by_cases h2 : (w ≠ 0 ∧ ¬ h ≠ 0) ∨ (¬ w ≠ 0 ∧ h ≠ 0)
    · rw [if_pos h2]
      refine ⟨⟨fun hk => absurd hk hbad, fun hk => ?_⟩, fun hk => absurd hk hbad, fun _ => rfl⟩
      exfalso; omega
    · rw [if_neg h2]
      refine ⟨⟨fun _ => ?_, fun _ => rfl⟩, fun _ => rfl, fun hk => absurd rfl hk⟩
      omega

/-- C17 at `samplePool`: 640 x 0 is refused, 640 x 480 is stored. -/
theorem setBuffersDimensions_spec_witness :
    setBuffersDimensions samplePool 640 0 = (BAD_VALUE, samplePool) ∧
    (setBuffersDimensions samplePool 640 480).2
      = { samplePool with mDefaultWidth := 640, mDefaultHeight := 480 } :=
  ⟨(setBuffersDimensions_spec samplePool 640 0).2.2 (by decide),
   (setBuffersDimensions_spec samplePool 640 480).2.1 (by decide)⟩

/-! ## C18: `query` and `setBuffersFormat` -/

/-- C18: `setBuffersFormat(f)` returns `BAD_VALUE` exactly when `f < 0` (leaving
the state unchanged) and otherwise stores `f`; after a successful
`setBuffersDimensions(w, h)` and a successful `setBuffersFormat(f)`, `query`
yields `w`, `h`, `f` for the width, height and format keys and
`MIN_UNDEQUEUED_BUFFERS` for its key, and for every other key it returns
`BAD_VALUE` without writing a value; a `query` call leaves the state as it
is. -/
theorem query_after_configuration (c : Consts) (e : Env) (s : CameraNativeWindow) (w h f : Int)
    (hdim : (setBuffersDimensions s w h).1 = OK)
    (hfmt : (setBuffersFormat (setBuffersDimensions s w h).2 f).1 = NO_ERROR) :
    query c (setBuffersFormat (setBuffersDimensions s w h).2 f).2 NATIVE_WINDOW_WIDTH
      = (NO_ERROR, some w) ∧
    query c (setBuffersFormat (setBuffersDimensions s w h).2 f).2 NATIVE_WINDOW_HEIGHT
      = (NO_ERROR, some h) ∧
    query c (setBuffersFormat (setBuffersDimensions s w h).2 f).2 NATIVE_WINDOW_FORMAT
      = (NO_ERROR, some f) ∧
    query c (setBuffersFormat (setBuffersDimensions s w h).2 f).2
        NATIVE_WINDOW_MIN_UNDEQUEUED_BUFFERS
      = (NO_ERROR, some (c.MIN_UNDEQUEUED_BUFFERS : Int)) ∧
    (∀ what : Int, what ≠ NATIVE_WINDOW_WIDTH → what ≠ NATIVE_WINDOW_HEIGHT →
      what ≠ NATIVE_WINDOW_FORMAT → what ≠ NATIVE_WINDOW_MIN_UNDEQUEUED_BUFFERS →
      query c (setBuffersFormat (setBuffersDimensions s w h).2 f).2 what = (BAD_VALUE, none)) ∧
    (∀ what : Int, step c e (setBuffersFormat (setBuffersDimensions s w h).2 f).2 (Op.query what)
      = (setBuffersFormat (setBuffersDimensions s w h).2 f).2) ∧
    (∀ (t : CameraNativeWindow) (g : Int),
      ((setBuffersFormat t g).1 = BAD_VALUE ↔ g < 0) ∧
      (g < 0 → setBuffersFormat t g = (BAD_VALUE, t)) ∧
      (¬ g < 0 → setBuffersFormat t g = (NO_ERROR, { t with mPixelFormat := g }))) := by
  have hbad : BAD_VALUE ≠ NO_ERROR := by decide
  have hs1 := setBuffersDimensions_of_ok s w h hdim
  have hf0 : ¬ f < 0 := by
    intro hneg
    unfold setBuffersFormat at hfmt
    rw [if_pos hneg] at hfmt
    exact hbad hfmt
  have hs2 : (setBuffersFormat (setBuffersDimensions s w h).2 f).2 =
      { s with mDefaultWidth := w, mDefaultHeight := h, mPixelFormat := f } := by
    rw [hs1]
    unfold setBuffersFormat
    rw [if_neg hf0]
  rw [hs2]
  refine ⟨rfl, rfl, rfl, rfl, ?_, fun _ => rfl, ?_⟩
  · intro what h0 h1 h2 h3
    unfold query
    rw [if_neg h0, if_neg h1, if_neg h2, if_neg h3]
  · intro t g
    unfold setBuffersFormat
    by_cases hg : g < 0
    · rw [if_pos hg]
      exact ⟨⟨fun _ => hg, fun _ => rfl⟩, fun _ => rfl, fun hn => absurd hg hn⟩
    · rw [if_neg hg]
      exact ⟨⟨fun hk => absurd hk.symm hbad, fun hk => absurd hk hg⟩,
        fun hk => absurd hk hg, fun _ => rfl⟩

/-- C18 at `samplePool` configured to 640 x 480 with format 17. -/
theorem query_after_configuration_witness :
    query sampleConsts (setBuffersFormat (setBuffersDimensions samplePool 640 480).2 17).2
      NATIVE_WINDOW_WIDTH = (NO_ERROR, some 640) ∧
    query sampleConsts (setBuffersFormat (setBuffersDimensions samplePool 640 480).2 17).2
      NATIVE_WINDOW_FORMAT = (NO_ERROR, some 17) ∧
    query sampleConsts (setBuffersFormat (setBuffersDimensions samplePool 640 480).2 17).2
      NATIVE_WINDOW_MIN_UNDEQUEUED_BUFFERS = (NO_ERROR, some 2) :=
  have h := query_after_configuration sampleConsts sampleEnv samplePool 640 480 17
    (by decide) (by decide)
  ⟨h.1, h.2.2.1, h.2.2.2.1⟩

/-! ## Which calls touch a slot's buffer -/

theorem queueBuffer_keeps_buffers (c : Consts) (e : Env) (s : CameraNativeWindow)
    (hwf : WellFormed c s) (buffer : Option ANativeWindowBuffer) (i : Int) :
    (slotAt (queueBuffer c e s buffer).2.mSlots e.oob i).mGraphicBuffer
      = (slotAt s.mSlots e.oob i).mGraphicBuffer := by
  rcases resolve_cases c e s buffer with hf | ⟨k, hk, hc, hst⟩
  · rw [queueBuffer_fails c e s buffer hf]
  · have hl : (k : Int) < (s.mSlots.length : Int) := by
      have h1 := hwf.1
      have h2 := hwf.2
      omega
    rw [queueBuffer_ok c e s buffer _ hk (Int.natCast_nonneg k) hc hl hst]
    dsimp only
    by_cases hik : (k : Int) = i
    · rw [← hik, slotAt_setSlot_same _ _ _ _ (Int.natCast_nonneg k) hl]
    · rw [slotAt_setSlot_ne _ _ _ _ _ hik]

theorem cancelBuffer_keeps_buffers (c : Consts) (e : Env) (s : CameraNativeWindow)
    (hwf : WellFormed c s) (buffer : Option ANativeWindowBuffer) (i : Int) :
    (slotAt (cancelBuffer c e s buffer).2.mSlots e.oob i).mGraphicBuffer
      = (slotAt s.mSlots e.oob i).mGraphicBuffer := by
  rcases resolve_cases c e s buffer with hf | ⟨k, hk, hc, hst⟩
  · rw [cancelBuffer_fails c e s buffer hf]
  · have hl : (k : Int) < (s.mSlots.length : Int) := by
      have h1 := hwf.1
      have h2 := hwf.2
      omega
    rw [cancelBuffer_ok c e s buffer _ hk (Int.natCast_nonneg k) hc hl hst]
    dsimp only
    by_cases hik : (k : Int) = i
    · rw [← hik, slotAt_setSlot_same _ _ _ _ (Int.natCast_nonneg k) hl]
    · rw [slotAt_setSlot_ne _ _ _ _ _ hik]

theorem setBufferCount_keeps_slots (c : Consts) (e : Env) (s : CameraNativeWindow) (n : Int)
    (h : s.mBufferCount ≤ n ∨ (setBufferCount c e s n).1 ≠ OK) :
    (setBufferCount c e s n).2.mSlots = s.mSlots := by
  unfold setBufferCount at h ⊢
  by_cases h1 : n > (c.NUM_BUFFER_SLOTS : Int)
  · rw [if_pos h1]
  · rw [if_neg h1] at h ⊢
    by_cases h2 : n = s.mBufferCount
    · rw [if_pos h2]
    · rw [if_neg h2] at h ⊢
      by_cases h3 : n < (c.MIN_BUFFER_SLOTS : Int)
      · rw [if_pos h3]
      · rw [if_neg h3] at h ⊢
        by_cases h4 : anyDequeued e s = true
        · rw [if_pos h4]
        · rw [if_neg h4] at h ⊢
          by_cases h5 : n > s.mBufferCount
          · rw [if_pos h5]
          · rw [if_neg h5] at h
            rcases h with h | h
            · omega
            · exact absurd rfl h

theorem step_keeps_buffers (c : Consts) (e : Env) (s : CameraNativeWindow)
    (hwf : WellFormed c s) (op : Op) (hop : op ≠ Op.dequeueBuffer)
    (hshrink : ∀ n, op = Op.setBufferCount n →
      s.mBufferCount ≤ n ∨ (setBufferCount c e s n).1 ≠ OK) (i : Int) :
    (slotAt (step c e s op).mSlots e.oob i).mGraphicBuffer
      = (slotAt s.mSlots e.oob i).mGraphicBuffer := by
  cases op with
  | dequeueBuffer => exact absurd rfl hop
  | queueBuffer buffer => exact queueBuffer_keeps_buffers c e s hwf buffer i
  | cancelBuffer buffer => exact cancelBuffer_keeps_buffers c e s hwf buffer i
  | lockBuffer buffer => rfl
  | setBufferCount n =>
    show (slotAt (setBufferCount c e s n).2.mSlots e.oob i).mGraphicBuffer = _
    rw [setBufferCount_keeps_slots c e s n (hshrink n rfl)]
  | query what => rfl
  | setSwapInterval interval => rfl
  | setUsage u => rfl
  | setBuffersDimensions w ht =>
    show (slotAt (setBuffersDimensions s w ht).2.mSlots e.oob i).mGraphicBuffer = _
    unfold setBuffersDimensions
    split
    · rfl
    · split <;> rfl
  | setBuffersFormat f =>
    show (slotAt (setBuffersFormat s f).2.mSlots e.oob i).mGraphicBuffer = _
    unfold setBuffersFormat
    split <;> rfl
  | setBuffersTimestamp ts => rfl

theorem dequeueBuffer_keeps_buffer (c : Consts) (hinv : c.INVALID_BUFFER_SLOT < 0) (e : Env)
    (s : CameraNativeWindow) (hwf : WellFormed c s) (i : Int) (g : GraphicBuffer)
    (hg : (slotAt s.mSlots e.oob i).mGraphicBuffer = some g) :
    (slotAt (step c e s Op.dequeueBuffer).mSlots e.oob i).mGraphicBuffer = some g := by
  rw [step_dequeueBuffer]
  rcases dequeueBuffer_cases c e s hinv hwf with
    ⟨hw, _⟩ | ⟨k, _, _, hkl, _, ⟨g2, hg2, hd⟩ | ⟨hg2, _, hd⟩ | ⟨hg2, _, hd⟩⟩
  · rw [hw]; exact hg
  all_goals
    have hl : (k : Int) < (s.mSlots.length : Int) := by omega
    rw [hd]
    dsimp only
    by_cases hik : (k : Int) = i
    · rw [← hik] at hg ⊢
      rw [slotAt_setSlot_same _ _ _ _ (Int.natCast_nonneg k) hl]
      first
        | exact hg
        | (rw [hg2] at hg; cases hg)
    · rw [slotAt_setSlot_ne _ _ _ _ _ hik]
      exact hg

/-! ## C20: a slot's buffer is allocated once and then reused -/

/-- C20: on a well-formed pool, (1) when the slot selected by `dequeueBuffer`
already owns a buffer `g`, the call returns `g` and the same new state whatever
the allocator would have produced, and the slot still owns `g`; (2) when the
selected slot owns no buffer and the allocation succeeds, the buffer returned
and stored was constructed with the current `mDefaultWidth`, `mDefaultHeight`,
`mPixelFormat` and `mUsage`; (3) no call other than `dequeueBuffer` and a
`setBufferCount` that shrinks successfully changes the buffer of any slot; and
(4) `dequeueBuffer` never changes the buffer of a slot that owns one. -/
theorem buffer_allocated_once_and_reused (c : Consts) (hinv : c.INVALID_BUFFER_SLOT < 0)
    (e : Env) (s : CameraNativeWindow) (hwf : WellFormed c s) :
    (∀ g : GraphicBuffer, (dequeueScan c e s).1 ≠ c.INVALID_BUFFER_SLOT →
      (slotAt s.mSlots e.oob (dequeueScan c e s).1).mGraphicBuffer = some g →
      ∃ s1 : CameraNativeWindow,
        (∀ (h : Nat) (st : Int),
          dequeueBuffer c { e with allocHandle := h, initCheck := st } s
            = DequeueResult.done NO_ERROR (some g) s1) ∧
        (slotAt s1.mSlots e.oob (dequeueScan c e s).1).mGraphicBuffer = some g) ∧
    ((dequeueScan c e s).1 ≠ c.INVALID_BUFFER_SLOT →
      (slotAt s.mSlots e.oob (dequeueScan c e s).1).mGraphicBuffer = none →
      e.initCheck = NO_ERROR →
      ∃ s1 : CameraNativeWindow,
        dequeueBuffer c e s = DequeueResult.done NO_ERROR
          (some { handle := e.allocHandle, width := s.mDefaultWidth,
                  height := s.mDefaultHeight, format := s.mPixelFormat, usage := s.mUsage })
          s1 ∧
        (slotAt s1.mSlots e.oob (dequeueScan c e s).1).mGraphicBuffer =
          some { handle := e.allocHandle, width := s.mDefaultWidth,
                 height := s.mDefaultHeight, format := s.mPixelFormat, usage := s.mUsage }) ∧
    (∀ op : Op, op ≠ Op.dequeueBuffer →
      (∀ n, op = Op.setBufferCount n →
        s.mBufferCount ≤ n ∨ (setBufferCount c e s n).1 ≠ OK) →
      ∀ i : Int, (slotAt (step c e s op).mSlots e.oob i).mGraphicBuffer
        = (slotAt s.mSlots e.oob i).mGraphicBuffer) ∧
    (∀ (i : Int) (g : GraphicBuffer), (slotAt s.mSlots e.oob i).mGraphicBuffer = some g →
      (slotAt (step c e s Op.dequeueBuffer).mSlots e.oob i).mGraphicBuffer = some g) := by
  have hscan : ∀ hne : (dequeueScan c e s).1 ≠ c.INVALID_BUFFER_SLOT,
      0 ≤ (dequeueScan c e s).1 ∧ (dequeueScan c e s).1 < (s.mSlots.length : Int) := by
    intro hne
    rcases scanInv_dequeueScan c e s hinv with ⟨hf, _⟩ | ⟨h0, hlt, _, _⟩
    · exact absurd hf hne
    · have h1 := hwf.1
      have h2 := hwf.2
      exact ⟨h0, by omega⟩
  refine ⟨?_, ?_, ?_, ?_⟩
  · intro g hne hg
    obtain ⟨h0, hlt⟩ := hscan hne
    refine ⟨{ s with
              mSlots := setSlot s.mSlots (dequeueScan c e s).1
                          { slotAt s.mSlots e.oob (dequeueScan c e s).1 with
                            mBufferState := BufferState.DEQUEUED } }, fun h st =>
      dequeueBuffer_reuse c { e with allocHandle := h, initCheck := st } s g hne h0 hlt hg, ?_⟩
    dsimp only
    rw [slotAt_setSlot_same _ _ _ _ h0 hlt]
    exact hg
  · intro hne hg herr
    obtain ⟨h0, hlt⟩ := hscan hne
    refine ⟨_, dequeueBuffer_alloc c e s hne h0 hlt hg herr, ?_⟩
    dsimp only
    rw [slotAt_setSlot_same _ _ _ _ h0 hlt]
    rfl
  · intro op hop hshrink i
    exact step_keeps_buffers c e s hwf op hop hshrink i
  · intro i g hg
    exact dequeueBuffer_keeps_buffer c hinv e s hwf i g hg

/-- C20 at `samplePool`: the scan selects slot 2, which owns the buffer with
handle 3; that buffer is returned whatever the allocator would do. -/
theorem buffer_allocated_once_and_reused_witness :
    ∃ s1 : CameraNativeWindow,
      (∀ (h : Nat) (st : Int),
        dequeueBuffer sampleConsts { sampleEnv with allocHandle := h, initCheck := st } samplePool
          = DequeueResult.done NO_ERROR (some (sampleBuffer 3)) s1) ∧
      (slotAt s1.mSlots sampleEnv.oob
        (dequeueScan sampleConsts sampleEnv samplePool).1).mGraphicBuffer
        = some (sampleBuffer 3) :=
  (buffer_allocated_once_and_reused sampleConsts (by decide) sampleEnv samplePool
    ⟨by decide, by decide⟩).1 (sampleBuffer 3) (by decide) (by decide)

/-! ## Which slot the scan selects, and when `dequeueBuffer` waits -/

theorem dequeueScan_eq (c : Consts) (e : Env) (s : CameraNativeWindow)
    (hinv : c.INVALID_BUFFER_SLOT < 0) (k : Nat) (hk : (k : Int) < s.mBufferCount)
    (hfree : (slotAt s.mSlots e.oob (k : Int)).mBufferState = BufferState.FREE)
    (hothers : ∀ j : Nat, (j : Int) < s.mBufferCount → j ≠ k →
      (slotAt s.mSlots e.oob (j : Int)).mBufferState = BufferState.FREE →
      k < j ∧ (slotAt s.mSlots e.oob (k : Int)).mFrameNumber
        ≤ (slotAt s.mSlots e.oob (j : Int)).mFrameNumber) :
    (dequeueScan c e s).1 = (k : Int) := by
  rcases scanInv_dequeueScan c e s hinv with ⟨_, hnone⟩ | ⟨h0, hlt, hfr, hmin⟩
  · exact absurd hfree (hnone k (by omega))
  · obtain ⟨m, hm⟩ := Int.eq_ofNat_of_zero_le h0
    rw [hm] at hlt hfr hmin ⊢
    by_contra hne
    have hmk : m ≠ k := fun h => hne (by rw [h])
    obtain ⟨hkm, hle⟩ := hothers m (by omega) hmk hfr
    have := (hmin k (by omega) hfree).2 (by omega)
    omega

theorem dequeueBuffer_waits_iff (c : Consts) (e : Env) (s : CameraNativeWindow)
    (hinv : c.INVALID_BUFFER_SLOT < 0) (hwf : WellFormed c s) :
    dequeueBuffer c e s = DequeueResult.waits ↔
      ∀ j : Nat, (j : Int) < s.mBufferCount →
        (slotAt s.mSlots e.oob (j : Int)).mBufferState ≠ BufferState.FREE := by
  constructor
  · intro hw j hj hfree
    exact dequeueBuffer_ne_waits c e s hinv hwf j hj hfree hw
  · intro hnone
    rcases dequeueBuffer_cases c e s hinv hwf with ⟨hw, _⟩ | ⟨k, _, hkc, _, hfree, _⟩
    · exact hw
    · exact absurd hfree (hnone k hkc)

/-! ## The freshly constructed pool after successive acquires -/

theorem getElem?_acquiredPool (c : Consts) (envs : List Env) (i : Nat)
    (hi : i < c.NUM_BUFFER_SLOTS) :
    (acquiredPool c envs).mSlots[i]? = some (acquiredSlot c envs i) := by
  simp [acquiredPool, List.getElem?_range hi]

theorem length_acquiredPool (c : Consts) (envs : List Env) :
    (acquiredPool c envs).mSlots.length = c.NUM_BUFFER_SLOTS := by
  simp [acquiredPool]

theorem slotAt_acquiredPool (c : Consts) (envs : List Env) (oob : BufferSlot) (i : Nat)
    (hi : i < c.NUM_BUFFER_SLOTS) :
    slotAt (acquiredPool c envs).mSlots oob (i : Int) = acquiredSlot c envs i :=
  slotAt_of_getElem? _ _ _ _ (getElem?_acquiredPool c envs i hi)

theorem wellFormed_acquiredPool (c : Consts) (hs : c.Sane) (envs : List Env) :
    WellFormed c (acquiredPool c envs) :=
  ⟨length_acquiredPool c envs, by
    show ((c.MIN_BUFFER_SLOTS : Nat) : Int) ≤ _
    exact_mod_cast hs.2⟩

theorem acquiredSlot_of_lt (c : Consts) (envs : List Env) (i : Nat) (e : Env)
    (h : envs[i]? = some e) : acquiredSlot c envs i = heldSlot c e := by
  simp [acquiredSlot, h]

theorem acquiredSlot_of_ge (c : Consts) (envs : List Env) (i : Nat) (h : envs.length ≤ i) :
    acquiredSlot c envs i = BufferSlot.ctor := by
  simp [acquiredSlot, List.getElem?_eq_none h]

theorem acquiredPool_nil (c : Consts) : acquiredPool c [] = init c := by
  unfold acquiredPool
  have hsl : (List.range c.NUM_BUFFER_SLOTS).map (acquiredSlot c []) = (init c).mSlots := by
    apply List.ext_getElem?
    intro i
    by_cases hi : i < c.NUM_BUFFER_SLOTS
    · simp [init, List.getElem?_range hi, hi, acquiredSlot]
    · rw [List.getElem?_eq_none (by simp; omega), List.getElem?_eq_none (by simp [init]; omega)]
  rw [hsl]

theorem acquiredSlot_state (c : Consts) (envs : List Env) (i : Nat) :
    ((acquiredSlot c envs i).mBufferState = BufferState.FREE ↔ envs.length ≤ i) ∧
    (acquiredSlot c envs i).mFrameNumber = 0 := by
  by_cases h : i < envs.length
  · have hsome : envs[i]? = some (envs.get ⟨i, h⟩) := by
      simp [List.getElem?_eq_getElem h]
    rw [acquiredSlot_of_lt c envs i _ hsome]
    refine ⟨⟨fun hf => ?_, fun hle => absurd h (by omega)⟩, rfl⟩
    simp [heldSlot] at hf
  · rw [acquiredSlot_of_ge c envs i (by omega)]
    exact ⟨⟨fun _ => by omega, fun _ => rfl⟩, rfl⟩

theorem acquiredSlot_append (c : Consts) (l : List Env) (e : Env) (i : Nat) :
    acquiredSlot c (l ++ [e]) i = if i = l.length then heldSlot c e else acquiredSlot c l i := by
  by_cases h : i = l.length
  · rw [if_pos h, h]
    exact acquiredSlot_of_lt c _ _ e (List.getElem?_concat_length l e)
  · rw [if_neg h]
    by_cases hlt : i < l.length
    · unfold acquiredSlot
      rw [List.getElem?_append_left hlt]
    · rw [acquiredSlot_of_ge c l i (by omega),
        acquiredSlot_of_ge c (l ++ [e]) i (by simp; omega)]

theorem setSlot_acquiredPool (c : Consts) (l : List Env) (e : Env)
    (hl : l.length < c.NUM_BUFFER_SLOTS) :
    setSlot (acquiredPool c l).mSlots (l.length : Int) (heldSlot c e)
      = (acquiredPool c (l ++ [e])).mSlots := by
  apply List.ext_getElem?
  intro i
  rw [getElem?_setSlot, length_acquiredPool]
  by_cases hi : i < c.NUM_BUFFER_SLOTS
  · rw [getElem?_acquiredPool c _ i hi, getElem?_acquiredPool c _ i hi, acquiredSlot_append]
    by_cases hli : l.length = i
    · rw [if_pos hli, if_pos hl, if_pos hli.symm]
    · rw [if_neg hli, if_neg (Ne.symm hli)]
  · have hli : ¬ l.length = i := by omega
    rw [if_neg hli, List.getElem?_eq_none (by rw [length_acquiredPool]; omega),
      List.getElem?_eq_none (by rw [length_acquiredPool]; omega)]

theorem dequeueBuffer_acquiredPool (c : Consts) (hs : c.Sane) (l : List Env) (e : Env)
    (hl : l.length < c.MIN_BUFFER_SLOTS) (herr : e.initCheck = NO_ERROR) :
    (dequeueScan c e (acquiredPool c l)).1 = (l.length : Int) ∧
    dequeueBuffer c e (acquiredPool c l) =
      DequeueResult.done NO_ERROR (some (newGraphicBuffer e (init c)))
        (acquiredPool c (l ++ [e])) := by
  have hN : l.length < c.NUM_BUFFER_SLOTS := lt_of_lt_of_le hl hs.2
  have hcnt : (acquiredPool c l).mBufferCount = (c.MIN_BUFFER_SLOTS : Int) := rfl
  have hslot : slotAt (acquiredPool c l).mSlots e.oob (l.length : Int) = BufferSlot.ctor := by
    rw [slotAt_acquiredPool c l e.oob _ hN, acquiredSlot_of_ge c l _ (le_refl _)]
  have hscan : (dequeueScan c e (acquiredPool c l)).1 = (l.length : Int) := by
    apply dequeueScan_eq c e (acquiredPool c l) hs.1 l.length (by rw [hcnt]; omega)
    · rw [hslot]; rfl
    · intro j hj hne hfree
      rw [hcnt] at hj
      have hjN : j < c.NUM_BUFFER_SLOTS := by
        have := hs.2
        omega
      rw [slotAt_acquiredPool c l e.oob j hjN] at hfree ⊢
      have hge := (acquiredSlot_state c l j).1.mp hfree
      rw [hslot, (acquiredSlot_state c l j).2]
      exact ⟨by omega, Nat.zero_le _⟩
  refine ⟨hscan, ?_⟩
  have hne : (dequeueScan c e (acquiredPool c l)).1 ≠ c.INVALID_BUFFER_SLOT := by
    have := hs.1
    omega
  have h0 : 0 ≤ (dequeueScan c e (acquiredPool c l)).1 := by omega
  have hlt : (dequeueScan c e (acquiredPool c l)).1 < ((acquiredPool c l).mSlots.length : Int) := by
    rw [length_acquiredPool]; omega
  have hg : (slotAt (acquiredPool c l).mSlots e.oob
      (dequeueScan c e (acquiredPool c l)).1).mGraphicBuffer = none := by
    rw [hscan, hslot]; rfl
  rw [dequeueBuffer_alloc c e (acquiredPool c l) hne h0 hlt hg herr, hscan, hslot]
  have hstate : ({ acquiredPool c l with
      mSlots := setSlot (acquiredPool c l).mSlots (l.length : Int) (heldSlot c e) }
        : CameraNativeWindow) = acquiredPool c (l ++ [e]) := by
    rw [setSlot_acquiredPool c l e hN]
    rfl
  rw [← hstate]
  rfl

theorem run_append_one (c : Consts) (s : CameraNativeWindow) (calls : List (Env × Op))
    (e : Env) (op : Op) : run c s (calls ++ [(e, op)]) = step c e (run c s calls) op := by
  simp [run, List.foldl_append]

theorem run_acquireCalls (c : Consts) (hs : c.Sane) (envs : List Env)
    (hok : ∀ e ∈ envs, e.initCheck = NO_ERROR) (hlen : envs.length ≤ c.MIN_BUFFER_SLOTS) :
    run c (init c) (acquireCalls envs) = acquiredPool c envs := by
  induction envs using List.reverseRecOn with
  | nil => rw [acquiredPool_nil]; rfl
  | append_singleton l e ih =>
    have hl : l.length < c.MIN_BUFFER_SLOTS := by
      simp only [List.length_append, List.length_singleton] at hlen
      omega
    have hcalls : acquireCalls (l ++ [e]) = acquireCalls l ++ [(e, Op.dequeueBuffer)] := by
      simp [acquireCalls]
    rw [hcalls, run_append_one,
      ih (fun x hx => hok x (List.mem_append_left _ hx)) (le_of_lt hl),
      step_dequeueBuffer,
      (dequeueBuffer_acquiredPool c hs l e hl (hok e (by simp))).2]

theorem acquiredSlot_buffer (c : Consts) (envs : List Env) (i : Nat) (g : GraphicBuffer)
    (h : (acquiredSlot c envs i).mGraphicBuffer = some g) :
    (envs.map Env.allocHandle)[i]? = some g.handle := by
  cases he : envs[i]? with
  | none =>
    rw [acquiredSlot_of_ge c envs i (by
      by_contra hn
      rw [List.getElem?_eq_getElem (by omega)] at he
      cases he)] at h
    cases h
  | some e =>
    rw [acquiredSlot_of_lt c envs i e he] at h
    simp only [heldSlot, Option.some.injEq] at h
    rw [List.getElem?_map, he, ← h]
    rfl

theorem distinct_acquiredPool (c : Consts) (envs : List Env)
    (hnd : (envs.map Env.allocHandle).Nodup) : DistinctHandles (acquiredPool c envs) := by
  intro i j si sj gi gj hsi hsj hgi hgj hh
  have hiN : i < c.NUM_BUFFER_SLOTS := by
    have := lt_length_of_getElem? _ _ _ hsi
    rwa [length_acquiredPool] at this
  have hjN : j < c.NUM_BUFFER_SLOTS := by
    have := lt_length_of_getElem? _ _ _ hsj
    rwa [length_acquiredPool] at this
  rw [getElem?_acquiredPool c envs i hiN] at hsi
  rw [getElem?_acquiredPool c envs j hjN] at hsj
  cases hsi
  cases hsj
  have hi := acquiredSlot_buffer c envs i gi hgi
  have hj := acquiredSlot_buffer c envs j gj hgj
  rw [hh] at hi
  have hjl : j < (envs.map Env.allocHandle).length := lt_length_of_some _ _ _ hj
  have hil : i < (envs.map Env.allocHandle).length := lt_length_of_some _ _ _ hi
  rcases lt_trichotomy i j with hlt | heq | hgt
  · exact absurd (hi.trans hj.symm) (List.nodup_iff_getElem?_ne_getElem?.mp hnd i j hlt hjl)
  · exact heq
  · exact absurd (hj.trans hi.symm) (List.nodup_iff_getElem?_ne_getElem?.mp hnd j i hgt hil)

theorem queueBuffer_acquiredPool (c : Consts) (hs : c.Sane) (envs : List Env) (e e2 : Env)
    (hlen : envs.length = c.MIN_BUFFER_SLOTS) (hnd : (envs.map Env.allocHandle).Nodup)
    (j : Nat) (ej : Env) (hj : envs[j]? = some ej) :
    (queueBuffer c e (acquiredPool c envs) (some ⟨ej.allocHandle⟩)).1 = OK ∧
    (dequeueScan c e2 (queueBuffer c e (acquiredPool c envs) (some ⟨ej.allocHandle⟩)).2).1
      = (j : Int) := by
  have hjl : j < envs.length := lt_length_of_some _ _ _ hj
  have hjN : j < c.NUM_BUFFER_SLOTS := by
    have := hs.2
    omega
  have hcnt : (acquiredPool c envs).mBufferCount = (c.MIN_BUFFER_SLOTS : Int) := rfl
  have hslot : ∀ oob, slotAt (acquiredPool c envs).mSlots oob (j : Int) = heldSlot c ej := by
    intro oob
    rw [slotAt_acquiredPool c envs oob j hjN, acquiredSlot_of_lt c envs j ej hj]
  have hres : getSlotFromBufferLocked c e (acquiredPool c envs) (some ⟨ej.allocHandle⟩)
      = (j : Int) :=
    getSlotFromBufferLocked_of_distinct c e (acquiredPool c envs)
      (distinct_acquiredPool c envs hnd) (length_acquiredPool c envs) j (heldSlot c ej)
      (newGraphicBuffer ej (init c))
      (by rw [getElem?_acquiredPool c envs j hjN, acquiredSlot_of_lt c envs j ej hj]) rfl
  have hl : (j : Int) < ((acquiredPool c envs).mSlots.length : Int) := by
    rw [length_acquiredPool]; omega
  have hok := queueBuffer_ok c e (acquiredPool c envs) (some ⟨ej.allocHandle⟩) (j : Int) hres
    (Int.natCast_nonneg j) (by rw [hcnt]; omega) hl (by rw [hslot]; rfl)
  rw [hok]
  refine ⟨rfl, ?_⟩
  apply dequeueScan_eq c e2 _ hs.1 j
  · show (j : Int) < (acquiredPool c envs).mBufferCount
    rw [hcnt]; omega
  · dsimp only
    rw [slotAt_setSlot_same _ _ _ _ (Int.natCast_nonneg j) hl]
  · intro i hi hne hfree
    exfalso
    have hi2 : (i : Int) < (c.MIN_BUFFER_SLOTS : Int) := hi
    have hiN : i < c.NUM_BUFFER_SLOTS := by
      have := hs.2
      omega
    dsimp only at hfree
    rw [slotAt_setSlot_ne _ _ _ _ _ (by omega), slotAt_acquiredPool c envs e2.oob i hiN] at hfree
    have := (acquiredSlot_state c envs i).1.mp hfree
    omega

/-! ## C19: when `dequeueBuffer` waits -/

/-- C19: on a well-formed pool `dequeueBuffer` waits exactly when no slot with
index below `mBufferCount` is FREE.  On a freshly constructed pool, with
`MIN_BUFFER_SLOTS` environments whose allocations succeed with pairwise
different handles: the acquire number `k` (counting from 0) does not wait, its
scan selects slot `k` and it returns the newly allocated buffer; after all
`MIN_BUFFER_SLOTS` acquires the scan ends on `INVALID_BUFFER_SLOT` and
`dequeueBuffer` waits; and after a `queueBuffer` of any one of the returned
buffers (which returns `OK`) the scan selects exactly the released slot. -/
theorem dequeueBuffer_waits_exactly_when_no_free (c : Consts) (hs : c.Sane) (envs : List Env)
    (hlen : envs.length = c.MIN_BUFFER_SLOTS)
    (hok : ∀ e ∈ envs, e.initCheck = NO_ERROR)
    (hnd : (envs.map Env.allocHandle).Nodup) :
    (∀ (e : Env) (s : CameraNativeWindow), WellFormed c s →
      (dequeueBuffer c e s = DequeueResult.waits ↔
        ∀ j : Nat, (j : Int) < s.mBufferCount →
          (slotAt s.mSlots e.oob (j : Int)).mBufferState ≠ BufferState.FREE)) ∧
    (∀ (k : Nat) (ek : Env), envs[k]? = some ek →
      (dequeueScan c ek (run c (init c) (acquireCalls (envs.take k)))).1 = (k : Int) ∧
      ∃ s1, dequeueBuffer c ek (run c (init c) (acquireCalls (envs.take k)))
        = DequeueResult.done NO_ERROR (some (newGraphicBuffer ek (init c))) s1) ∧
    (∀ e : Env,
      (dequeueScan c e (run c (init c) (acquireCalls envs))).1 = c.INVALID_BUFFER_SLOT ∧
      dequeueBuffer c e (run c (init c) (acquireCalls envs)) = DequeueResult.waits) ∧
    (∀ (j : Nat) (ej : Env) (e e2 : Env), envs[j]? = some ej →
      (queueBuffer c e (run c (init c) (acquireCalls envs)) (some ⟨ej.allocHandle⟩)).1 = OK ∧
      (dequeueScan c e2
        (queueBuffer c e (run c (init c) (acquireCalls envs)) (some ⟨ej.allocHandle⟩)).2).1
        = (j : Int)) := by
  have hrun := run_acquireCalls c hs envs hok (le_of_eq hlen)
  refine ⟨fun e s hwf => dequeueBuffer_waits_iff c e s hs.1 hwf, ?_, ?_, ?_⟩
  · intro k ek hk
    have hkl : k < envs.length := lt_length_of_some _ _ _ hk
    have htl : (envs.take k).length = k := List.length_take_of_le (le_of_lt hkl)
    have hrk := run_acquireCalls c hs (envs.take k)
      (fun x hx => hok x (List.mem_of_mem_take hx)) (by omega)
    rw [hrk]
    have h := dequeueBuffer_acquiredPool c hs (envs.take k) ek (by omega)
      (hok ek (List.getElem?_mem hk))
    rw [htl] at h
    exact ⟨h.1, _, h.2⟩
  · intro e
    rw [hrun]
    have hnone : ∀ j : Nat, (j : Int) < (acquiredPool c envs).mBufferCount →
        (slotAt (acquiredPool c envs).mSlots e.oob (j : Int)).mBufferState
          ≠ BufferState.FREE := by
      intro j hj hfree
      have hj2 : (j : Int) < (c.MIN_BUFFER_SLOTS : Int) := hj
      have hjN : j < c.NUM_BUFFER_SLOTS := by
        have := hs.2
        omega
      rw [slotAt_acquiredPool c envs e.oob j hjN] at hfree
      have := (acquiredSlot_state c envs j).1.mp hfree
      omega
    have hw := (dequeueBuffer_waits_iff c e _ hs.1 (wellFormed_acquiredPool c hs envs)).mpr hnone
    refine ⟨?_, hw⟩
    rcases scanInv_dequeueScan c e (acquiredPool c envs) hs.1 with ⟨hf, _⟩ | ⟨h0, hlt, hfr, _⟩
    · exact hf
    · exfalso
      obtain ⟨m, hm⟩ := Int.eq_ofNat_of_zero_le h0
      rw [hm] at hlt hfr
      exact hnone m (by omega) hfr
  · intro j ej e e2 hj
    rw [hrun]
    exact queueBuffer_acquiredPool c hs envs e e2 hlen hnd j ej hj

/-- C19 at `sampleConsts` (three slots in use) with handles 7, 8, 9: the third
acquire selects slot 2, a fourth acquire waits, and after releasing handle 8
the scan selects slot 1. -/
theorem dequeueBuffer_waits_exactly_when_no_free_witness :
    (dequeueScan sampleConsts { sampleEnv with allocHandle := 9 }
      (run sampleConsts (init sampleConsts) (acquireCalls (sampleEnvs.take 2)))).1 = 2 ∧
    dequeueBuffer sampleConsts sampleEnv
      (run sampleConsts (init sampleConsts) (acquireCalls sampleEnvs)) = DequeueResult.waits ∧
    (dequeueScan sampleConsts sampleEnv
      (queueBuffer sampleConsts sampleEnv
        (run sampleConsts (init sampleConsts) (acquireCalls sampleEnvs)) (some ⟨8⟩)).2).1 = 1 :=
  have h := dequeueBuffer_waits_exactly_when_no_free sampleConsts (by decide) sampleEnvs
    (by decide) (by decide) (by decide)
  ⟨(h.2.1 2 { sampleEnv with allocHandle := 9 } (by decide)).1,
   (h.2.2.1 sampleEnv).2,
   (h.2.2.2 1 { sampleEnv with allocHandle := 8 } sampleEnv sampleEnv (by decide)).2⟩

/-! ## C22: slots beyond `mBufferCount` are inert -/

theorem buffer_of_handleMatches (slots : List BufferSlot) (oob : BufferSlot)
    (b : ANativeWindowBuffer) (i : Nat) (h : handleMatches slots oob b i = true) :
    ∃ g, (slotAt slots oob (i : Int)).mGraphicBuffer = some g ∧ g.handle = b.handle := by
  unfold handleMatches at h
  cases hg : (slotAt slots oob (i : Int)).mGraphicBuffer with
  | none => rw [hg] at h; cases h
  | some g =>
    rw [hg] at h
    exact ⟨g, rfl, by simpa using h⟩

theorem resolveChecked_eq_resolveEligible {c : Consts} {s : CameraNativeWindow} (hI : Inv c s)
    (e : Env) (buffer : Option ANativeWindowBuffer) :
    resolveChecked c e s buffer = resolveEligible e s buffer := by
  have hmin := hI.min_le
  have hnum := hI.le_num
  cases buffer with
  | none =>
    have hb : getSlotFromBufferLocked c e s none = BAD_VALUE := rfl
    unfold resolveChecked
    rw [if_pos (Or.inl (by rw [hb]; exact BAD_VALUE_neg))]
    rfl
  | some b =>
    show _ = (List.range s.mBufferCount.toNat).find? (handleMatches s.mSlots e.oob b)
    rcases getSlotFromBufferLocked_cases c e s b with ⟨hb, hnone⟩ | ⟨i, hi, hiN, hm, hfirst⟩
    · unfold resolveChecked
      rw [if_pos (Or.inl (by rw [hb]; exact BAD_VALUE_neg))]
      symm
      rw [List.find?_range_eq_none]
      intro j hj
      rw [hnone j (by omega)]
      rfl
    · obtain ⟨g, hg, _⟩ := buffer_of_handleMatches _ _ _ _ hm
      have hic : (i : Int) < s.mBufferCount := by
        by_contra hn
        have hil : i < s.mSlots.length := by
          have := hI.length_eq
          omega
        have := (hI.inert i _ (getElem?_slotAt s.mSlots e.oob i hil) (by omega)).2
        rw [this] at hg
        cases hg
      unfold resolveChecked
      rw [hi, if_neg (by omega)]
      symm
      rw [List.find?_range_eq_some]
      refine ⟨by simpa using hm, List.mem_range.mpr (by omega), ?_⟩
      intro j hj
      rw [hfirst j hj]
      rfl

/-- C22: in every state reached from construction, each slot with index at or
beyond `mBufferCount` is FREE and owns no buffer; consequently resolving a
handle by `getSlotFromBufferLocked` over all `NUM_BUFFER_SLOTS` slots and then
rejecting indices outside `[0, mBufferCount)` gives the same result as
resolving against the slots `[0, mBufferCount)` only. -/
theorem slots_beyond_count_inert (c : Consts) (hs : c.Sane) (calls : List (Env × Op))
    (e : Env) (buffer : Option ANativeWindowBuffer) :
    (∀ i : Nat, (run c (init c) calls).mBufferCount ≤ (i : Int) → i < c.NUM_BUFFER_SLOTS →
      (slotAt (run c (init c) calls).mSlots e.oob (i : Int)).mBufferState = BufferState.FREE ∧
      (slotAt (run c (init c) calls).mSlots e.oob (i : Int)).mGraphicBuffer = none) ∧
    resolveChecked c e (run c (init c) calls) buffer
      = resolveEligible e (run c (init c) calls) buffer := by
  have hI : Inv c (run c (init c) calls) := inv_run hs calls _ (inv_init c hs)
  refine ⟨?_, resolveChecked_eq_resolveEligible hI e buffer⟩
  intro i hi hiN
  have hil : i < (run c (init c) calls).mSlots.length := by
    rw [hI.length_eq]; exact hiN
  exact hI.inert i _ (getElem?_slotAt _ e.oob i hil) hi

/-- C22 at `sampleCalls`: slot 3 lies beyond the three slots in use and is FREE
with no buffer, and handle 9 resolves to slot 2 both ways. -/
theorem slots_beyond_count_inert_witness :
    (slotAt (run sampleConsts (init sampleConsts) sampleCalls).mSlots sampleEnv.oob
      3).mBufferState = BufferState.FREE ∧
    (slotAt (run sampleConsts (init sampleConsts) sampleCalls).mSlots sampleEnv.oob
      3).mGraphicBuffer = none ∧
    resolveEligible sampleEnv (run sampleConsts (init sampleConsts) sampleCalls) (some ⟨9⟩)
      = some 2 ∧
    resolveChecked sampleConsts sampleEnv (run sampleConsts (init sampleConsts) sampleCalls)
        (some ⟨9⟩)
      = resolveEligible sampleEnv (run sampleConsts (init sampleConsts) sampleCalls) (some ⟨9⟩) :=
  have h := slots_beyond_count_inert sampleConsts (by decide) sampleCalls sampleEnv (some ⟨9⟩)
  ⟨(h.1 3 (by decide) (by decide)).1, (h.1 3 (by decide) (by decide)).2, by decide, h.2⟩

/-! ## C23: the indices read by the scan -/

theorem slotAtChecked_of_neg (slots : List BufferSlot) (i : Int) (h : i < 0) :
    slotAtChecked slots i = none := by
  simp [slotAtChecked, not_le.mpr h]

theorem slotAtChecked_of_lt (slots : List BufferSlot) (oob : BufferSlot) (i : Nat)
    (h : i < slots.length) : slotAtChecked slots (i : Int) = some (slotAt slots oob (i : Int)) := by
  rw [← getElem?_slotAt slots oob i h]
  simp [slotAtChecked]

/-- The bounds-checked scan over the slots `[0, n)`: it runs into an
out-of-range read exactly when one of these slots is FREE, because the first
FREE slot is compared with `mSlots[INVALID_BUFFER_SLOT]`. -/
theorem scanChecked_fold (slots : List BufferSlot) (oob : BufferSlot) (inv : Int)
    (hinv : inv < 0) (n : Nat) (hn : n ≤ slots.length) :
    ((List.range n).foldl
        (fun (acc : Option (Int × Int)) (i : Nat) =>
          acc.bind (fun st => scanStepChecked slots st i)) (some (inv, 0)) = none ∧
      ∃ j : Nat, j < n ∧ (slotAt slots oob (j : Int)).mBufferState = BufferState.FREE) ∨
    ((∃ d : Int, (List.range n).foldl
        (fun (acc : Option (Int × Int)) (i : Nat) =>
          acc.bind (fun st => scanStepChecked slots st i)) (some (inv, 0)) = some (inv, d)) ∧
      ∀ j : Nat, j < n → (slotAt slots oob (j : Int)).mBufferState ≠ BufferState.FREE) := by
  induction n with
  | zero => right; exact ⟨⟨0, rfl⟩, fun j hj => absurd hj (Nat.not_lt_zero j)⟩
  | succ n ih =>
    rw [List.range_succ, List.foldl_append]
    simp only [List.foldl_cons, List.foldl_nil]
    rcases ih (by omega) with ⟨hnone, j, hj, hfree⟩ | ⟨⟨d, hsome⟩, hnofree⟩
    · left
      rw [hnone]
      exact ⟨rfl, j, by omega, hfree⟩
    · rw [hsome]
      simp only [Option.some_bind]
      unfold scanStepChecked
      rw [slotAtChecked_of_lt slots oob n (by omega)]
      dsimp only
      cases hst : (slotAt slots oob (n : Int)).mBufferState with
      | DEQUEUED =>
        right
        rw [if_pos rfl]
        refine ⟨⟨d + 1, rfl⟩, ?_⟩
        intro j hj
        rcases Nat.lt_succ_iff_lt_or_eq.mp hj with hj | hj
        · exact hnofree j hj
        · subst hj; rw [hst]; decide
      | FREE =>
        left
        have hne : ¬ (BufferState.FREE = BufferState.DEQUEUED) := by decide
        rw [if_neg hne, if_pos rfl, slotAtChecked_of_neg slots inv hinv]
        exact ⟨rfl, n, by omega, hst⟩

theorem dequeueScanChecked_none_iff (c : Consts) (e : Env) (s : CameraNativeWindow)
    (hinv : c.INVALID_BUFFER_SLOT < 0) (hwf : WellFormed c s) :
    dequeueScanChecked c s = none ↔
      ∃ j : Nat, (j : Int) < s.mBufferCount ∧
        (slotAt s.mSlots e.oob (j : Int)).mBufferState = BufferState.FREE := by
  have hn : s.mBufferCount.toNat ≤ s.mSlots.length := by
    have h1 := hwf.1
    have h2 := hwf.2
    omega
  unfold dequeueScanChecked
  rcases scanChecked_fold s.mSlots e.oob c.INVALID_BUFFER_SLOT hinv s.mBufferCount.toNat hn with
    ⟨hnone, j, hj, hfree⟩ | ⟨⟨d, hsome⟩, hnofree⟩
  · exact ⟨fun _ => ⟨j, by omega, hfree⟩, fun _ => hnone⟩
  · rw [hsome]
    constructor
    · intro h; cases h
    · rintro ⟨j, hj, hfree⟩
      exact absurd hfree (hnofree j (by omega))

/-- C23 (the code at the failing input): on a freshly constructed pool the
bounds-checked scan of `dequeueBuffer` takes the out-of-bounds branch: slot 0 is
FREE while `found` is still `INVALID_BUFFER_SLOT = -1`, so `isOlder` reads
`mSlots[-1]`, outside `[0, NUM_BUFFER_SLOTS)`; the unchecked scan goes on to
select slot 0. -/
theorem dequeueScan_reads_out_of_bounds :
    (slotAt (init sampleConsts).mSlots sampleEnv.oob 0).mBufferState = BufferState.FREE ∧
    slotAtChecked (init sampleConsts).mSlots sampleConsts.INVALID_BUFFER_SLOT = none ∧
    scanStepChecked (init sampleConsts).mSlots (sampleConsts.INVALID_BUFFER_SLOT, 0) 0 = none ∧
    dequeueScanChecked sampleConsts (init sampleConsts) = none ∧
    (dequeueScan sampleConsts sampleEnv (init sampleConsts)).1 = 0 := by
  decide

/-! ## C24: ties are broken by the lowest index -/

theorem scanStep_of_free (slots : List BufferSlot) (oob : BufferSlot) (st : Int × Int) (i : Nat)
    (h0 : 0 ≤ st.1)
    (hfree : (slotAt slots oob (i : Int)).mBufferState = BufferState.FREE) :
    (scanStep slots oob st i).1 =
      if (slotAt slots oob (i : Int)).mFrameNumber < (slotAt slots oob st.1).mFrameNumber
      then (i : Int) else st.1 := by
  have hne : ¬ (BufferState.FREE = BufferState.DEQUEUED) := by decide
  have hnn : ¬ st.1 < 0 := by omega
  unfold scanStep
  simp only [hfree, hne, if_false, if_true]
  by_cases hold : (slotAt slots oob (i : Int)).mFrameNumber < (slotAt slots oob st.1).mFrameNumber
  · simp only [hold, decide_True, or_true, if_true]
  · simp only [hold, decide_False, hnn, false_or, Bool.false_eq_true, if_false]

theorem dequeueScan_eq_lowest_min (c : Consts) (e : Env) (s : CameraNativeWindow)
    (hinv : c.INVALID_BUFFER_SLOT < 0) (k : Nat) (hk : (k : Int) < s.mBufferCount)
    (hfree : (slotAt s.mSlots e.oob (k : Int)).mBufferState = BufferState.FREE)
    (hmin : ∀ j : Nat, (j : Int) < s.mBufferCount →
      (slotAt s.mSlots e.oob (j : Int)).mBufferState = BufferState.FREE →
      (slotAt s.mSlots e.oob (k : Int)).mFrameNumber
        ≤ (slotAt s.mSlots e.oob (j : Int)).mFrameNumber)
    (hfirst : ∀ j : Nat, j < k →
      (slotAt s.mSlots e.oob (j : Int)).mBufferState = BufferState.FREE →
      (slotAt s.mSlots e.oob (j : Int)).mFrameNumber
        ≠ (slotAt s.mSlots e.oob (k : Int)).mFrameNumber) :
    (dequeueScan c e s).1 = (k : Int) := by
  rcases scanInv_dequeueScan c e s hinv with ⟨_, hnone⟩ | ⟨h0, hlt, hfr, hsc⟩
  · exact absurd hfree (hnone k (by omega))
  · obtain ⟨m, hm⟩ := Int.eq_ofNat_of_zero_le h0
    rw [hm] at hlt hfr hsc ⊢
    have hmk := hmin m (by omega) hfr
    have hkm := hsc k (by omega) hfree
    rcases lt_trichotomy m k with hlt2 | heq | hgt
    · exact absurd (le_antisymm hkm.1 hmk) (hfirst m hlt2 hfr)
    · rw [heq]
    · have := hkm.2 (by omega)
      omega

/-- C24: (1) once a candidate has been found, a FREE slot `i` replaces it
exactly when its frame number is strictly smaller; (2) the scan of
`dequeueBuffer` selects the FREE slot of least frame number in
`[0, mBufferCount)` that has the lowest index; (3) on a freshly constructed
pool with succeeding allocations, the acquire number `k` (counting from 0, up
to `MIN_BUFFER_SLOTS` of them) selects slot `k`, returns its new buffer and
leaves the pool as the start of acquire number `k + 1`. -/
theorem scan_prefers_lowest_index (c : Consts) (hs : c.Sane) (e : Env)
    (s : CameraNativeWindow) :
    (∀ (st : Int × Int) (i : Nat), 0 ≤ st.1 →
      (slotAt s.mSlots e.oob (i : Int)).mBufferState = BufferState.FREE →
      (scanStep s.mSlots e.oob st i).1 =
        if (slotAt s.mSlots e.oob (i : Int)).mFrameNumber
            < (slotAt s.mSlots e.oob st.1).mFrameNumber
        then (i : Int) else st.1) ∧
    (∀ k : Nat, (k : Int) < s.mBufferCount →
      (slotAt s.mSlots e.oob (k : Int)).mBufferState = BufferState.FREE →
      (∀ j : Nat, (j : Int) < s.mBufferCount →
        (slotAt s.mSlots e.oob (j : Int)).mBufferState = BufferState.FREE →
        (slotAt s.mSlots e.oob (k : Int)).mFrameNumber
          ≤ (slotAt s.mSlots e.oob (j : Int)).mFrameNumber) →
      (∀ j : Nat, j < k →
        (slotAt s.mSlots e.oob (j : Int)).mBufferState = BufferState.FREE →
        (slotAt s.mSlots e.oob (j : Int)).mFrameNumber
          ≠ (slotAt s.mSlots e.oob (k : Int)).mFrameNumber) →
      (dequeueScan c e s).1 = (k : Int)) ∧
    (∀ (envs : List Env) (k : Nat) (ek : Env), (∀ x ∈ envs, x.initCheck = NO_ERROR) →
      envs.length ≤ c.MIN_BUFFER_SLOTS → envs[k]? = some ek →
      (dequeueScan c ek (run c (init c) (acquireCalls (envs.take k)))).1 = (k : Int) ∧
      dequeueBuffer c ek (run c (init c) (acquireCalls (envs.take k)))
        = DequeueResult.done NO_ERROR (some (newGraphicBuffer ek (init c)))
            (run c (init c) (acquireCalls (envs.take (k + 1))))) := by
  refine ⟨fun st i h0 hfree => scanStep_of_free s.mSlots e.oob st i h0 hfree,
    fun k hk hfree hmin hfirst => dequeueScan_eq_lowest_min c e s hs.1 k hk hfree hmin hfirst,
    ?_⟩
  intro envs k ek hok hlen hk
  have hkl : k < envs.length := lt_length_of_some _ _ _ hk
  have htl : (envs.take k).length = k := List.length_take_of_le (le_of_lt hkl)
  have hsucc : envs.take (k + 1) = envs.take k ++ [ek] := by
    rw [List.take_succ, hk]
    rfl
  have hrk := run_acquireCalls c hs (envs.take k)
    (fun x hx => hok x (List.mem_of_mem_take hx)) (by omega)
  have hrk1 := run_acquireCalls c hs (envs.take (k + 1))
    (fun x hx => hok x (List.mem_of_mem_take hx)) (by rw [List.length_take]; omega)
  have h := dequeueBuffer_acquiredPool c hs (envs.take k) ek (by omega)
    (hok ek (List.getElem?_mem hk))
  rw [hrk, hrk1, hsucc]
  rw [htl] at h
  exact h

/-- C24 on a freshly constructed pool with handles 7, 8, 9: the second acquire
selects slot 1. -/
theorem scan_prefers_lowest_index_witness :
    (dequeueScan sampleConsts { sampleEnv with allocHandle := 8 }
      (run sampleConsts (init sampleConsts) (acquireCalls (sampleEnvs.take 1)))).1 = 1 :=
  ((scan_prefers_lowest_index sampleConsts (by decide) sampleEnv samplePool).2.2
    sampleEnvs 1 { sampleEnv with allocHandle := 8 } (by decide) (by decide) (by decide)).1

/-! ## C26: a DEQUEUED slot without a buffer -/

theorem resolved_slot_has_buffer (c : Consts) (e : Env) (s : CameraNativeWindow)
    (buffer : Option ANativeWindowBuffer) (k : Nat)
    (hres : getSlotFromBufferLocked c e s buffer = (k : Int)) :
    ∃ g, (slotAt s.mSlots e.oob (k : Int)).mGraphicBuffer = some g := by
  have hbad := BAD_VALUE_neg
  cases buffer with
  | none =>
    have hb : getSlotFromBufferLocked c e s none = BAD_VALUE := rfl
    rw [hb] at hres
    omega
  | some b =>
    rcases getSlotFromBufferLocked_cases c e s b with ⟨hb, _⟩ | ⟨i, hi, _, hm, _⟩
    · rw [hb] at hres
      omega
    · rw [hi] at hres
      have hik : i = k := by omega
      rw [← hik]
      obtain ⟨g, hg, _⟩ := buffer_of_handleMatches _ _ _ _ hm
      exact ⟨g, hg⟩

theorem setBufferCount_of_held (c : Consts) (e : Env) (s : CameraNativeWindow) (n : Int)
    (hany : anyDequeued e s = true) : (setBufferCount c e s n).2 = s := by
  unfold setBufferCount
  by_cases h1 : n > (c.NUM_BUFFER_SLOTS : Int)
  · rw [if_pos h1]
  · rw [if_neg h1]
    by_cases h2 : n = s.mBufferCount
    · rw [if_pos h2]
    · rw [if_neg h2]
      by_cases h3 : n < (c.MIN_BUFFER_SLOTS : Int)
      · rw [if_pos h3]
      · rw [if_neg h3, if_pos hany]

theorem step_keeps_stuck_slot (c : Consts) (hinv : c.INVALID_BUFFER_SLOT < 0) (e : Env)
    (s : CameraNativeWindow) (hwf : WellFormed c s) (i : Nat)
    (hi : (i : Int) < s.mBufferCount)
    (hst : (slotAt s.mSlots e.oob (i : Int)).mBufferState = BufferState.DEQUEUED)
    (hbuf : (slotAt s.mSlots e.oob (i : Int)).mGraphicBuffer = none) (op : Op) :
    slotAt (step c e s op).mSlots e.oob (i : Int) = slotAt s.mSlots e.oob (i : Int) ∧
    (step c e s op).mBufferCount = s.mBufferCount := by
  have hwf2 := hwf
  obtain ⟨hlen, hnum⟩ := hwf2
  cases op with
  | dequeueBuffer =>
    refine ⟨?_, dequeueBuffer_mBufferCount c e s⟩
    rw [step_dequeueBuffer]
    rcases dequeueBuffer_cases c e s hinv hwf with
      ⟨hw, _⟩ | ⟨j, _, _, _, hfree, ⟨g, _, hd⟩ | ⟨_, _, hd⟩ | ⟨_, _, hd⟩⟩
    · rw [hw]
    all_goals
      rw [hd]
      have hne : (j : Int) ≠ (i : Int) := by
        intro heq
        rw [heq, hst] at hfree
        cases hfree
      dsimp only
      rw [slotAt_setSlot_ne _ _ _ _ _ hne]
  | queueBuffer buffer =>
    show slotAt (queueBuffer c e s buffer).2.mSlots e.oob (i : Int) = _ ∧
      (queueBuffer c e s buffer).2.mBufferCount = _
    rcases resolve_cases c e s buffer with hf | ⟨j, hj, hjc, hjst⟩
    · rw [queueBuffer_fails c e s buffer hf]
      exact ⟨rfl, rfl⟩
    · obtain ⟨g, hg⟩ := resolved_slot_has_buffer c e s buffer j hj
      have hne : (j : Int) ≠ (i : Int) := by
        intro heq
        rw [heq, hbuf] at hg
        cases hg
      rw [queueBuffer_ok c e s buffer _ hj (Int.natCast_nonneg j) hjc (by omega) hjst]
      dsimp only
      rw [slotAt_setSlot_ne _ _ _ _ _ hne]
      exact ⟨rfl, rfl⟩
  | cancelBuffer buffer =>
    show slotAt (cancelBuffer c e s buffer).2.mSlots e.oob (i : Int) = _ ∧
      (cancelBuffer c e s buffer).2.mBufferCount = _
    rcases resolve_cases c e s buffer with hf | ⟨j, hj, hjc, hjst⟩
    · rw [cancelBuffer_fails c e s buffer hf]
      exact ⟨rfl, rfl⟩
    · obtain ⟨g, hg⟩ := resolved_slot_has_buffer c e s buffer j hj
      have hne : (j : Int) ≠ (i : Int) := by
        intro heq
        rw [heq, hbuf] at hg
        cases hg
      rw [cancelBuffer_ok c e s buffer _ hj (Int.natCast_nonneg j) hjc (by omega) hjst]
      dsimp only
      rw [slotAt_setSlot_ne _ _ _ _ _ hne]
      exact ⟨rfl, rfl⟩
  | lockBuffer buffer => exact ⟨rfl, rfl⟩
  | setBufferCount n =>
    show slotAt (setBufferCount c e s n).2.mSlots e.oob (i : Int) = _ ∧
      (setBufferCount c e s n).2.mBufferCount = _
    rw [setBufferCount_of_held c e s n (anyDequeued_of_slot e s i hi hst)]
    exact ⟨rfl, rfl⟩
  | query what => exact ⟨rfl, rfl⟩
  | setSwapInterval interval => exact ⟨rfl, rfl⟩
  | setUsage u => exact ⟨rfl, rfl⟩
  | setBuffersDimensions w ht =>
    show slotAt (setBuffersDimensions s w ht).2.mSlots e.oob (i : Int) = _ ∧
      (setBuffersDimensions s w ht).2.mBufferCount = _
    unfold setBuffersDimensions
    split
    · exact ⟨rfl, rfl⟩
    · split <;> exact ⟨rfl, rfl⟩
  | setBuffersFormat f =>
    show slotAt (setBuffersFormat s f).2.mSlots e.oob (i : Int) = _ ∧
      (setBuffersFormat s f).2.mBufferCount = _
    unfold setBuffersFormat
    split <;> exact ⟨rfl, rfl⟩
  | setBuffersTimestamp ts => exact ⟨rfl, rfl⟩

/-- C26: on a well-formed pool in which slot `i < mBufferCount` is DEQUEUED and
owns no buffer, every single call (`dequeueBuffer`, `queueBuffer` or
`cancelBuffer` with any handle, `lockBuffer`, `setBufferCount` with any `n`,
`query`, any setter) leaves slot `i` exactly as it was, hence DEQUEUED with no
buffer, and leaves `mBufferCount` as it was; and `setBufferCount(n)` returns
`-EINVAL` for every `n` in `[MIN_BUFFER_SLOTS, NUM_BUFFER_SLOTS]` other than
`mBufferCount`. -/
theorem held_slot_without_buffer_is_stuck (c : Consts) (hinv : c.INVALID_BUFFER_SLOT < 0)
    (e : Env) (s : CameraNativeWindow) (hwf : WellFormed c s) (i : Nat)
    (hi : (i : Int) < s.mBufferCount)
    (hst : (slotAt s.mSlots e.oob (i : Int)).mBufferState = BufferState.DEQUEUED)
    (hbuf : (slotAt s.mSlots e.oob (i : Int)).mGraphicBuffer = none) :
    (∀ op : Op,
      slotAt (step c e s op).mSlots e.oob (i : Int) = slotAt s.mSlots e.oob (i : Int) ∧
      (slotAt (step c e s op).mSlots e.oob (i : Int)).mBufferState = BufferState.DEQUEUED ∧
      (slotAt (step c e s op).mSlots e.oob (i : Int)).mGraphicBuffer = none ∧
      (step c e s op).mBufferCount = s.mBufferCount) ∧
    (∀ n : Int, (c.MIN_BUFFER_SLOTS : Int) ≤ n → n ≤ (c.NUM_BUFFER_SLOTS : Int) →
      n ≠ s.mBufferCount → setBufferCount c e s n = (-EINVAL, s)) := by
  constructor
  · intro op
    have h := step_keeps_stuck_slot c hinv e s hwf i hi hst hbuf op
    refine ⟨h.1, ?_, ?_, h.2⟩
    · rw [h.1]; exact hst
    · rw [h.1]; exact hbuf
  · intro n hmin hmax hne
    exact setBufferCount_busy c e s n hmin hmax hne (anyDequeued_of_slot e s i hi hst)

/-- C26 at `stuckPool` (slot 0 DEQUEUED with no buffer after a failed
allocation): a cancel with any handle leaves it so, and growing is refused. -/
theorem held_slot_without_buffer_is_stuck_witness :
    (slotAt (step sampleConsts sampleEnv stuckPool (Op.cancelBuffer (some ⟨7⟩))).mSlots
      sampleEnv.oob 0).mBufferState = BufferState.DEQUEUED ∧
    (slotAt (step sampleConsts sampleEnv stuckPool (Op.cancelBuffer (some ⟨7⟩))).mSlots
      sampleEnv.oob 0).mGraphicBuffer = none ∧
    setBufferCount sampleConsts sampleEnv stuckPool 4 = (-EINVAL, stuckPool) :=
  have h := held_slot_without_buffer_is_stuck sampleConsts (by decide) sampleEnv stuckPool
    ⟨by decide, by decide⟩ 0 (by decide) (by decide) (by decide)
  ⟨(h.1 (Op.cancelBuffer (some ⟨7⟩))).2.1, (h.1 (Op.cancelBuffer (some ⟨7⟩))).2.2.1,
   h.2 4 (by decide) (by decide) (by decide)⟩

/-! ## How a call changes the frame numbers -/

theorem set_same {α : Type} (l : List α) (k : Nat) (a : α) (h : l[k]? = some a) :
    l.set k a = l := by
  apply List.ext_getElem?
  intro i
  rw [List.getElem?_set]
  by_cases hki : k = i
  · rw [if_pos hki, if_pos (lt_length_of_some l a k h), ← hki, h]
  · rw [if_neg hki]

theorem frames_setSlot (s : CameraNativeWindow) (k : Nat) (v : BufferSlot) :
    frames { s with mSlots := setSlot s.mSlots (k : Int) v }
      = (frames s).set k v.mFrameNumber := by
  simp [frames, setSlot, List.map_set]

theorem frames_setSlot_keep (s : CameraNativeWindow) (oob : BufferSlot) (k : Nat)
    (v : BufferSlot) (hk : k < s.mSlots.length)
    (hv : v.mFrameNumber = (slotAt s.mSlots oob (k : Int)).mFrameNumber) :
    frames { s with mSlots := setSlot s.mSlots (k : Int) v } = frames s := by
  rw [frames_setSlot]
  apply set_same
  simp only [frames, List.getElem?_map, getElem?_slotAt s.mSlots oob k hk, hv]
  rfl

theorem setBufferCount_frames (c : Consts) (e : Env) (s : CameraNativeWindow) (n : Int)
    (hlen : s.mSlots.length = c.NUM_BUFFER_SLOTS) :
    frames (setBufferCount c e s n).2 = frames s ∧
    (setBufferCount c e s n).2.mFrameCounter = s.mFrameCounter := by
  have hfree : frames { s with mSlots := s.mSlots.map freeSlot, mBufferCount := n } = frames s := by
    simp [frames, List.map_map, Function.comp_def, freeSlot]
  unfold setBufferCount
  by_cases h1 : n > (c.NUM_BUFFER_SLOTS : Int)
  · rw [if_pos h1]; exact ⟨rfl, rfl⟩
  · rw [if_neg h1]
    by_cases h2 : n = s.mBufferCount
    · rw [if_pos h2]; exact ⟨rfl, rfl⟩
    · rw [if_neg h2]
      by_cases h3 : n < (c.MIN_BUFFER_SLOTS : Int)
      · rw [if_pos h3]; exact ⟨rfl, rfl⟩
      · rw [if_neg h3]
        by_cases h4 : anyDequeued e s = true
        · rw [if_pos h4]; exact ⟨rfl, rfl⟩
        · rw [if_neg h4]
          by_cases h5 : n > s.mBufferCount
          · rw [if_pos h5]; exact ⟨rfl, rfl⟩
          · rw [if_neg h5, freeAllBuffersLocked_eq c e s hlen]
            exact ⟨hfree, rfl⟩

theorem frames_step (c : Consts) (hs : c.Sane) (s : CameraNativeWindow) (hI : Inv c s)
    (e : Env) (op : Op) :
    (frames (step c e s op) = frames s ∧
      (step c e s op).mFrameCounter = s.mFrameCounter ∧
      (∀ b, op = Op.queueBuffer b → (queueBuffer c e s b).1 ≠ OK) ∧
      (∀ b, op = Op.cancelBuffer b → (cancelBuffer c e s b).1 ≠ OK)) ∨
    (∃ (b : Option ANativeWindowBuffer) (k : Nat), op = Op.queueBuffer b ∧
      (queueBuffer c e s b).1 = OK ∧ getSlotFromBufferLocked c e s b = (k : Int) ∧
      k < (frames s).length ∧
      frames (step c e s op) = (frames s).set k (s.mFrameCounter + 1) ∧
      (step c e s op).mFrameCounter = s.mFrameCounter + 1) ∨
    (∃ (b : Option ANativeWindowBuffer) (k : Nat), op = Op.cancelBuffer b ∧
      (cancelBuffer c e s b).1 = OK ∧ getSlotFromBufferLocked c e s b = (k : Int) ∧
      k < (frames s).length ∧
      frames (step c e s op) = (frames s).set k 0 ∧
      (step c e s op).mFrameCounter = s.mFrameCounter) := by
  have hlenf : (frames s).length = s.mSlots.length := by simp [frames]
  cases op with
  | dequeueBuffer =>
    left
    refine ⟨?_, ?_, fun b h => Op.noConfusion h, fun b h => Op.noConfusion h⟩
    · rw [step_dequeueBuffer]
      rcases dequeueBuffer_cases c e s hs.1 hI.wellFormed with
        ⟨hw, _⟩ | ⟨k, _, _, hkl, _, ⟨g, _, hd⟩ | ⟨_, _, hd⟩ | ⟨_, _, hd⟩⟩
      · rw [hw]
      all_goals
        rw [hd]
        exact frames_setSlot_keep s e.oob k _ hkl rfl
    · rw [step_dequeueBuffer]
      rcases dequeueBuffer_cases c e s hs.1 hI.wellFormed with
        ⟨hw, _⟩ | ⟨k, _, _, hkl, _, ⟨g, _, hd⟩ | ⟨_, _, hd⟩ | ⟨_, _, hd⟩⟩
      · rw [hw]
      all_goals
        rw [hd]
  | queueBuffer buffer =>
    rcases resolve_cases c e s buffer with hf | ⟨k, hk, hkc, hkst⟩
    · left
      have hq := queueBuffer_fails c e s buffer hf
      refine ⟨?_, ?_, ?_, fun b h => Op.noConfusion h⟩
      · show frames (queueBuffer c e s buffer).2 = _
        rw [hq]
      · show (queueBuffer c e s buffer).2.mFrameCounter = _
        rw [hq]
      · intro b hb
        cases hb
        rw [hq]
        exact negEINVAL_ne_OK
    · right; left
      have hl := hI.lt_length _ hkc
      have hq := queueBuffer_ok c e s buffer _ hk (Int.natCast_nonneg k) hkc hl hkst
      refine ⟨buffer, k, rfl, by rw [hq], hk, by omega, ?_, ?_⟩
      · show frames (queueBuffer c e s buffer).2 = _
        rw [hq]
        simp [frames, setSlot, List.map_set]
      · show (queueBuffer c e s buffer).2.mFrameCounter = _
        rw [hq]
  | cancelBuffer buffer =>
    rcases resolve_cases c e s buffer with hf | ⟨k, hk, hkc, hkst⟩
    · left
      have hq := cancelBuffer_fails c e s buffer hf
      refine ⟨?_, ?_, fun b h => Op.noConfusion h, ?_⟩
      · show frames (cancelBuffer c e s buffer).2 = _
        rw [hq]
      · show (cancelBuffer c e s buffer).2.mFrameCounter = _
        rw [hq]
      · intro b hb
        cases hb
        rw [hq]
        exact negEINVAL_ne_OK
    · right; right
      have hl := hI.lt_length _ hkc
      have hq := cancelBuffer_ok c e s buffer _ hk (Int.natCast_nonneg k) hkc hl hkst
      refine ⟨buffer, k, rfl, by rw [hq], hk, by omega, ?_, ?_⟩
      · show frames (cancelBuffer c e s buffer).2 = _
        rw [hq]
        simp [frames, setSlot, List.map_set]
      · show (cancelBuffer c e s buffer).2.mFrameCounter = _
        rw [hq]
  | lockBuffer buffer => left; exact ⟨rfl, rfl, fun b h => Op.noConfusion h, fun b h => Op.noConfusion h⟩
  | setBufferCount n =>
    left
    have h := setBufferCount_frames c e s n hI.length_eq
    exact ⟨h.1, h.2, fun b h => Op.noConfusion h, fun b h => Op.noConfusion h⟩
  | query what => left; exact ⟨rfl, rfl, fun b h => Op.noConfusion h, fun b h => Op.noConfusion h⟩
  | setSwapInterval interval =>
    left; exact ⟨rfl, rfl, fun b h => Op.noConfusion h, fun b h => Op.noConfusion h⟩
  | setUsage u => left; exact ⟨rfl, rfl, fun b h => Op.noConfusion h, fun b h => Op.noConfusion h⟩
  | setBuffersDimensions w ht =>
    left
    refine ⟨?_, ?_, fun b h => Op.noConfusion h, fun b h => Op.noConfusion h⟩
    · show frames (setBuffersDimensions s w ht).2 = _
      unfold setBuffersDimensions
      split
      · rfl
      · split <;> rfl
    · show (setBuffersDimensions s w ht).2.mFrameCounter = _
      unfold setBuffersDimensions
      split
      · rfl
      · split <;> rfl
  | setBuffersFormat f =>
    left
    refine ⟨?_, ?_, fun b h => Op.noConfusion h, fun b h => Op.noConfusion h⟩
    · show frames (setBuffersFormat s f).2 = _
      unfold setBuffersFormat
      split <;> rfl
    · show (setBuffersFormat s f).2.mFrameCounter = _
      unfold setBuffersFormat
      split <;> rfl
  | setBuffersTimestamp ts =>
    left; exact ⟨rfl, rfl, fun b h => Op.noConfusion h, fun b h => Op.noConfusion h⟩

/-! ## C25: frame numbers and the frame counter -/

theorem getElem?_frames (s : CameraNativeWindow) (oob : BufferSlot) (i : Nat)
    (h : i < s.mSlots.length) :
    (frames s)[i]? = some (slotAt s.mSlots oob (i : Int)).mFrameNumber := by
  simp only [frames, List.getElem?_map, getElem?_slotAt s.mSlots oob i h]
  rfl

theorem framesOk_init (c : Consts) : FramesOk (frames (init c)) (init c).mFrameCounter := by
  have hall : ∀ (i x : Nat), (frames (init c))[i]? = some x → x = 0 := by
    intro i x hx
    have hmem : x ∈ frames (init c) := List.getElem?_mem hx
    simp only [frames, init, List.map_replicate] at hmem
    exact List.eq_of_mem_replicate hmem
  refine ⟨fun i x hx => ?_, fun i j x hx _ hne => ?_⟩
  · rw [hall i x hx]
    exact Nat.zero_le _
  · exact absurd (hall i x hx) hne

theorem framesOk_set_new (fr : List Nat) (fc k : Nat) (h : FramesOk fr fc) :
    FramesOk (fr.set k (fc + 1)) (fc + 1) := by
  obtain ⟨hb, hu⟩ := h
  refine ⟨fun i x hx => ?_, fun i j x hi hj hne => ?_⟩
  · rw [List.getElem?_set] at hx
    by_cases hki : k = i
    · rw [if_pos hki] at hx
      split at hx
      · cases hx; exact le_refl _
      · cases hx
    · rw [if_neg hki] at hx
      exact le_trans (hb i x hx) (Nat.le_succ _)
  · rw [List.getElem?_set] at hi hj
    by_cases hki : k = i
    · by_cases hkj : k = j
      · omega
      · exfalso
        rw [if_pos hki] at hi
        rw [if_neg hkj] at hj
        split at hi
        · cases hi
          have := hb j _ hj
          omega
        · cases hi
    · by_cases hkj : k = j
      · exfalso
        rw [if_neg hki] at hi
        rw [if_pos hkj] at hj
        split at hj
        · cases hj
          have := hb i _ hi
          omega
        · cases hj
      · rw [if_neg hki] at hi
        rw [if_neg hkj] at hj
        exact hu i j x hi hj hne

theorem framesOk_set_zero (fr : List Nat) (fc k : Nat) (h : FramesOk fr fc) :
    FramesOk (fr.set k 0) fc := by
  obtain ⟨hb, hu⟩ := h
  refine ⟨fun i x hx => ?_, fun i j x hi hj hne => ?_⟩
  · rw [List.getElem?_set] at hx
    by_cases hki : k = i
    · rw [if_pos hki] at hx
      split at hx
      · cases hx; exact Nat.zero_le _
      · cases hx
    · rw [if_neg hki] at hx
      exact hb i x hx
  · rw [List.getElem?_set] at hi hj
    by_cases hki : k = i
    · exfalso
      rw [if_pos hki] at hi
      split at hi
      · cases hi; exact hne rfl
      · cases hi
    · by_cases hkj : k = j
      · exfalso
        rw [if_pos hkj] at hj
        split at hj
        · cases hj; exact hne rfl
        · cases hj
      · rw [if_neg hki] at hi
        rw [if_neg hkj] at hj
        exact hu i j x hi hj hne

theorem framesOk_step (c : Consts) (hs : c.Sane) (s : CameraNativeWindow) (hI : Inv c s)
    (h : FramesOk (frames s) s.mFrameCounter) (e : Env) (op : Op) :
    FramesOk (frames (step c e s op)) (step c e s op).mFrameCounter ∧
    s.mFrameCounter ≤ (step c e s op).mFrameCounter := by
  rcases frames_step c hs s hI e op with
    ⟨hf, hc, _, _⟩ | ⟨b, k, _, _, _, _, hf, hc⟩ | ⟨b, k, _, _, _, _, hf, hc⟩
  · rw [hf, hc]; exact ⟨h, le_refl _⟩
  · rw [hf, hc]; exact ⟨framesOk_set_new _ _ k h, Nat.le_succ _⟩
  · rw [hf, hc]; exact ⟨framesOk_set_zero _ _ k h, le_refl _⟩

theorem framesOk_run (c : Consts) (hs : c.Sane) (calls : List (Env × Op))
    (s : CameraNativeWindow) (hI : Inv c s) (h : FramesOk (frames s) s.mFrameCounter) :
    FramesOk (frames (run c s calls)) (run c s calls).mFrameCounter := by
  induction calls generalizing s with
  | nil => exact h
  | cons eo rest ih =>
    show FramesOk (frames (run c (step c eo.1 s eo.2) rest)) _
    exact ih _ (inv_step hs hI eo.1 eo.2).1 (framesOk_step c hs s hI h eo.1 eo.2).1

/-- C25: in every state reached from construction, every slot's frame number is
at most `mFrameCounter`, two different slots with non-zero frame numbers have
different frame numbers, and no call decreases `mFrameCounter` (the counter
being an unbounded natural number). -/
theorem frameNumbers_bounded_and_distinct (c : Consts) (hs : c.Sane)
    (calls : List (Env × Op)) (oob : BufferSlot) :
    (∀ i : Nat, i < c.NUM_BUFFER_SLOTS →
      (slotAt (run c (init c) calls).mSlots oob (i : Int)).mFrameNumber
        ≤ (run c (init c) calls).mFrameCounter) ∧
    (∀ i j : Nat, i < c.NUM_BUFFER_SLOTS → j < c.NUM_BUFFER_SLOTS → i ≠ j →
      (slotAt (run c (init c) calls).mSlots oob (i : Int)).mFrameNumber ≠ 0 →
      (slotAt (run c (init c) calls).mSlots oob (j : Int)).mFrameNumber ≠ 0 →
      (slotAt (run c (init c) calls).mSlots oob (i : Int)).mFrameNumber
        ≠ (slotAt (run c (init c) calls).mSlots oob (j : Int)).mFrameNumber) ∧
    (∀ (e : Env) (op : Op), (run c (init c) calls).mFrameCounter
      ≤ (step c e (run c (init c) calls) op).mFrameCounter) := by
  have hI : Inv c (run c (init c) calls) := inv_run hs calls _ (inv_init c hs)
  have hF := framesOk_run c hs calls (init c) (inv_init c hs) (framesOk_init c)
  generalize run c (init c) calls = s at hI hF
  have hlen := hI.length_eq
  refine ⟨?_, ?_, ?_⟩
  · intro i hi
    exact hF.1 i _ (getElem?_frames s oob i (by omega))
  · intro i j hi hj hij hni _ heq
    have h1 := getElem?_frames s oob i (by omega)
    have h2 := getElem?_frames s oob j (by omega)
    rw [← heq] at h2
    exact hij (hF.2 i j _ h1 h2 hni)
  · intro e op
    exact (framesOk_step c hs s hI hF e op).2

/-- C25 at `sampleCalls` (one release so far): the frame counter is 1, slot 1
carries frame number 1 and slot 0 carries 0. -/
theorem frameNumbers_bounded_and_distinct_witness :
    (run sampleConsts (init sampleConsts) sampleCalls).mFrameCounter = 1 ∧
    (slotAt (run sampleConsts (init sampleConsts) sampleCalls).mSlots sampleEnv.oob
      1).mFrameNumber = 1 ∧
    (slotAt (run sampleConsts (init sampleConsts) sampleCalls).mSlots sampleEnv.oob
      ((1 : Nat) : Int)).mFrameNumber
      ≤ (run sampleConsts (init sampleConsts) sampleCalls).mFrameCounter :=
  ⟨by decide, by decide,
   (frameNumbers_bounded_and_distinct sampleConsts (by decide) sampleCalls sampleEnv.oob).1 1
     (by decide)⟩

/-! ## C21: what frame number 0 means -/

theorem marksAgree_step (c : Consts) (hs : c.Sane) (s : CameraNativeWindow) (hI : Inv c s)
    (m : Nat → Bool) (h : MarksAgree s m) (e : Env) (op : Op) :
    MarksAgree (step c e s op) (releasedMarkStep false c e s m op) := by
  rcases frames_step c hs s hI e op with
    ⟨hf, _, hnq, hnc⟩ | ⟨b, k, hop, hok, hk, hkl, hf, _⟩ | ⟨b, k, hop, hok, hk, hkl, hf, _⟩
  · intro i x hx
    rw [hf] at hx
    have hm : releasedMarkStep false c e s m op i = m i := by
      cases op with
      | queueBuffer b =>
        show (if (queueBuffer c e s b).1 = OK ∧ _ then true else m i) = m i
        rw [if_neg (fun hc => hnq b rfl hc.1)]
      | cancelBuffer b =>
        show (if (cancelBuffer c e s b).1 = OK ∧ _ then false else m i) = m i
        rw [if_neg (fun hc => hnc b rfl hc.1)]
      | setBufferCount n => simp [releasedMarkStep]
      | dequeueBuffer => rfl
      | lockBuffer b => rfl
      | query w => rfl
      | setSwapInterval iv => rfl
      | setUsage u => rfl
      | setBuffersDimensions w ht => rfl
      | setBuffersFormat f => rfl
      | setBuffersTimestamp ts => rfl
    rw [hm]
    exact h i x hx
  · subst hop
    intro i x hx
    rw [hf, List.getElem?_set] at hx
    show x = 0 ↔ (if (queueBuffer c e s b).1 = OK ∧
      getSlotFromBufferLocked c e s b = (i : Int) then true else m i) = false
    by_cases hki : k = i
    · rw [if_pos hki, if_pos hkl] at hx
      cases hx
      rw [if_pos ⟨hok, by rw [hk, hki]⟩]
      constructor
      · intro h0; omega
      · intro hc; cases hc
    · rw [if_neg hki] at hx
      rw [if_neg (fun hc => hki (by have := hc.2; omega))]
      exact h i x hx
  · subst hop
    intro i x hx
    rw [hf, List.getElem?_set] at hx
    show x = 0 ↔ (if (cancelBuffer c e s b).1 = OK ∧
      getSlotFromBufferLocked c e s b = (i : Int) then false else m i) = false
    by_cases hki : k = i
    · rw [if_pos hki, if_pos hkl] at hx
      cases hx
      rw [if_pos ⟨hok, by rw [hk, hki]⟩]
      exact ⟨fun _ => rfl, fun _ => rfl⟩
    · rw [if_neg hki] at hx
      rw [if_neg (fun hc => hki (by have := hc.2; omega))]
      exact h i x hx

theorem marksAgree_run (c : Consts) (hs : c.Sane) (calls : List (Env × Op))
    (s : CameraNativeWindow) (hI : Inv c s) (m : Nat → Bool) (h : MarksAgree s m) :
    MarksAgree (run c s calls) (releasedMarks false c s m calls) := by
  induction calls generalizing s m with
  | nil => exact h
  | cons eo rest ih =>
    show MarksAgree (run c (step c eo.1 s eo.2) rest)
      (releasedMarks false c (step c eo.1 s eo.2) (releasedMarkStep false c eo.1 s m eo.2) rest)
    exact ih _ (inv_step hs hI eo.1 eo.2).1 _ (marksAgree_step c hs s hI m h eo.1 eo.2)

theorem marksAgree_init (c : Consts) : MarksAgree (init c) (fun _ => false) := by
  intro i x hx
  have hmem : x ∈ frames (init c) := List.getElem?_mem hx
  simp only [frames, init, List.map_replicate] at hmem
  rw [List.eq_of_mem_replicate hmem]
  exact ⟨fun _ => rfl, fun _ => rfl⟩

/-- C21 (code bug): `freeBufferLocked` returns a slot to FREE without resetting
its frame number, which the sibling path `cancelBuffer` does. After
`shrinkCalls` slot 0, released as frame 1, has been freed by the shrinking
`setBufferCount(3)` (it is FREE and owns no buffer) and has not been released
since, yet its frame number is still 1, so the claimed equivalence fails; the
next scan therefore passes over slot 0 and selects slot 1. -/
theorem frameNumber_survives_free :
    (setBufferCount sampleConsts sampleEnv
      (run sampleConsts (init sampleConsts) (shrinkCalls.take 3)) 3).1 = OK ∧
    (slotAt (run sampleConsts (init sampleConsts) shrinkCalls).mSlots sampleEnv.oob
      0).mGraphicBuffer = none ∧
    (slotAt (run sampleConsts (init sampleConsts) shrinkCalls).mSlots sampleEnv.oob
      0).mBufferState = BufferState.FREE ∧
    releasedSinceCancelOrFree sampleConsts shrinkCalls 0 = false ∧
    (slotAt (run sampleConsts (init sampleConsts) shrinkCalls).mSlots sampleEnv.oob
      0).mFrameNumber = 1 ∧
    ¬ ((slotAt (run sampleConsts (init sampleConsts) shrinkCalls).mSlots sampleEnv.oob
        0).mFrameNumber = 0 ↔ releasedSinceCancelOrFree sampleConsts shrinkCalls 0 = false) ∧
    (dequeueScan sampleConsts sampleEnv
      (run sampleConsts (init sampleConsts) shrinkCalls)).1 = 1 := by
  decide

/-- Frame numbers as the code keeps them: in every state reached from
construction, the frame number of a slot is 0 exactly when the slot has not
been successfully released (`queueBuffer` returning `OK`) since it was created
or last cancelled (`cancelBuffer` returning `OK`). A shrinking
`setBufferCount` does not enter: the frame numbers it leaves behind are those
of before the free. -/
theorem frameNumber_zero_iff_releasedSinceCancel (c : Consts) (hs : c.Sane)
    (calls : List (Env × Op)) (oob : BufferSlot) (i : Nat) (hi : i < c.NUM_BUFFER_SLOTS) :
    (slotAt (run c (init c) calls).mSlots oob (i : Int)).mFrameNumber = 0 ↔
      releasedSinceCancel c calls i = false := by
  have hI : Inv c (run c (init c) calls) := inv_run hs calls _ (inv_init c hs)
  have hM := marksAgree_run c hs calls (init c) (inv_init c hs) _ (marksAgree_init c)
  exact hM i _ (getElem?_frames _ oob i (by rw [hI.length_eq]; exact hi))

end CNW
